import Mathlib

/-!
# DriveAssistify: the partition operation planner

A shallow embedding of the planner logic of `src/DriveAssistify.c` (version 1.8):
device-name resolution, the resize derivation and script, the filesystem
creation and repair command selection, the start-sector alignment and the
shell command lines of the destructive workflows.

Conventions.
* A C string is a Lean `String`; the byte walks of the source are done on its
  character list (`String.data`).  A NULL pointer is `none`.
* `long long` and `int` values are `Int` (signed overflow is undefined in C, so
  the arithmetic is that of values within range); C division and remainder
  truncate toward zero and are `Int.tdiv` and `Int.tmod`.
* `%d`, `%lld` in a format string print `toString` of the integer, `%s`
  splices the string.
-/

namespace DriveAssistify

/-! ## C and GLib string helpers -/

/-- C `isdigit` on a byte of a device name: true for `'0'` to `'9'`. -/
def isdigit (c : Char) : Bool := c.isDigit

/-- GLib `g_str_has_prefix (str, pfx)`. -/
def g_str_has_prefix (str pfx : String) : Bool := pfx.data.isPrefixOf str.data

/-- Offset of the last occurrence of the byte `c` in `s`: the pointer that
`g_strrstr (s, "p")` returns for the one-byte needle `"p"`, `none` for NULL. -/
def g_strrstr (s : List Char) (c : Char) : Option Nat :=
  match s with
  | [] => none
  | x :: xs =>
    match g_strrstr xs c with
    | some i => some (i + 1)
    | none => if x = c then some 0 else none

/-- The byte `*(p+1)` for a pointer at offset `p`: the terminating NUL when
`p` is the last byte. -/
def byteAfter (s : List Char) (p : Nat) : Char := s.getD (p + 1) (Char.ofNat 0)

/-- Offset of the first decimal digit of `s`: the pointer at which the loops
`for (p = s; *p; ++p) if (isdigit(*p)) ...` and
`while (*p && !isdigit(*p)) p++;` stop, `none` when they reach the NUL. -/
def firstDigit (s : List Char) : Option Nat :=
  match s with
  | [] => none
  | x :: xs =>
    if isdigit x then some 0
    else
      match firstDigit xs with
      | some i => some (i + 1)
      | none => none

/-! ## Device-name resolution -/

/-- The two guarded blocks at the top of `get_disk_from_partition`: for a name
with the literal prefix `pfx` whose last `'p'` is followed by a digit, the
bytes before that `'p'` (`g_strndup (partition, p - partition)`). -/
def controllerDisk (partition pfx : String) : Option String :=
  if g_str_has_prefix partition pfx then
    match g_strrstr partition.data 'p' with
    | some p =>
      if isdigit (byteAfter partition.data p) then some (String.mk (partition.data.take p))
      else none
    | none => none
  else none

/-- Source `get_disk_from_partition` (DriveAssistify.c:210). -/
def get_disk_from_partition (partition : String) : String :=
  match controllerDisk partition "nvme" with
  | some d => d
  | none =>
    match controllerDisk partition "mmcblk" with
    | some d => d
    | none =>
      match firstDigit partition.data with
      | some p => String.mk (partition.data.take p)
      | none => partition

/-- The `part_num` computation shared by `on_resize_partition_activate`
(DriveAssistify.c:3100), `on_resize_dialog_response` (3365) and
`on_delete_partition_activate` (4235); `none` is the NULL `part_num`. -/
def part_num (partition_name : String) : Option String :=
  if g_str_has_prefix partition_name "nvme" || g_str_has_prefix partition_name "mmcblk" then
    match g_strrstr partition_name.data 'p' with
    | some p =>
      if isdigit (byteAfter partition_name.data p) then
        some (String.mk (partition_name.data.drop (p + 1)))
      else none
    | none => none
  else
    match firstDigit partition_name.data with
    | some p => some (String.mk (partition_name.data.drop p))
    | none => none

/-! ## C number parsing -/

/-- C `isspace` in the "C" locale. -/
def isspace (c : Char) : Bool :=
  c = ' ' || c = '\t' || c = '\n' || c = '\r' || c = Char.ofNat 11 || c = Char.ofNat 12

/-- The digit loop of `atoi`/`atoll`: the value of the leading run of decimal
digits, accumulated onto `acc`. -/
def digitsValue (s : List Char) (acc : Int) : Int :=
  match s with
  | [] => acc
  | c :: cs => if isdigit c then digitsValue cs (acc * 10 + ((c.toNat : Int) - 48)) else acc

/-- The number a text starts with, as `strtoll (s, NULL, 10)` reads it before
it looks at the range: leading white space, an optional sign, then the leading
run of digits; `0` when there is none. -/
def strtoll_digits (s : String) : Int :=
  match s.data.dropWhile isspace with
  | '-' :: r => - digitsValue r 0
  | '+' :: r => digitsValue r 0
  | r => digitsValue r 0

/-- C `atoll`, which glibc runs as `strtoll (s, NULL, 10)`: the number the
text starts with, and `LLONG_MAX` or `LLONG_MIN` for a number beyond the range
of `long long`. -/
def atoll (s : String) : Int :=
  max (-9223372036854775808) (min 9223372036854775807 (strtoll_digits s))

/-! ## Repair-tool selection (`on_auto_fsck_activate`, DriveAssistify.c:1877) -/

/-- What `on_auto_fsck_activate` decides for a row with a filesystem string:
the command it proposes (and runs on confirmation), or the warning dialog
`Filesystem '%s' is not supported for automatic repair`. -/
inductive RepairChoice where
  | command (cmd : String) (fs_name : String)
  | unsupported (filesystem : String)
  deriving DecidableEq, Repr

/-- The `if`/`else if` chain of `on_auto_fsck_activate` (DriveAssistify.c:1907-1953)
for a non-NULL `filesystem`. -/
def auto_fsck_choice (filesystem device_path : String) : RepairChoice :=
  if filesystem = "ext4" ∨ filesystem = "ext3" ∨ filesystem = "ext2" then
    .command ("e2fsck -f -y -v " ++ device_path) "EXT2/3/4"
  else if filesystem = "vfat" ∨ filesystem = "fat32" then
    .command ("dosfsck -a -v " ++ device_path) "FAT32"
  else if filesystem = "ntfs" then
    .command ("ntfsfix " ++ device_path) "NTFS"
  else if filesystem = "xfs" then
    .command ("xfs_repair " ++ device_path) "XFS"
  else if filesystem = "btrfs" then
    .command ("btrfs check --repair " ++ device_path) "Btrfs"
  else if filesystem = "f2fs" then
    .command ("fsck.f2fs -f " ++ device_path) "F2FS"
  else
    .unsupported filesystem

/-- The command line `on_auto_fsck_activate` hands to `run_command_in_terminal`:
none when the filesystem is unsupported or the confirmation is not answered
with Yes. -/
def auto_fsck_dispatch (filesystem device_path : String) (confirmed : Bool) : Option String :=
  match auto_fsck_choice filesystem device_path with
  | .command cmd _ => if confirmed then some cmd else none
  | .unsupported _ => none

/-! ## Filesystem creation commands -/

/-- The `fs_type` both creation dialogs derive from the combo text
(DriveAssistify.c:1175-1177 and 2718-2720). -/
def fs_type_of (fs_display : String) : String :=
  if fs_display = "ntfs (quick format)" ∨ fs_display = "ntfs (full zeroing)" then "ntfs"
  else fs_display

/-- The `else` branch that fills `cluster_val` when no size is selected
(DriveAssistify.c:1196-1199 and 2735-2738); `cluster_val` keeps its initial
`0` for every other `fs_type`. -/
def default_cluster_val (fs_type : String) : Int :=
  if fs_type = "ext4" ∨ fs_type = "ext3" then 4096
  else if fs_type = "ext2" then 1024
  else if fs_type = "exfat" then 8
  else if fs_type = "fat32" then 1
  else 0

/-- The `cluster_val` of `on_create_fs_clicked` (DriveAssistify.c:1188-1200): the
selection is cut at its first blank (dropping `" (default)"`) and parsed. -/
def create_cluster_val (fs_type : String) (cluster_sel : Option String) : Int :=
  match cluster_sel with
  | some sel => atoll (String.mk (sel.data.takeWhile (fun c => c != ' ')))
  | none => default_cluster_val fs_type

/-- The `cluster_val` of `on_mkfs_activate` (DriveAssistify.c:2731-2739). -/
def mkfs_cluster_val (fs_type : String) (cluster_sel : Option String) : Int :=
  match cluster_sel with
  | some sel => if sel ≠ "default" then atoll sel else default_cluster_val fs_type
  | none => default_cluster_val fs_type

/-- The `mkfs_cmd` chain of `on_create_fs_clicked` (DriveAssistify.c:1224-1246);
`none` is the NULL left when no branch matches. -/
def create_mkfs_cmd (fs_display : String) (cluster_val : Int) : Option String :=
  let fs_type := fs_type_of fs_display
  if fs_type = "ext4" then
    some ("sudo mkfs.ext4 -F -b " ++ toString cluster_val ++ " \"$NEW_PART\"")
  else if fs_type = "ext3" then
    some ("sudo mkfs.ext3 -F -b " ++ toString cluster_val ++ " \"$NEW_PART\"")
  else if fs_type = "ext2" then
    some ("sudo mkfs.ext2 -F -b " ++ toString cluster_val ++ " \"$NEW_PART\"")
  else if fs_display = "ntfs (quick format)" then
    if cluster_val > 0 then
      some ("sudo mkfs.ntfs -f -c " ++ toString cluster_val ++ " -Q \"$NEW_PART\"")
    else some "sudo mkfs.ntfs -f -Q \"$NEW_PART\""
  else if fs_display = "ntfs (full zeroing)" then
    if cluster_val > 0 then
      some ("sudo mkfs.ntfs -F -c " ++ toString cluster_val ++ " \"$NEW_PART\"")
    else some "sudo mkfs.ntfs -F \"$NEW_PART\""
  else if fs_type = "exfat" then
    some ("sudo mkfs.exfat -s " ++ toString cluster_val ++ " \"$NEW_PART\"")
  else if fs_type = "fat32" then
    some ("sudo mkfs.vfat -F 32 -s " ++ toString cluster_val ++ " \"$NEW_PART\"")
  else none

/-- The `mkfs_cmd` chain of `on_mkfs_activate` (DriveAssistify.c:2741-2763). -/
def format_mkfs_cmd (fs_display : String) (cluster_val : Int) (device_path : String) :
    Option String :=
  let fs_type := fs_type_of fs_display
  if fs_type = "ext4" then
    some ("mkfs.ext4 -F -b " ++ toString cluster_val ++ " '" ++ device_path ++ "'")
  else if fs_type = "ext3" then
    some ("mkfs.ext3 -F -b " ++ toString cluster_val ++ " '" ++ device_path ++ "'")
  else if fs_type = "ext2" then
    some ("mkfs.ext2 -F -b " ++ toString cluster_val ++ " '" ++ device_path ++ "'")
  else if fs_display = "ntfs (quick format)" then
    if cluster_val > 0 then
      some ("mkfs.ntfs -f -c " ++ toString cluster_val ++ " -Q '" ++ device_path ++ "'")
    else some ("mkfs.ntfs -f -Q '" ++ device_path ++ "'")
  else if fs_display = "ntfs (full zeroing)" then
    if cluster_val > 0 then
      some ("mkfs.ntfs -F -c " ++ toString cluster_val ++ " '" ++ device_path ++ "'")
    else some ("mkfs.ntfs -F '" ++ device_path ++ "'")
  else if fs_type = "exfat" then
    some ("mkfs.exfat -s " ++ toString cluster_val ++ " '" ++ device_path ++ "'")
  else if fs_type = "fat32" then
    some ("mkfs.vfat -F 32 -s " ++ toString cluster_val ++ " '" ++ device_path ++ "'")
  else none

/-- What `%s` prints for a possibly NULL string argument (glibc prints
`(null)`). -/
def fmt_s (s : Option String) : String := s.getD "(null)"

/-! ## Shell command lines

The destructive workflows hand one shell command line to a terminal.  The
command line is kept twice: as the text the `g_strdup_printf` call builds, and
as the command tree that the shell reads from that text (`;` lists of `&&`/`||`
lists of simple commands and compound commands).  `Sh.render` prints a tree
back with single blanks. -/

/-- The role of an external program or builtin in a command line. -/
inductive Tool where
  | echo | read | sleep | settle | reread | mkdir | rmdir
  | umount      -- `umount`, also under `timeout` and `sudo`
  | mounted     -- `mount | grep -q '<dev> '`: succeeds when the device is mounted
  | tableQuery  -- `parted ... print | grep -q 'Partition Table: gpt'`
  | mount
  | mkfs | partedRm | fdiskDelete | shred | grubInstall
  deriving DecidableEq, Repr

/-- The programs that change the target: the action of the workflow. -/
def Tool.destructive (t : Tool) : Bool :=
  match t with
  | .mkfs | .partedRm | .fdiskDelete | .shred | .grubInstall => true
  | _ => false

/-- One simple command (or pipeline) as it is run. -/
structure Call where
  tool : Tool
  text : String
  deriving DecidableEq, Repr

/-- The fragment of shell the command lines are written in. -/
inductive Sh where
  | cmd (tool : Tool) (text : String)
  | seq (a b : Sh)
  | and (a b : Sh)
  | or (a b : Sh)
  | paren (a : Sh)
  | brace (a : Sh)
  | ifThen (c t : Sh)
  | ifThenElse (c t e : Sh)
  | forIn (var : String) (items : List String) (body : Sh)
  | brk
  | exit (code : Nat)
  deriving Repr

/-- The text of a command tree. -/
def Sh.render (s : Sh) : String :=
  match s with
  | .cmd _ text => text
  | .seq a b => a.render ++ "; " ++ b.render
  | .and a b => a.render ++ " && " ++ b.render
  | .or a b => a.render ++ " || " ++ b.render
  | .paren a => "(" ++ a.render ++ ")"
  | .brace a => "\x7b " ++ a.render ++ "; \x7d"
  | .ifThen c t => "if " ++ c.render ++ "; then " ++ t.render ++ "; fi"
  | .ifThenElse c t e =>
    "if " ++ c.render ++ "; then " ++ t.render ++ "; else " ++ e.render ++ "; fi"
  | .forIn var items body =>
    "for " ++ var ++ " in " ++ " ".intercalate items ++ "; do " ++ body.render ++ "; done"
  | .brk => "break"
  | .exit code => "exit " ++ toString code

/-- Runs of blanks reduced to one blank: the command lines of the source are
laid out with indentation inside one line. -/
def squeeze (s : List Char) : List Char :=
  match s with
  | [] => []
  | ' ' :: ' ' :: rest => squeeze (' ' :: rest)
  | c :: rest => c :: squeeze rest

/-- How the execution of a command tree ends. -/
inductive Ctl where
  | normal | brk | exit
  deriving DecidableEq, Repr

/-- The result of running a command tree: the simple commands run so far, in
order, whether the last exit status is zero, and how control leaves. -/
structure Outcome where
  trace : List Call
  ok : Bool
  ctl : Ctl
  deriving DecidableEq, Repr

/-- The world outside the shell: whether a simple command succeeds, given the
commands run before it. -/
abbrev Env := List Call → Call → Bool

/-- The body of a `for` loop run once per item. -/
def runLoop (body : List Call → Outcome) (items : List String) (h : List Call) : Outcome :=
  match items with
  | [] => ⟨h, true, .normal⟩
  | _ :: rest =>
    let r := body h
    match r.ctl with
    | .exit => r
    | .brk => ⟨r.trace, true, .normal⟩
    | .normal =>
      match rest with
      | [] => r
      | _ :: _ => runLoop body rest r.trace

/-- Execution of a command tree after the commands `h`, in the order and
under the conditions POSIX gives to `;`, `&&`, `||`, `if`, `for`, `break` and
`exit`. -/
def Sh.exec (env : Env) (s : Sh) (h : List Call) : Outcome :=
  match s with
  | .cmd tool text => ⟨h ++ [⟨tool, text⟩], env h ⟨tool, text⟩, .normal⟩
  | .seq a b =>
    let r := a.exec env h
    match r.ctl with
    | .normal => b.exec env r.trace
    | _ => r
  | .and a b =>
    let r := a.exec env h
    match r.ctl with
    | .normal => if r.ok then b.exec env r.trace else r
    | _ => r
  | .or a b =>
    let r := a.exec env h
    match r.ctl with
    | .normal => if r.ok then r else b.exec env r.trace
    | _ => r
  | .paren a =>
    let r := a.exec env h
    ⟨r.trace, r.ok, .normal⟩
  | .brace a => a.exec env h
  | .ifThen c t =>
    let r := c.exec env h
    match r.ctl with
    | .normal => if r.ok then t.exec env r.trace else ⟨r.trace, true, .normal⟩
    | _ => r
  | .ifThenElse c t e =>
    let r := c.exec env h
    match r.ctl with
    | .normal => if r.ok then t.exec env r.trace else e.exec env r.trace
    | _ => r
  | .forIn _ items body => runLoop (body.exec env) items h
  | .brk => ⟨h, true, .brk⟩
  | .exit code => ⟨h, code == 0, .exit⟩

/-- The commands a command line runs in the world `env`. -/
def Sh.run (env : Env) (s : Sh) : Outcome := s.exec env []

/-- The destructive action was reached: a destructive program was run. -/
def Outcome.acted (r : Outcome) : Bool := r.trace.any (fun c => c.tool.destructive)

/-- The command line ended in failure through `exit` with a non-zero status. -/
def Outcome.failed (r : Outcome) : Bool := r.ctl == .exit && !r.ok

/-- The test `mountpoint && strlen(mountpoint) > 0 && strcmp(mountpoint, "N/A") != 0
&& strcmp(mountpoint, "-") != 0` that selects the variant with an unmount step. -/
def has_mountpoint (mountpoint : Option String) : Bool :=
  match mountpoint with
  | some m => m ≠ "" && m ≠ "N/A" && m ≠ "-"
  | none => false

/-! ### Format (`on_mkfs_activate`, DriveAssistify.c:2773) -/

/-- The variable `requires_reread` of `on_mkfs_activate`. -/
def requires_reread (fs_type : String) : Bool := fs_type ≠ "exfat" && fs_type ≠ "fat32"

/-- The `command` string of `on_mkfs_activate` (DriveAssistify.c:2777-2813). -/
def format_command (device_path fs_display : String) (mkfs_cmd : Option String)
    (mountpoint : Option String) : String :=
  if has_mountpoint mountpoint then
    if requires_reread (fs_type_of fs_display) then
      "echo 'Unmounting " ++ device_path ++ "...'; umount '" ++ device_path ++ "' 2>/dev/null; "
      ++ "echo 'Formatting " ++ device_path ++ " as " ++ fs_display ++ "...'; sudo "
      ++ fmt_s mkfs_cmd ++ "; "
      ++ "sudo udevadm settle && "
      ++ "(sudo partprobe '" ++ device_path ++ "' || sudo blockdev --rereadpt '"
      ++ device_path ++ "'); "
      ++ "echo 'Filesystem created and partition table re-read.'"
    else
      "echo 'Unmounting " ++ device_path ++ "...'; umount '" ++ device_path ++ "' 2>/dev/null; "
      ++ "echo 'Formatting " ++ device_path ++ " as " ++ fs_display ++ "...'; sudo "
      ++ fmt_s mkfs_cmd ++ "; "
      ++ "sudo udevadm settle && "
      ++ "echo 'Filesystem created.'"
  else
    if requires_reread (fs_type_of fs_display) then
      "echo 'Formatting " ++ device_path ++ " as " ++ fs_display ++ "...'; sudo "
      ++ fmt_s mkfs_cmd ++ "; "
      ++ "sudo udevadm settle && "
      ++ "(sudo partprobe '" ++ device_path ++ "' || sudo blockdev --rereadpt '"
      ++ device_path ++ "'); "
      ++ "echo 'Filesystem created and partition table re-read.'"
    else
      "echo 'Formatting " ++ device_path ++ " as " ++ fs_display ++ "...'; sudo "
      ++ fmt_s mkfs_cmd ++ "; "
      ++ "sudo udevadm settle && "
      ++ "echo 'Filesystem created.'"

/-- The tail of the format command line from the `mkfs` call on. -/
def format_tail (device_path fs_display : String) (mkfs_cmd : Option String) : Sh :=
  let fmt := Sh.cmd .echo ("echo 'Formatting " ++ device_path ++ " as " ++ fs_display ++ "...'")
  let mk := Sh.cmd .mkfs ("sudo " ++ fmt_s mkfs_cmd)
  if requires_reread (fs_type_of fs_display) then
    .seq fmt (.seq mk (.seq
      (.and (.cmd .settle "sudo udevadm settle")
        (.paren (.or (.cmd .reread ("sudo partprobe '" ++ device_path ++ "'"))
          (.cmd .reread ("sudo blockdev --rereadpt '" ++ device_path ++ "'")))))
      (.cmd .echo "echo 'Filesystem created and partition table re-read.'")))
  else
    .seq fmt (.seq mk
      (.and (.cmd .settle "sudo udevadm settle") (.cmd .echo "echo 'Filesystem created.'")))

/-- The command tree of `format_command`. -/
def format_script (device_path fs_display : String) (mkfs_cmd : Option String)
    (mountpoint : Option String) : Sh :=
  if has_mountpoint mountpoint then
    .seq (.cmd .echo ("echo 'Unmounting " ++ device_path ++ "...'"))
      (.seq (.cmd .umount ("umount '" ++ device_path ++ "' 2>/dev/null"))
        (format_tail device_path fs_display mkfs_cmd))
  else format_tail device_path fs_display mkfs_cmd

/-- The command line `on_mkfs_activate` hands to `run_command_in_terminal`
for a selected row: none unless the warning dialog is answered with OK. -/
def on_mkfs_dispatch (partition_name fs_display : String) (cluster_sel : Option String)
    (mountpoint : Option String) (warn_ok : Bool) : Option String :=
  let device_path := "/dev/" ++ partition_name
  let cluster_val := mkfs_cluster_val (fs_type_of fs_display) cluster_sel
  let mkfs_cmd := format_mkfs_cmd fs_display cluster_val device_path
  if warn_ok then some (format_command device_path fs_display mkfs_cmd mountpoint) else none

/-! ### Partition deletion (`on_delete_partition_activate`, DriveAssistify.c:4223) -/

/-- The part of the deletion command line after the unmount step
(DriveAssistify.c:4276-4284 and 4294-4302), as text. -/
def delete_tail_text (partition_name part_num disk_path : String) : String :=
  "echo 'Deleting partition " ++ partition_name ++ " (number " ++ part_num ++ ")...'; "
  ++ "if sudo parted -s " ++ disk_path
  ++ " print 2>/dev/null | grep -q 'Partition Table: gpt'; then "
  ++ "  sudo parted -s " ++ disk_path ++ " rm " ++ part_num ++ "; "
  ++ "else "
  ++ "  echo -e 'd\\n" ++ part_num ++ "\\nw\\n' | sudo fdisk " ++ disk_path
  ++ " 2>&1 | grep -E 'altered|ioctl|Syncing'; "
  ++ "fi && "
  ++ "sudo udevadm settle && sudo partprobe " ++ disk_path ++ " || sudo blockdev --rereadpt "
  ++ disk_path ++ " && "
  ++ "sleep 2 && "
  ++ "echo 'Partition deleted and partition table re-read.'"

/-- The `command` string of `on_delete_partition_activate`
(DriveAssistify.c:4273-4309). -/
def delete_command (device_path partition_name part_num disk_path : String)
    (mountpoint : Option String) : String :=
  if has_mountpoint mountpoint then
    "echo 'Unmounting " ++ device_path ++ "...'; timeout 5 sudo umount " ++ device_path
    ++ " 2>/dev/null || echo 'Unmount warning ignored'; "
    ++ delete_tail_text partition_name part_num disk_path
  else delete_tail_text partition_name part_num disk_path

/-- The command tree of `delete_tail_text`. -/
def delete_tail (partition_name part_num disk_path : String) : Sh :=
  .seq
    (.cmd .echo ("echo 'Deleting partition " ++ partition_name ++ " (number " ++ part_num
      ++ ")...'"))
    (.and (.and (.or (.and (.and
      (.ifThenElse
        (.cmd .tableQuery ("sudo parted -s " ++ disk_path
          ++ " print 2>/dev/null | grep -q 'Partition Table: gpt'"))
        (.cmd .partedRm ("  sudo parted -s " ++ disk_path ++ " rm " ++ part_num))
        (.cmd .fdiskDelete ("  echo -e 'd\\n" ++ part_num ++ "\\nw\\n' | sudo fdisk "
          ++ disk_path ++ " 2>&1 | grep -E 'altered|ioctl|Syncing'")))
      (.cmd .settle "sudo udevadm settle"))
      (.cmd .reread ("sudo partprobe " ++ disk_path)))
      (.cmd .reread ("sudo blockdev --rereadpt " ++ disk_path)))
      (.cmd .sleep "sleep 2"))
      (.cmd .echo "echo 'Partition deleted and partition table re-read.'"))

/-- The command tree of `delete_command`. -/
def delete_script (device_path partition_name part_num disk_path : String)
    (mountpoint : Option String) : Sh :=
  if has_mountpoint mountpoint then
    .seq (.cmd .echo ("echo 'Unmounting " ++ device_path ++ "...'"))
      (.seq
        (.or (.cmd .umount ("timeout 5 sudo umount " ++ device_path ++ " 2>/dev/null"))
          (.cmd .echo "echo 'Unmount warning ignored'"))
        (delete_tail partition_name part_num disk_path))
  else delete_tail partition_name part_num disk_path

/-- The command tree `on_delete_partition_activate` dispatches for a selected
row: none when the partition number cannot be determined (error dialog
`Cannot determine partition number.`) or the warning is not answered with OK. -/
def on_delete_partition_script (partition_name : String) (mountpoint : Option String)
    (warn_ok : Bool) : Option Sh :=
  let device_path := "/dev/" ++ partition_name
  let disk_path := "/dev/" ++ get_disk_from_partition partition_name
  match part_num partition_name with
  | none => none
  | some n =>
    if warn_ok then some (delete_script device_path partition_name n disk_path mountpoint)
    else none

/-! ### Shred (`on_shred_fs_activate`, DriveAssistify.c:4322) -/

/-- The `command` string of `on_shred_fs_activate` (DriveAssistify.c:4348-4368). -/
def shred_command (device_path : String) (mountpoint : Option String) : String :=
  if has_mountpoint mountpoint then
    "echo 'Unmounting " ++ device_path ++ "...'; timeout 5 sudo umount " ++ device_path
    ++ " 2>/dev/null || echo 'Unmount warning ignored'; "
    ++ "sudo udevadm settle; "
    ++ "echo 'Shredding " ++ device_path ++ "...'; "
    ++ "sudo shred -v -n 3 -z " ++ device_path ++ " 2>/dev/null && "
    ++ "sudo udevadm settle && "
    ++ "echo 'Filesystem destroyed.'"
  else
    "sudo udevadm settle; "
    ++ "echo 'Shredding " ++ device_path ++ "...'; "
    ++ "sudo shred -v -n 3 -z " ++ device_path ++ " 2>/dev/null && "
    ++ "sudo udevadm settle && "
    ++ "echo 'Filesystem destroyed.'"

/-- The command tree of the shred command line from `udevadm settle` on. -/
def shred_tail (device_path : String) : Sh :=
  .seq (.cmd .settle "sudo udevadm settle")
    (.seq (.cmd .echo ("echo 'Shredding " ++ device_path ++ "...'"))
      (.and (.and (.cmd .shred ("sudo shred -v -n 3 -z " ++ device_path ++ " 2>/dev/null"))
        (.cmd .settle "sudo udevadm settle"))
        (.cmd .echo "echo 'Filesystem destroyed.'")))

/-- The command tree of `shred_command`. -/
def shred_script (device_path : String) (mountpoint : Option String) : Sh :=
  if has_mountpoint mountpoint then
    .seq (.cmd .echo ("echo 'Unmounting " ++ device_path ++ "...'"))
      (.seq
        (.or (.cmd .umount ("timeout 5 sudo umount " ++ device_path ++ " 2>/dev/null"))
          (.cmd .echo "echo 'Unmount warning ignored'"))
        (shred_tail device_path))
  else shred_tail device_path

/-! ### GRUB installation (`on_grub_uefi_install_activate`, DriveAssistify.c:3534,
and `on_grub_mbr_install_activate`, DriveAssistify.c:3710) -/

/-- A `;` list of commands: `first; rest...`. -/
def seqList (first : Sh) (rest : List Sh) : Sh :=
  match rest with
  | [] => first
  | b :: bs => .seq first (seqList b bs)

/-- GLib `g_shell_quote`: the string in single quotes, every single quote in it
written `'\''`. -/
def g_shell_quote (s : String) : String :=
  "'" ++ String.mk (s.data.flatMap (fun c => if c = Char.ofNat 39 then "'\\''".data else [c]))
    ++ "'"

/-- The unmount block both GRUB command lines start with (DriveAssistify.c:3580-3602
and 3768-3790), as text. -/
def grub_unmount_text (device_path : String) : String :=
  "if mount | grep -q '" ++ device_path ++ " '; then "
  ++ "  echo 'Trying normal umount with timeout...'; "
  ++ "  for i in 1 2; do "
  ++ "    timeout 15 umount " ++ device_path ++ " && break || \x7b "
  ++ "      echo 'Attempt $i failed, retrying in 2s...'; "
  ++ "      sleep 2; "
  ++ "    \x7d; "
  ++ "  done; "
  ++ "  if mount | grep -q '" ++ device_path ++ " '; then "
  ++ "    echo 'ERROR: Could not unmount the device.'; "
  ++ "    echo 'You may need to unmount manually using:'; "
  ++ "    echo '   umount " ++ device_path ++ "'; "
  ++ "    echo '   umount -l " ++ device_path ++ "   (lazy)'; "
  ++ "    echo '   umount -f " ++ device_path ++ "   (force)'; "
  ++ "    echo 'Aborting.'; "
  ++ "    echo; "
  ++ "    echo 'This window can now be closed.'; "
  ++ "    read -p 'Press Enter to close...'; "
  ++ "    exit 1; "
  ++ "  fi; "
  ++ "else "
  ++ "  echo 'Device not mounted — OK'; "
  ++ "fi; "

/-- The command tree of `grub_unmount_text`: two unmount attempts while the
device is listed as mounted, then `exit 1` when it still is. -/
def grub_unmount_script (device_path : String) : Sh :=
  .ifThenElse (.cmd .mounted ("mount | grep -q '" ++ device_path ++ " '"))
    (seqList (.cmd .echo "echo 'Trying normal umount with timeout...'")
      [ .forIn "i" ["1", "2"]
          (.or (.and (.cmd .umount ("timeout 15 umount " ++ device_path)) .brk)
            (.brace (.seq (.cmd .echo "echo 'Attempt $i failed, retrying in 2s...'")
              (.cmd .sleep "sleep 2")))),
        .ifThen (.cmd .mounted ("mount | grep -q '" ++ device_path ++ " '"))
          (seqList (.cmd .echo "echo 'ERROR: Could not unmount the device.'")
            [ .cmd .echo "echo 'You may need to unmount manually using:'",
              .cmd .echo ("echo '   umount " ++ device_path ++ "'"),
              .cmd .echo ("echo '   umount -l " ++ device_path ++ "   (lazy)'"),
              .cmd .echo ("echo '   umount -f " ++ device_path ++ "   (force)'"),
              .cmd .echo "echo 'Aborting.'",
              .cmd .echo "echo",
              .cmd .echo "echo 'This window can now be closed.'",
              .cmd .read "read -p 'Press Enter to close...'",
              .exit 1 ]) ])
    (.cmd .echo "echo 'Device not mounted — OK'")

/-- The block `|| { echo ...; exit 1; }` that ends a failed step. -/
def grub_abort (first : Sh) (more : List Sh) : Sh :=
  .brace (seqList first (more ++
    [ .cmd .echo "echo",
      .cmd .echo "echo 'This window can now be closed.'",
      .cmd .read "read -p 'Press Enter to close...'",
      .exit 1 ]))

/-- The `command` string of `on_grub_uefi_install_activate`
(DriveAssistify.c:3571-3663); `mount_dir` is `/mnt/driveassistify_grub`. -/
def grub_uefi_command (device_path mount_dir : String) : String :=
  "echo '========================================='; "
  ++ "echo 'Starting UEFI GRUB installation'; "
  ++ "echo 'Target device: " ++ device_path ++ "'; "
  ++ "echo 'Mount directory: " ++ mount_dir ++ "'; "
  ++ "echo '-----------------------------------------'; "
  ++ "echo 'Unmounting previous mount (if any)...'; "
  ++ grub_unmount_text device_path
  ++ "echo 'Creating temporary mount directory...'; "
  ++ "mkdir -p " ++ mount_dir ++ "; "
  ++ "echo 'Mounting target partition (vfat)...'; "
  ++ "mount -t vfat " ++ g_shell_quote device_path ++ " " ++ mount_dir ++ " || \x7b "
  ++ "  echo 'ERROR: Failed to mount partition! Aborting.'; "
  ++ "  echo; "
  ++ "  echo 'This window can now be closed.'; "
  ++ "  read -p 'Press Enter to close...'; "
  ++ "  exit 1; "
  ++ "\x7d; "
  ++ "echo 'Ensuring boot directory exists...'; "
  ++ "mkdir -p " ++ mount_dir ++ "/boot; "
  ++ "echo 'Running grub-install...'; "
  ++ "grub-install --target=x86_64-efi "
  ++ "             --efi-directory=" ++ mount_dir ++ " "
  ++ "             --boot-directory=" ++ mount_dir ++ "/boot "
  ++ "             --removable --no-nvram || \x7b "
  ++ "    echo 'ERROR: grub-install failed! Unmounting...'; "
  ++ "    timeout 15 umount " ++ mount_dir ++ " 2>/dev/null; "
  ++ "    echo; "
  ++ "    echo 'This window can now be closed.'; "
  ++ "    read -p 'Press Enter to close...'; "
  ++ "    exit 1; "
  ++ "\x7d; "
  ++ "echo 'Unmounting...'; "
  ++ "timeout 15 umount " ++ mount_dir ++ "; "
  ++ "echo 'Removing temporary directory...'; "
  ++ "rmdir " ++ mount_dir ++ "; "
  ++ "echo '-----------------------------------------'; "
  ++ "echo 'UEFI GRUB installation finished successfully.'; "
  ++ "echo '========================================='; "
  ++ "echo; "
  ++ "read -p 'Press Enter to close...';"

/-- The command tree of `grub_uefi_command`. -/
def grub_uefi_script (device_path mount_dir : String) : Sh :=
  seqList (.cmd .echo "echo '========================================='")
    [ .cmd .echo "echo 'Starting UEFI GRUB installation'",
      .cmd .echo ("echo 'Target device: " ++ device_path ++ "'"),
      .cmd .echo ("echo 'Mount directory: " ++ mount_dir ++ "'"),
      .cmd .echo "echo '-----------------------------------------'",
      .cmd .echo "echo 'Unmounting previous mount (if any)...'",
      grub_unmount_script device_path,
      .cmd .echo "echo 'Creating temporary mount directory...'",
      .cmd .mkdir ("mkdir -p " ++ mount_dir),
      .cmd .echo "echo 'Mounting target partition (vfat)...'",
      .or (.cmd .mount ("mount -t vfat " ++ g_shell_quote device_path ++ " " ++ mount_dir))
        (grub_abort (.cmd .echo "echo 'ERROR: Failed to mount partition! Aborting.'") []),
      .cmd .echo "echo 'Ensuring boot directory exists...'",
      .cmd .mkdir ("mkdir -p " ++ mount_dir ++ "/boot"),
      .cmd .echo "echo 'Running grub-install...'",
      .or (.cmd .grubInstall ("grub-install --target=x86_64-efi "
          ++ "             --efi-directory=" ++ mount_dir ++ " "
          ++ "             --boot-directory=" ++ mount_dir ++ "/boot "
          ++ "             --removable --no-nvram"))
        (grub_abort (.cmd .echo "echo 'ERROR: grub-install failed! Unmounting...'")
          [.cmd .umount ("timeout 15 umount " ++ mount_dir ++ " 2>/dev/null")]),
      .cmd .echo "echo 'Unmounting...'",
      .cmd .umount ("timeout 15 umount " ++ mount_dir),
      .cmd .echo "echo 'Removing temporary directory...'",
      .cmd .rmdir ("rmdir " ++ mount_dir),
      .cmd .echo "echo '-----------------------------------------'",
      .cmd .echo "echo 'UEFI GRUB installation finished successfully.'",
      .cmd .echo "echo '========================================='",
      .cmd .echo "echo",
      .cmd .read "read -p 'Press Enter to close...'" ]

/-- The `disk_path` of `on_grub_mbr_install_activate` (DriveAssistify.c:3722-3733):
for an `nvme` name with a `'p'` the bytes of the device path before its last
`'p'`, otherwise the device path without its trailing digits. -/
def grub_mbr_disk_path (partition_name : String) : Option String :=
  let device_path := "/dev/" ++ partition_name
  if g_str_has_prefix partition_name "nvme" && partition_name.data.contains 'p' then
    match g_strrstr device_path.data 'p' with
    | some p => some (String.mk (device_path.data.take p))
    | none => none
  else
    some (String.mk (device_path.data.reverse.dropWhile isdigit).reverse)

/-- The `command` string of `on_grub_mbr_install_activate`
(DriveAssistify.c:3758-3845). -/
def grub_mbr_command (device_path : String) (disk_path : Option String) (mount_dir : String) :
    String :=
  "echo '========================================='; "
  ++ "echo 'Starting GRUB2 MBR installation'; "
  ++ "echo 'Target partition: " ++ device_path ++ "'; "
  ++ "echo 'Target disk: " ++ fmt_s disk_path ++ "'; "
  ++ "echo 'Mount directory: " ++ mount_dir ++ "'; "
  ++ "echo '-----------------------------------------'; "
  ++ "echo 'Unmounting previous mount (if any)...'; "
  ++ grub_unmount_text device_path
  ++ "echo 'Creating temporary mount directory...'; "
  ++ "mkdir -p " ++ g_shell_quote mount_dir ++ "; "
  ++ "echo 'Mounting target partition...'; "
  ++ "mount " ++ g_shell_quote device_path ++ " " ++ g_shell_quote mount_dir ++ " || \x7b "
  ++ "  echo 'ERROR: Failed to mount partition! Aborting.'; "
  ++ "  echo; "
  ++ "  echo 'This window can now be closed.'; "
  ++ "  read -p 'Press Enter to close...'; "
  ++ "  exit 1; "
  ++ "\x7d; "
  ++ "echo 'Running grub-install (i386-pc)...'; "
  ++ "grub-install --target=i386-pc --boot-directory=" ++ mount_dir ++ "/boot "
  ++ fmt_s (disk_path.map g_shell_quote) ++ " || \x7b "
  ++ "    echo 'ERROR: grub-install failed! Unmounting...'; "
  ++ "    timeout 15 umount " ++ g_shell_quote mount_dir ++ "; "
  ++ "    echo; "
  ++ "    echo 'This window can now be closed.'; "
  ++ "    read -p 'Press Enter to close...'; "
  ++ "    exit 1; "
  ++ "\x7d; "
  ++ "echo 'Unmounting...'; "
  ++ "timeout 15 umount " ++ g_shell_quote mount_dir ++ "; "
  ++ "echo 'Removing temporary directory...'; "
  ++ "rmdir " ++ g_shell_quote mount_dir ++ "; "
  ++ "echo '-----------------------------------------'; "
  ++ "echo 'GRUB2 MBR installation finished successfully.'; "
  ++ "echo '========================================='; "
  ++ "echo; "
  ++ "read -p 'Press Enter to close...';"

/-- The command tree of `grub_mbr_command`. -/
def grub_mbr_script (device_path : String) (disk_path : Option String) (mount_dir : String) :
    Sh :=
  seqList (.cmd .echo "echo '========================================='")
    [ .cmd .echo "echo 'Starting GRUB2 MBR installation'",
      .cmd .echo ("echo 'Target partition: " ++ device_path ++ "'"),
      .cmd .echo ("echo 'Target disk: " ++ fmt_s disk_path ++ "'"),
      .cmd .echo ("echo 'Mount directory: " ++ mount_dir ++ "'"),
      .cmd .echo "echo '-----------------------------------------'",
      .cmd .echo "echo 'Unmounting previous mount (if any)...'",
      grub_unmount_script device_path,
      .cmd .echo "echo 'Creating temporary mount directory...'",
      .cmd .mkdir ("mkdir -p " ++ g_shell_quote mount_dir),
      .cmd .echo "echo 'Mounting target partition...'",
      .or (.cmd .mount ("mount " ++ g_shell_quote device_path ++ " " ++ g_shell_quote mount_dir))
        (grub_abort (.cmd .echo "echo 'ERROR: Failed to mount partition! Aborting.'") []),
      .cmd .echo "echo 'Running grub-install (i386-pc)...'",
      .or (.cmd .grubInstall ("grub-install --target=i386-pc --boot-directory=" ++ mount_dir
          ++ "/boot " ++ fmt_s (disk_path.map g_shell_quote)))
        (grub_abort (.cmd .echo "echo 'ERROR: grub-install failed! Unmounting...'")
          [.cmd .umount ("timeout 15 umount " ++ g_shell_quote mount_dir)]),
      .cmd .echo "echo 'Unmounting...'",
      .cmd .umount ("timeout 15 umount " ++ g_shell_quote mount_dir),
      .cmd .echo "echo 'Removing temporary directory...'",
      .cmd .rmdir ("rmdir " ++ g_shell_quote mount_dir),
      .cmd .echo "echo '-----------------------------------------'",
      .cmd .echo "echo 'GRUB2 MBR installation finished successfully.'",
      .cmd .echo "echo '========================================='",
      .cmd .echo "echo",
      .cmd .read "read -p 'Press Enter to close...'" ]

/-! ## Creating a filesystem in free space (`on_create_fs_clicked`, DriveAssistify.c:960) -/

/-- The alignment block of `on_create_fs_clicked` (DriveAssistify.c:1209-1214),
run when the alignment box is ticked. -/
def align_start_sector (start_sector chosen_sector : Int) : Int :=
  let sectors_per_1MiB := Int.tdiv 1048576 chosen_sector
  if start_sector < sectors_per_1MiB then sectors_per_1MiB
  else if Int.tmod start_sector sectors_per_1MiB ≠ 0 then
    (Int.tdiv start_sector sectors_per_1MiB + 1) * sectors_per_1MiB
  else start_sector

/-- What `on_create_fs_clicked` works from once both dialogs are accepted: the
selected free region (`start_mib`, `end_mib`, parsed from the row), the size
typed in the MiB field, the alignment box, the selected filesystem, cluster
and sector size. -/
structure CreateFsRequest where
  disk_path : String
  start_mib : Int
  end_mib : Int
  entered_mib : Int
  align : Bool
  fs_display : String
  cluster_sel : Option String
  chosen_sector : Int
  deriving Repr

/-- The `target_size_mib` after the clamp to the free size (DriveAssistify.c:1095-1096). -/
def CreateFsRequest.target_size_mib (r : CreateFsRequest) : Int :=
  if r.entered_mib > r.end_mib - r.start_mib then r.end_mib - r.start_mib else r.entered_mib

/-- The `actual_start` of DriveAssistify.c:1202. -/
def CreateFsRequest.actual_start (r : CreateFsRequest) : Int :=
  if r.start_mib < 1 ∧ r.align = true then 1 else r.start_mib

/-- The `actual_end` of DriveAssistify.c:1203-1204. -/
def CreateFsRequest.actual_end (r : CreateFsRequest) : Int :=
  if r.actual_start + r.target_size_mib > r.end_mib then r.end_mib
  else r.actual_start + r.target_size_mib

/-- The `start_sector` passed to `mkpart` (DriveAssistify.c:1206-1214). -/
def CreateFsRequest.start_sector (r : CreateFsRequest) : Int :=
  let start_sector := Int.tdiv (r.actual_start * 1024 * 1024) r.chosen_sector
  if r.align then align_start_sector start_sector r.chosen_sector else start_sector

/-- The `end_sector` of DriveAssistify.c:1207; `mkpart` is given `end_sector - 1`. -/
def CreateFsRequest.end_sector (r : CreateFsRequest) : Int :=
  Int.tdiv (r.actual_end * 1024 * 1024) r.chosen_sector

/-- The `mkpart_cmd` of DriveAssistify.c:1216. -/
def CreateFsRequest.mkpart_cmd (r : CreateFsRequest) : String :=
  "sudo parted -s " ++ r.disk_path ++ " mkpart primary " ++ toString r.start_sector ++ "s "
  ++ toString (r.end_sector - 1) ++ "s"

/-- The `find_part_cmd` of DriveAssistify.c:1219-1222. -/
def CreateFsRequest.find_part_cmd (r : CreateFsRequest) : String :=
  "lsblk -ln -o NAME " ++ r.disk_path
  ++ " 2>/dev/null | tail -1 | awk '\x7bprint \"/dev/\" $1\x7d' || "
  ++ "parted -sm " ++ r.disk_path
  ++ " unit s print 2>/dev/null | grep '^[0-9]' | awk -F: '$2 ~ /^"
  ++ toString r.start_sector ++ "s/ \x7bprint \"" ++ r.disk_path ++ "\" $1; exit\x7d'"

/-- The `mkfs_cmd` of the request (DriveAssistify.c:1188-1246). -/
def CreateFsRequest.mkfs_cmd (r : CreateFsRequest) : Option String :=
  create_mkfs_cmd r.fs_display (create_cluster_val (fs_type_of r.fs_display) r.cluster_sel)

/-- The `full_cmd` of DriveAssistify.c:1267-1277. -/
def CreateFsRequest.full_cmd (r : CreateFsRequest) : String :=
  "sudo " ++ r.mkpart_cmd ++ " && "
  ++ "(sudo udevadm settle && sudo partprobe " ++ r.disk_path ++ " || sudo blockdev --rereadpt "
  ++ r.disk_path ++ ") && "
  ++ "sleep 2 && "
  ++ "NEW_PART=$(" ++ r.find_part_cmd ++ ") && "
  ++ "if [ -z \"$NEW_PART\" ] || [ ! -b \"$NEW_PART\" ]; then echo 'Error: Partition device not found'; exit 1; fi && "
  ++ "echo \"Partition created: $NEW_PART\" && "
  ++ fmt_s r.mkfs_cmd ++ " && "
  ++ "sudo udevadm settle && "
  ++ "echo \"Filesystem " ++ r.fs_display ++ " created successfully on $NEW_PART\""

/-- The command line `on_create_fs_clicked` hands to `run_command_in_terminal`:
none when the size is not positive (DriveAssistify.c:1102) or the warning is
not answered with OK. -/
def on_create_fs_dispatch (r : CreateFsRequest) (warn_ok : Bool) : Option String :=
  if r.target_size_mib ≤ 0 then none
  else if warn_ok then some r.full_cmd else none

/-- The request `on_create_fs_clicked` forms from the selected row and its
dialogs: `start` and `end` are the texts of the first two columns of the row,
read with `atoll` (DriveAssistify.c:1008-1009), and `mib_text` is the text of
the MiB entry, read with `atoll` as well (DriveAssistify.c:1094-1095). -/
def create_fs_request (disk_path start_text end_text mib_text : String) (align : Bool)
    (fs_display : String) (cluster_sel : Option String) (chosen_sector : Int) :
    CreateFsRequest :=
  { disk_path := disk_path, start_mib := atoll start_text, end_mib := atoll end_text,
    entered_mib := atoll mib_text, align := align, fs_display := fs_display,
    cluster_sel := cluster_sel, chosen_sector := chosen_sector }

/-! ## Resizing a partition (`on_resize_dialog_response`, DriveAssistify.c:3346) -/

/-- What `on_resize_dialog_response` works from after the dialog is accepted:
the selected row, the text of the MiB field, the sector size stored with the
dialog (`0` when there is none), and the answers of the external queries
(`0` where a query fails: DriveAssistify.c:3383-3387 and 3403-3405). -/
structure ResizeRequest where
  partition_name : String
  fstype : String
  size_str : String
  widget_sector_size : Int
  start_sector : Int
  current_end_sector : Int
  disk_sectors : Int
  deriving Repr

/-- The `target_mib` parsed from the MiB field (DriveAssistify.c:3389-3392): the
text is stripped of surrounding white space and of trailing unit letters. -/
def parse_target_mib (size_str : String) : Int :=
  let t := ((size_str.data.dropWhile isspace).reverse.dropWhile isspace).reverse
  let t := (t.reverse.dropWhile (fun c => "BbIiMm ".data.contains c)).reverse
  atoll (String.mk t)

/-- The `sector_size` of DriveAssistify.c:3396. -/
def resize_sector_size (widget_sector_size : Int) : Int :=
  if widget_sector_size > 0 then widget_sector_size else 512

/-- The `target_sectors` of DriveAssistify.c:3397. -/
def resize_target_sectors (target_mib sector_size : Int) : Int :=
  Int.tdiv (target_mib * 1024 * 1024 + sector_size - 1) sector_size

/-- The `final_end_sector` of DriveAssistify.c:3398-3408. -/
def resize_final_end_sector (start_sector target_sectors disk_sectors : Int) : Int :=
  let final_end_sector := start_sector + target_sectors - 1
  if disk_sectors > 0 ∧ final_end_sector ≥ disk_sectors then disk_sectors - 1
  else final_end_sector

/-- The values `on_resize_dialog_response` derives from a request. -/
structure ResizeDerived where
  target_sectors : Int
  final_end_sector : Int
  shrinking : Bool
  deriving DecidableEq, Repr

/-- The derivation of DriveAssistify.c:3396-3416 for a parsed target size. -/
def resize_derive (target_mib widget_sector_size start_sector current_end_sector
    disk_sectors : Int) : ResizeDerived :=
  let sector_size := resize_sector_size widget_sector_size
  let target_sectors := resize_target_sectors target_mib sector_size
  let final_end_sector := resize_final_end_sector start_sector target_sectors disk_sectors
  ⟨target_sectors, final_end_sector, decide (final_end_sector < current_end_sector)⟩

/-- One line of the generated resize script.  The lines that act on the
partition or the filesystem are kept apart from the plain text lines
(`echo`, assignments, report queries). -/
inductive ScriptLine where
  | text (s : String)
  | umount (part_path : String)
  | e2fsck (part_path : String) (tolerant : Bool)
  | resize2fs_to (part_path : String) (target_mib : Int)
  | resize2fs_fill (part_path : String)
  | parted_shrink (disk_path part_num : String)
  | parted_extend (disk_path part_num : String) (final_end_sector : Int)
  deriving DecidableEq, Repr

/-- The text of a script line, as the format strings of DriveAssistify.c:3419-3497
print it. -/
def ScriptLine.render (l : ScriptLine) : String :=
  match l with
  | .text s => s
  | .umount part_path => "umount " ++ part_path ++ " 2>/dev/null || true"
  | .e2fsck part_path false => "e2fsck -fy " ++ part_path
  | .e2fsck part_path true => "e2fsck -fy " ++ part_path ++ " || true"
  | .resize2fs_to part_path target_mib =>
    "resize2fs " ++ part_path ++ " " ++ toString target_mib ++ "M"
  | .resize2fs_fill part_path => "resize2fs " ++ part_path ++ " || true"
  | .parted_shrink disk_path part_num =>
    "parted " ++ disk_path ++ " resizepart " ++ part_num ++ " $\x7bnew_end\x7ds"
  | .parted_extend disk_path part_num final_end_sector =>
    "parted --script " ++ disk_path ++ " resizepart " ++ part_num ++ " "
    ++ toString final_end_sector ++ "s"

/-- The lines that are not plain text: the steps of the script. -/
def steps (lines : List ScriptLine) : List ScriptLine :=
  lines.filter (fun l => match l with | .text _ => false | _ => true)

/-- The `part_path` of DriveAssistify.c:3410-3414. -/
def resize_part_path (disk_name part_num : String) : String :=
  if g_str_has_prefix disk_name "nvme" || g_str_has_prefix disk_name "mmcblk" then
    "/dev/" ++ disk_name ++ "p" ++ part_num
  else "/dev/" ++ disk_name ++ part_num

/-- The opening block of the script (DriveAssistify.c:3419-3433). -/
def resize_header (start_sector current_end_sector sector_size : Int) : List ScriptLine :=
  [ .text "#!/bin/bash", .text "set -e", .text "",
    .text ("before_start=" ++ toString start_sector),
    .text ("before_end=" ++ toString current_end_sector),
    .text "before_size=$((before_end - before_start + 1))",
    .text ("before_mib=$((before_size*" ++ toString sector_size ++ "/1024/1024))"),
    .text "before_gib=$((before_mib/1024))", .text "",
    .text "echo \"======================================\"",
    .text "echo \" BEFORE\"",
    .text "echo \" Start sector : $before_start\"",
    .text "echo \" End sector   : $before_end\"",
    .text "echo \" Size (sect)  : $before_size  ($before_mib MiB / ~$before_gib GiB)\"",
    .text "echo \"======================================\"", .text "" ]

/-- The block appended when shrinking an `ext` filesystem
(DriveAssistify.c:3437-3461). -/
def resize_shrink_block (part_path disk_path part_num : String)
    (target_mib sector_size start_sector : Int) : List ScriptLine :=
  [ .text "echo 'Running e2fsck...'",
    .e2fsck part_path false,
    .text "echo 'Shrinking filesystem...'",
    .resize2fs_to part_path target_mib, .text "",
    .text ("blk_cnt=$(dumpe2fs -h " ++ part_path ++ " | awk '/Block count:/ \x7bprint $3\x7d')"),
    .text ("blk_sz=$(dumpe2fs -h " ++ part_path ++ " | awk '/Block size:/ \x7bprint $3\x7d')"),
    .text ("fs_sectors=$(( (blk_cnt * blk_sz + " ++ toString sector_size ++ " - 1)/"
      ++ toString sector_size ++ " ))"),
    .text ("new_end=$(( " ++ toString start_sector ++ " + fs_sectors - 1 ))"),
    .text "echo \"Filesystem end sector: $new_end\"", .text "",
    .text "echo 'Resizing partition (shrink)...'",
    .parted_shrink disk_path part_num,
    .text "echo 'Partition shrink completed.'", .text "" ]

/-- The block appended when not shrinking (DriveAssistify.c:3463-3479). -/
def resize_grow_block (fstype part_path disk_path part_num : String)
    (final_end_sector : Int) : List ScriptLine :=
  [ .text "echo 'Extending partition...'",
    .parted_extend disk_path part_num final_end_sector,
    .text "echo 'Partition extend completed.'", .text "" ]
  ++
  (if g_str_has_prefix fstype "ext" then
    [ .text "echo 'Updating filesystem...'",
      .e2fsck part_path true,
      .resize2fs_fill part_path, .text "" ]
  else [])

/-- An argument passed to a `printf`-like call after its format: a string
(`char *`) or a `long long`. -/
inductive PrintfArg where
  | str (s : String)
  | lld (n : Int)
  deriving DecidableEq, Repr

/-- What a `printf`-like call prints for a format and its arguments, for the
conversions `%s` (a string), `%lld` (a `long long`) and `%%`: the characters
of the format, every conversion replaced by its argument.  A conversion that
finds no argument left, or an argument of the other type, has no defined
behaviour in C: the result is none, as it is for any other conversion.
Arguments left over are ignored. -/
def printf_chars (format : List Char) (args : List PrintfArg) : Option (List Char) :=
  match format, args with
  | [], _ => some []
  | '%' :: 's' :: rest, .str s :: args => (printf_chars rest args).map (fun t => s.data ++ t)
  | '%' :: 'l' :: 'l' :: 'd' :: rest, .lld n :: args =>
    (printf_chars rest args).map (fun t => (toString n).data ++ t)
  | '%' :: '%' :: rest, args => (printf_chars rest args).map (fun t => '%' :: t)
  | '%' :: _, _ => none
  | c :: rest, args => (printf_chars rest args).map (fun t => c :: t)

/-- GLib `g_strdup_printf (format, ...)`, which is also what
`g_string_append_printf` appends. -/
def g_strdup_printf (format : String) (args : List PrintfArg) : Option String :=
  (printf_chars format.data args).map String.mk

/-- The format of the closing block of the resize script
(DriveAssistify.c:3482-3495), one piece for every string literal of the
source: seven conversions, the first six of them `%s`. -/
def resize_closing_format : String :=
  "udevadm settle && partprobe %s || blockdev --rereadpt %s\\n"
  ++ "after_start=$(parted -m %s unit s print | grep '^%s:' | cut -d: -f2 | tr -d 's')\n"
  ++ "after_end=$(parted -m %s unit s print | grep '^%s:' | cut -d: -f3 | tr -d 's')\n"
  ++ "after_size=$((after_end - after_start + 1))\n"
  ++ "after_mib=$((after_size*%lld/1024/1024))\n"
  ++ "after_gib=$((after_mib/1024))\n\n"
  ++ "echo \"======================================\"\n"
  ++ "echo \" AFTER\"\n"
  ++ "echo \" Start sector : $after_start\"\n"
  ++ "echo \" End sector   : $after_end\"\n"
  ++ "echo \" Size (sect)  : $after_size  ($after_mib MiB / ~$after_gib GiB)\"\n"
  ++ "echo \"======================================\"\n"
  ++ "echo \"Operation completed.\"\n"
  ++ "rm -f \"$0\"\n"

/-- The closing call of DriveAssistify.c:3481-3497: the format is given the six
arguments `disk_path, disk_path, part_num, disk_path, part_num, sector_size`,
five strings and a `long long`. -/
def resize_closing (disk_path part_num : String) (sector_size : Int) : Option String :=
  g_strdup_printf resize_closing_format
    [.str disk_path, .str disk_path, .str part_num, .str disk_path, .str part_num,
     .lld sector_size]

/-- How `on_resize_dialog_response` ends once the dialog is accepted.
`closed`: the dialog is closed and nothing else is done (the jumps to
`cleanup_and_close_dialog` of DriveAssistify.c:3359-3394).  `undefined`: the
handler reaches its closing call and that call has no defined behaviour;
`lines` is what `script` holds by then, nothing is written to a file.
`written`: the script, its lines followed by the closing block, is written
to the file and run in the terminal. -/
inductive ResizeEnd where
  | closed
  | undefined (lines : List ScriptLine)
  | written (lines : List ScriptLine) (closing : String)
  deriving DecidableEq, Repr

/-- The lines `script` holds when the handler comes to its closing call. -/
def ResizeEnd.lines (e : ResizeEnd) : Option (List ScriptLine) :=
  match e with
  | .closed => none
  | .undefined lines => some lines
  | .written lines _ => some lines

/-- The end of `on_resize_dialog_response` after its closing call
(DriveAssistify.c:3499-3503): the script is written and run, if the call has
appended the closing block. -/
def ResizeEnd.after_closing (lines : List ScriptLine) (closing : Option String) : ResizeEnd :=
  match closing with
  | none => .undefined lines
  | some closing => .written lines closing

/-- Source `on_resize_dialog_response` (DriveAssistify.c:3346-3512), from the
accepted dialog on: the dialog is closed without a script for an empty MiB
field, a name without partition number, or a target size that is not
positive; otherwise the script is put together from the opening block, the
unmount, the shrink block and the grow block (DriveAssistify.c:3418-3479), and
then the closing call is made (3481-3497), whose result decides whether a
script is written (3499-3503). -/
def on_resize_dialog_response (r : ResizeRequest) : ResizeEnd :=
  if r.size_str = "" then .closed
  else
    let disk_name := get_disk_from_partition r.partition_name
    let disk_path := "/dev/" ++ disk_name
    match part_num r.partition_name with
    | none => .closed
    | some part_num =>
      let target_mib := parse_target_mib r.size_str
      if target_mib ≤ 0 then .closed
      else
        let sector_size := resize_sector_size r.widget_sector_size
        let d := resize_derive target_mib r.widget_sector_size r.start_sector
          r.current_end_sector r.disk_sectors
        let part_path := resize_part_path disk_name part_num
        let lines :=
          resize_header r.start_sector r.current_end_sector sector_size
          ++ [.umount part_path, .text ""]
          ++ (if d.shrinking ∧ g_str_has_prefix r.fstype "ext" = true then
                resize_shrink_block part_path disk_path part_num target_mib sector_size
                  r.start_sector
              else [])
          ++ (if d.shrinking then []
              else resize_grow_block r.fstype part_path disk_path part_num d.final_end_sector)
        ResizeEnd.after_closing lines (resize_closing disk_path part_num sector_size)

/-! ## Resizing a partition in version 1.7 (`on_resize_dialog_response`, driveassistify.c:1295) -/

namespace V17

/-- What `on_resize_dialog_response` of version 1.7 works from after the dialog
is accepted: the name and the file system of the row the dialog was opened
for (the file system may be missing), and the texts of the MiB, first sector
and last sector entries. -/
structure ResizeRequest where
  partition_name : String
  fstype : Option String
  size_str : String
  start_sector : String
  end_sector : String
  deriving DecidableEq, Repr

/-- How `on_resize_dialog_response` of version 1.7 ends once the dialog is
accepted: `run`, with the `cmd` it gives to `run_command`; `error`, with the
text of the error dialog it shows, and no command; `undefined`, for a call of
`g_strdup_printf` without defined behaviour. -/
inductive ResizeReply where
  | run (cmd : String)
  | error (message : String)
  | undefined
  deriving DecidableEq, Repr

/-- The branches by file system of driveassistify.c:1327-1367 and 1376-1416:
`g_strcmp0` against the names, a missing file system equal to none of them. -/
inductive FsBranch where
  | ext | ntfs | fat | exfat | other
  deriving DecidableEq, Repr

/-- The branch taken for a file system (driveassistify.c:1327, 1337, 1347, 1357). -/
def fs_branch (fstype : Option String) : FsBranch :=
  if fstype = some "ext4" ∨ fstype = some "ext3" ∨ fstype = some "ext2" then .ext
  else if fstype = some "ntfs" then .ntfs
  else if fstype = some "vfat" ∨ fstype = some "fat32" ∨ fstype = some "fat" then .fat
  else if fstype = some "exfat" then .exfat
  else .other

/-- The format of the command for ext2, ext3 and ext4 when resizing to sectors
(driveassistify.c:1329-1333). -/
def sectors_ext_format : String :=
  "echo 'Unmounting %s...'; umount %s 2>/dev/null; "
  ++ "echo 'Resizing partition to sectors...'; sudo parted -s %s unit s resizepart $(sudo "
  ++ "parted -s %s unit s print | awk '/^ [0-9]+/ && $NF==\"%s\" \x7bprint $1\x7d') %ss; "
  ++ "echo 'Resizing filesystem...'; sudo resize2fs %s; "
  ++ "(sudo partprobe %s || sudo blockdev --rereadpt %s); "
  ++ "echo 'Resize complete.'"

/-- The format of the command for ntfs when resizing to sectors
(driveassistify.c:1339-1343). -/
def sectors_ntfs_format : String :=
  "echo 'Unmounting %s...'; umount %s 2>/dev/null; "
  ++ "echo 'Resizing partition to sectors...'; sudo parted -s %s unit s resizepart $(sudo "
  ++ "parted -s %s unit s print | awk '/^ [0-9]+/ && $NF==\"%s\" \x7bprint $1\x7d') %ss; "
  ++ "echo 'Resizing filesystem...'; sudo ntfsresize -f %s; "
  ++ "(sudo partprobe %s || sudo blockdev --rereadpt %s); "
  ++ "echo 'Resize complete.'"

/-- The format of the command for vfat, fat32 and fat when resizing to sectors
(driveassistify.c:1349-1353). -/
def sectors_fat_format : String :=
  "echo 'Unmounting %s...'; umount %s 2>/dev/null; "
  ++ "echo 'Resizing partition to sectors...'; sudo parted -s %s unit s resizepart $(sudo "
  ++ "parted -s %s unit s print | awk '/^ [0-9]+/ && $NF==\"%s\" \x7bprint $1\x7d') %ss; "
  ++ "echo 'WARNING: FAT32 resizing is risky and not always supported. You may need to ref"
  ++ "ormat.'; "
  ++ "(sudo partprobe %s || sudo blockdev --rereadpt %s); "
  ++ "echo 'Resize complete.'"

/-- The format of the command for exfat when resizing to sectors
(driveassistify.c:1359-1363). -/
def sectors_exfat_format : String :=
  "echo 'Unmounting %s...'; umount %s 2>/dev/null; "
  ++ "echo 'Resizing partition to sectors...'; sudo parted -s %s unit s resizepart $(sudo "
  ++ "parted -s %s unit s print | awk '/^ [0-9]+/ && $NF==\"%s\" \x7bprint $1\x7d') %ss; "
  ++ "echo 'WARNING: exFAT resizing is not natively supported everywhere. You may need to "
  ++ "reformat.'; "
  ++ "(sudo partprobe %s || sudo blockdev --rereadpt %s); "
  ++ "echo 'Resize complete.'"

/-- The format of the command for ext2, ext3 and ext4 when resizing to a size in MiB
(driveassistify.c:1378-1382). -/
def size_ext_format : String :=
  "echo 'Unmounting %s...'; umount %s 2>/dev/null; "
  ++ "echo 'Resizing partition...'; sudo parted -s %s resizepart $(sudo parted -s %s print"
  ++ " | awk '/^ [0-9]+/ && $NF==\"%s\" \x7bprint $1\x7d') %sMiB; "
  ++ "echo 'Resizing filesystem...'; sudo resize2fs %s %sM; "
  ++ "(sudo partprobe %s || sudo blockdev --rereadpt %s); "
  ++ "echo 'Resize complete.'"

/-- The format of the command for ntfs when resizing to a size in MiB
(driveassistify.c:1388-1392). -/
def size_ntfs_format : String :=
  "echo 'Unmounting %s...'; umount %s 2>/dev/null; "
  ++ "echo 'Resizing partition...'; sudo parted -s %s resizepart $(sudo parted -s %s print"
  ++ " | awk '/^ [0-9]+/ && $NF==\"%s\" \x7bprint $1\x7d') %sMiB; "
  ++ "echo 'Resizing filesystem...'; sudo ntfsresize -f -s %sM %s; "
  ++ "(sudo partprobe %s || sudo blockdev --rereadpt %s); "
  ++ "echo 'Resize complete.'"

/-- The format of the command for vfat, fat32 and fat when resizing to a size in MiB
(driveassistify.c:1398-1402). -/
def size_fat_format : String :=
  "echo 'Unmounting %s...'; umount %s 2>/dev/null; "
  ++ "echo 'Resizing partition...'; sudo parted -s %s resizepart $(sudo parted -s %s print"
  ++ " | awk '/^ [0-9]+/ && $NF==\"%s\" \x7bprint $1\x7d') %sMiB; "
  ++ "echo 'WARNING: FAT32 resizing is risky and not always supported. You may need to ref"
  ++ "ormat.'; "
  ++ "(sudo partprobe %s || sudo blockdev --rereadpt %s); "
  ++ "echo 'Resize complete.'"

/-- The format of the command for exfat when resizing to a size in MiB
(driveassistify.c:1408-1412). -/
def size_exfat_format : String :=
  "echo 'Unmounting %s...'; umount %s 2>/dev/null; "
  ++ "echo 'Resizing partition...'; sudo parted -s %s resizepart $(sudo parted -s %s print"
  ++ " | awk '/^ [0-9]+/ && $NF==\"%s\" \x7bprint $1\x7d') %sMiB; "
  ++ "echo 'WARNING: exFAT resizing is not natively supported everywhere. You may need to "
  ++ "reformat.'; "
  ++ "(sudo partprobe %s || sudo blockdev --rereadpt %s); "
  ++ "echo 'Resize complete.'"

/-- The format and the arguments of the call that builds `cmd`, by branch
(driveassistify.c:1327-1415): none in the last branch, which builds no
command. -/
def resize_call (r : ResizeRequest) (use_sectors : Bool) :
    Option (String × List PrintfArg) :=
  let device_path := "/dev/" ++ r.partition_name
  match use_sectors, fs_branch r.fstype with
  | true, .ext => some (sectors_ext_format,
      [.str device_path, .str device_path, .str device_path, .str device_path,
       .str r.partition_name, .str r.end_sector, .str device_path, .str device_path,
       .str device_path])
  | true, .ntfs => some (sectors_ntfs_format,
      [.str device_path, .str device_path, .str device_path, .str device_path,
       .str r.partition_name, .str r.end_sector, .str device_path, .str device_path,
       .str device_path])
  | true, .fat => some (sectors_fat_format,
      [.str device_path, .str device_path, .str device_path, .str device_path,
       .str r.partition_name, .str r.end_sector, .str device_path, .str device_path])
  | true, .exfat => some (sectors_exfat_format,
      [.str device_path, .str device_path, .str device_path, .str device_path,
       .str r.partition_name, .str r.end_sector, .str device_path, .str device_path])
  | false, .ext => some (size_ext_format,
      [.str device_path, .str device_path, .str device_path, .str device_path,
       .str r.partition_name, .str r.size_str, .str device_path, .str r.size_str,
       .str device_path, .str device_path])
  | false, .ntfs => some (size_ntfs_format,
      [.str device_path, .str device_path, .str device_path, .str device_path,
       .str r.partition_name, .str r.size_str, .str r.size_str, .str device_path,
       .str device_path, .str device_path])
  | false, .fat => some (size_fat_format,
      [.str device_path, .str device_path, .str device_path, .str device_path,
       .str r.partition_name, .str r.size_str, .str device_path, .str device_path])
  | false, .exfat => some (size_exfat_format,
      [.str device_path, .str device_path, .str device_path, .str device_path,
       .str r.partition_name, .str r.size_str, .str device_path, .str device_path])
  | _, .other => none

/-- One branch of `on_resize_dialog_response` of version 1.7
(driveassistify.c:1326-1374 with the sectors, 1375-1423 with the size): the
command built by `g_strdup_printf`, or for a file system of the last branch
the error dialog and no command. -/
def resize_branch (r : ResizeRequest) (use_sectors : Bool) : ResizeReply :=
  match resize_call r use_sectors with
  | some (format, args) =>
    match g_strdup_printf format args with
    | some cmd => .run cmd
    | none => .undefined
  | none =>
    .error ("Resize not implemented for this filesystem type: " ++ r.fstype.getD "Unknown")

/-- Source `on_resize_dialog_response` of version 1.7
(driveassistify.c:1295-1436), from the accepted dialog on, with `device_path`
the `/dev/` path of the partition (driveassistify.c:1169).  With both sector
entries filled the command is built from the last sector, else with the MiB
entry filled from the size, else an error is shown. -/
def on_resize_dialog_response (r : ResizeRequest) : ResizeReply :=
  if r.start_sector ≠ "" ∧ r.end_sector ≠ "" then resize_branch r true
  else if r.size_str ≠ "" then resize_branch r false
  else .error "You must specify either new size in MiB or both first and last sector."

end V17

/-! ## Auxiliary notions for the statements -/

/-- The filesystem entries of the creation dialogs (DriveAssistify.c:1120-1126 and
2661-2667): the families of the creation table. -/
def listed_filesystems : List String :=
  ["ext4", "ext3", "ext2", "ntfs (quick format)", "ntfs (full zeroing)", "exfat", "fat32"]

/-- The simple commands that occur in a command tree. -/
def Sh.calls (s : Sh) : List Call :=
  match s with
  | .cmd tool text => [⟨tool, text⟩]
  | .seq a b => a.calls ++ b.calls
  | .and a b => a.calls ++ b.calls
  | .or a b => a.calls ++ b.calls
  | .paren a => a.calls
  | .brace a => a.calls
  | .ifThen c t => c.calls ++ t.calls
  | .ifThenElse c t e => c.calls ++ t.calls ++ e.calls
  | .forIn _ _ body => body.calls
  | .brk => []
  | .exit _ => []

/-- The number of unmount attempts in a run. -/
def Outcome.umounts (r : Outcome) : Nat :=
  (r.trace.filter (fun c => c.tool == .umount)).length

/-- A run extends the commands run before it, by commands of the tree. -/
def Extends (calls : List Call) (h : List Call) (r : Outcome) : Prop :=
  ∃ new, r.trace = h ++ new ∧ ∀ c ∈ new, c ∈ calls

/-! ## The size-entry dialogs

Both size dialogs keep one size in several text entries.  Every entry has one
handler of its `changed` signal.  `gtk_entry_set_text` does nothing when the
entry already holds the text; otherwise it replaces the text and emits
`changed` once, which runs the handler at once unless it is blocked.  A
handler is a state transformer; the nesting of emissions is bounded by a fuel
argument, and `none` stands for a run that leaves the model: no fuel left, a
division by zero, or code whose result is not fixed by the values the model
holds.  `int` values wrap.  `long long` sums and products are computed
without bound: they are those of C as long as they stay within `long long`,
and a statement that rests on one says where that is so.  `atoll` does keep
to the range of `long long`. -/

/-- C `int` arithmetic: the value reduced to 32 bits, two's complement.
(Overflow of `int` is undefined in C; the usual wrap is taken.) -/
def wrap32 (x : Int) : Int := (x + 2147483648) % 4294967296 - 2147483648

/-- C `strtol` on a 64-bit `long`: the value read, kept within the range of
`long`. -/
def strtol (s : String) : Int :=
  max (-9223372036854775808) (min 9223372036854775807 (atoll s))

/-- C `atoi`: `(int) strtol (s, NULL, 10)`. -/
def atoi (s : String) : Int := wrap32 (strtol s)

/-- What `%.2f` prints for `(double) n / d`, for `d` a power of two and `n`
within the 53 bits a double holds exactly: the quotient rounded to two
decimals, ties to even, with the sign of `n`. -/
def fmt2 (n d : Int) : String :=
  let a := n.natAbs * 100
  let q := a / d.natAbs
  let r := a % d.natAbs
  let rounded :=
    if 2 * r > d.natAbs then q + 1
    else if 2 * r < d.natAbs then q
    else if q % 2 = 0 then q else q + 1
  (if n < 0 then "-" else "") ++ toString (rounded / 100) ++ "."
    ++ (if rounded % 100 < 10 then "0" else "") ++ toString (rounded % 100)

/-- GTK `gtk_entry_set_text` on the entry `f` of a dialog state, with `emit`
what an emission of `changed` on an entry runs. -/
def gtk_entry_set_text {σ φ : Type} (text : σ → φ → String)
    (setText : σ → φ → String → σ) (emit : φ → σ → Option σ)
    (f : φ) (t : String) (st : σ) : Option σ :=
  if text st f = t then some st else emit f (setText st f t)

/-! ### The size dialog of `on_create_fs_clicked` (`CreateFSWidgets`) -/

/-- The entries of the size dialog (DriveAssistify.c:1043-1046). -/
inductive CreateEntry where
  | entry_bytes | entry_mib | entry_gib | entry_sectors
  deriving DecidableEq, Repr

/-- The size dialog: the texts of its entries and of the free-space label, the
fields of `CreateFSWidgets` the handlers read, and how often the handler of
each entry is blocked. -/
structure CreateDialog where
  entry_bytes : String
  entry_mib : String
  entry_gib : String
  entry_sectors : String
  label_free : String
  orig_free : Int
  sector_size : Int
  updating : Bool
  blocked_bytes : Nat
  blocked_mib : Nat
  blocked_gib : Nat
  blocked_sectors : Nat
  deriving DecidableEq, Repr

/-- The text of an entry (`gtk_entry_get_text`). -/
def CreateDialog.text (st : CreateDialog) (f : CreateEntry) : String :=
  match f with
  | .entry_bytes => st.entry_bytes
  | .entry_mib => st.entry_mib
  | .entry_gib => st.entry_gib
  | .entry_sectors => st.entry_sectors

/-- The dialog with the text of the entry `f` replaced by `t`. -/
def CreateDialog.setText (st : CreateDialog) (f : CreateEntry) (t : String) : CreateDialog :=
  match f with
  | .entry_bytes => { st with entry_bytes := t }
  | .entry_mib => { st with entry_mib := t }
  | .entry_gib => { st with entry_gib := t }
  | .entry_sectors => { st with entry_sectors := t }

/-- How often the handler of `f` is blocked. -/
def CreateDialog.blocked (st : CreateDialog) (f : CreateEntry) : Nat :=
  match f with
  | .entry_bytes => st.blocked_bytes
  | .entry_mib => st.blocked_mib
  | .entry_gib => st.blocked_gib
  | .entry_sectors => st.blocked_sectors

/-- GObject `g_signal_handlers_block_by_func` on the handler of `f`. -/
def CreateDialog.block (st : CreateDialog) (f : CreateEntry) : CreateDialog :=
  match f with
  | .entry_bytes => { st with blocked_bytes := st.blocked_bytes + 1 }
  | .entry_mib => { st with blocked_mib := st.blocked_mib + 1 }
  | .entry_gib => { st with blocked_gib := st.blocked_gib + 1 }
  | .entry_sectors => { st with blocked_sectors := st.blocked_sectors + 1 }

/-- GObject `g_signal_handlers_unblock_by_func` on the handler of `f`. -/
def CreateDialog.unblock (st : CreateDialog) (f : CreateEntry) : CreateDialog :=
  match f with
  | .entry_bytes => { st with blocked_bytes := st.blocked_bytes - 1 }
  | .entry_mib => { st with blocked_mib := st.blocked_mib - 1 }
  | .entry_gib => { st with blocked_gib := st.blocked_gib - 1 }
  | .entry_sectors => { st with blocked_sectors := st.blocked_sectors - 1 }

/-- The dialog at rest: no handler running, none blocked. -/
def CreateDialog.idle (st : CreateDialog) : Prop :=
  st.updating = false ∧ st.blocked_bytes = 0 ∧ st.blocked_mib = 0 ∧ st.blocked_gib = 0
    ∧ st.blocked_sectors = 0

instance (st : CreateDialog) : Decidable st.idle := by
  unfold CreateDialog.idle; infer_instance

/-- The label text of the size dialog (DriveAssistify.c:757, 3028, 3070). -/
def create_label (left : Int) : String :=
  "Free space after creation: " ++ toString left ++ " MiB (" ++ fmt2 left 1024 ++ " GiB)"

/-- Source `on_create_entry_bytes_changed` (DriveAssistify.c:690).  The
`g_signal_handlers_block_by_func (..., NULL, w)` calls match no handler. -/
def on_create_entry_bytes_changed (emit : CreateEntry → CreateDialog → Option CreateDialog)
    (st : CreateDialog) : Option CreateDialog :=
  let set := gtk_entry_set_text CreateDialog.text CreateDialog.setText emit
  if st.updating then some st
  else
    let st := { st with updating := true }
    let text := st.entry_bytes
    if text = "" then some { st with updating := false }
    else if st.sector_size = 0 then none
    else
      let bytes := atoll text
      let mib := Int.tdiv bytes (1024 * 1024)
      let sectors := Int.tdiv (bytes + st.sector_size - 1) st.sector_size
      let st := st.block .entry_mib
      (set .entry_mib (toString mib) st).bind fun st =>
      (set .entry_gib (fmt2 bytes (1024 * 1024 * 1024)) st).bind fun st =>
      (set .entry_sectors (toString sectors) st).bind fun st =>
      let st := st.unblock .entry_mib
      some { st with updating := false }

/-- Source `on_create_entry_mib_changed` (DriveAssistify.c:722). -/
def on_create_entry_mib_changed (emit : CreateEntry → CreateDialog → Option CreateDialog)
    (st : CreateDialog) : Option CreateDialog :=
  let set := gtk_entry_set_text CreateDialog.text CreateDialog.setText emit
  if st.updating then some st
  else
    let st := { st with updating := true }
    let text := st.entry_mib
    if text = "" then some { st with updating := false }
    else if st.sector_size = 0 then none
    else
      let input_mib := if atoll text < 0 then 0 else atoll text
      let bytes := input_mib * 1024 * 1024
      let sectors := Int.tdiv (bytes + st.sector_size - 1) st.sector_size
      let st := st.block .entry_bytes
      (set .entry_bytes (toString bytes) st).bind fun st =>
      (set .entry_gib (fmt2 input_mib 1024) st).bind fun st =>
      (set .entry_sectors (toString sectors) st).bind fun st =>
      let st := st.unblock .entry_bytes
      let left := if st.orig_free - input_mib < 0 then 0 else st.orig_free - input_mib
      let st := { st with label_free := create_label left }
      some { st with updating := false }

/-- Source `on_entry_sectors_changed` (DriveAssistify.c:3036), on the
`CreateFSWidgets` it is written for. -/
def on_entry_sectors_changed (emit : CreateEntry → CreateDialog → Option CreateDialog)
    (st : CreateDialog) : Option CreateDialog :=
  let set := gtk_entry_set_text CreateDialog.text CreateDialog.setText emit
  if st.updating then some st
  else
    let st := { st with updating := true }
    let text := st.entry_sectors
    if text = "" then some { st with updating := false }
    else
      let sectors := atoll text
      let bytes := sectors * st.sector_size
      let mib := Int.tdiv bytes (1024 * 1024)
      let st := ((st.block .entry_bytes).block .entry_mib).block .entry_gib
      (set .entry_bytes (toString bytes) st).bind fun st =>
      (set .entry_mib (toString mib) st).bind fun st =>
      (set .entry_gib (fmt2 bytes (1024 * 1024 * 1024)) st).bind fun st =>
      let st := ((st.unblock .entry_bytes).unblock .entry_mib).unblock .entry_gib
      let left := if st.orig_free - mib < 0 then 0 else st.orig_free - mib
      let st := { st with label_free := create_label left }
      some { st with updating := false }

/-- Source `on_entry_gib_changed` (DriveAssistify.c:2994), on the
`CreateFSWidgets` it is written for: it returns at once while `updating` is
set or when the text is empty; past that it converts the text with `atof`
and `double` arithmetic, which the model leaves out. -/
def on_entry_gib_changed (st : CreateDialog) : Option CreateDialog :=
  if st.updating then some st
  else
    let st := { st with updating := true }
    let text := st.entry_gib
    if text = "" then some { st with updating := false }
    else none

/-- The `changed` signal of an entry of the size dialog: the handler connected
to it at DriveAssistify.c:1077-1080, unless blocked. -/
def create_emit (fuel : Nat) (f : CreateEntry) (st : CreateDialog) : Option CreateDialog :=
  match fuel with
  | 0 => none
  | n + 1 =>
    if st.blocked f > 0 then some st
    else
      match f with
      | .entry_bytes => on_create_entry_bytes_changed (create_emit n) st
      | .entry_mib => on_create_entry_mib_changed (create_emit n) st
      | .entry_gib => on_entry_gib_changed st
      | .entry_sectors => on_entry_sectors_changed (create_emit n) st

/-- An edit of the entry `f` of the size dialog: the entry comes to hold the
text `t` and its `changed` signal is emitted. -/
def create_edit (fuel : Nat) (f : CreateEntry) (t : String) (st : CreateDialog) :
    Option CreateDialog :=
  create_emit fuel f (st.setText f t)

/-! ### The dialog of `on_resize_partition_activate` (`ResizeWidgets`) -/

/-- The entries of the resize dialog (DriveAssistify.c:3221-3231). -/
inductive ResizeEntry where
  | entry_bytes | entry_mib | entry_gib | entry_sectors | entry_start | entry_end
  deriving DecidableEq, Repr

/-- The resize dialog: the texts of its entries and of the free-space label,
the fields of `ResizeWidgets` the handlers read, the file-level flag
`is_updating`, and how often the handler of each entry is blocked. -/
structure ResizeDialog where
  entry_bytes : String
  entry_mib : String
  entry_gib : String
  entry_sectors : String
  entry_start : String
  entry_end : String
  label_free : String
  orig_free : Int
  orig_size : Int
  sector_size : Int
  is_updating : Bool
  blocked_bytes : Nat
  blocked_mib : Nat
  blocked_gib : Nat
  blocked_sectors : Nat
  blocked_start : Nat
  blocked_end : Nat
  deriving DecidableEq, Repr

/-- The text of an entry (`gtk_entry_get_text`). -/
def ResizeDialog.text (st : ResizeDialog) (f : ResizeEntry) : String :=
  match f with
  | .entry_bytes => st.entry_bytes
  | .entry_mib => st.entry_mib
  | .entry_gib => st.entry_gib
  | .entry_sectors => st.entry_sectors
  | .entry_start => st.entry_start
  | .entry_end => st.entry_end

/-- The dialog with the text of the entry `f` replaced by `t`. -/
def ResizeDialog.setText (st : ResizeDialog) (f : ResizeEntry) (t : String) : ResizeDialog :=
  match f with
  | .entry_bytes => { st with entry_bytes := t }
  | .entry_mib => { st with entry_mib := t }
  | .entry_gib => { st with entry_gib := t }
  | .entry_sectors => { st with entry_sectors := t }
  | .entry_start => { st with entry_start := t }
  | .entry_end => { st with entry_end := t }

/-- How often the handler of `f` is blocked. -/
def ResizeDialog.blocked (st : ResizeDialog) (f : ResizeEntry) : Nat :=
  match f with
  | .entry_bytes => st.blocked_bytes
  | .entry_mib => st.blocked_mib
  | .entry_gib => st.blocked_gib
  | .entry_sectors => st.blocked_sectors
  | .entry_start => st.blocked_start
  | .entry_end => st.blocked_end

/-- GObject `g_signal_handlers_block_by_func` on the handler of `f`. -/
def ResizeDialog.block (st : ResizeDialog) (f : ResizeEntry) : ResizeDialog :=
  match f with
  | .entry_bytes => { st with blocked_bytes := st.blocked_bytes + 1 }
  | .entry_mib => { st with blocked_mib := st.blocked_mib + 1 }
  | .entry_gib => { st with blocked_gib := st.blocked_gib + 1 }
  | .entry_sectors => { st with blocked_sectors := st.blocked_sectors + 1 }
  | .entry_start => { st with blocked_start := st.blocked_start + 1 }
  | .entry_end => { st with blocked_end := st.blocked_end + 1 }

/-- GObject `g_signal_handlers_unblock_by_func` on the handler of `f`. -/
def ResizeDialog.unblock (st : ResizeDialog) (f : ResizeEntry) : ResizeDialog :=
  match f with
  | .entry_bytes => { st with blocked_bytes := st.blocked_bytes - 1 }
  | .entry_mib => { st with blocked_mib := st.blocked_mib - 1 }
  | .entry_gib => { st with blocked_gib := st.blocked_gib - 1 }
  | .entry_sectors => { st with blocked_sectors := st.blocked_sectors - 1 }
  | .entry_start => { st with blocked_start := st.blocked_start - 1 }
  | .entry_end => { st with blocked_end := st.blocked_end - 1 }

/-- The dialog at rest: no handler running, none blocked. -/
def ResizeDialog.idle (st : ResizeDialog) : Prop :=
  st.is_updating = false ∧ st.blocked_bytes = 0 ∧ st.blocked_mib = 0 ∧ st.blocked_gib = 0
    ∧ st.blocked_sectors = 0 ∧ st.blocked_start = 0 ∧ st.blocked_end = 0

instance (st : ResizeDialog) : Decidable st.idle := by
  unfold ResizeDialog.idle; infer_instance

/-- Source `on_entry_start_changed` (DriveAssistify.c:2861): `int` arithmetic
throughout. -/
def on_entry_start_changed (emit : ResizeEntry → ResizeDialog → Option ResizeDialog)
    (st : ResizeDialog) : Option ResizeDialog :=
  let set := gtk_entry_set_text ResizeDialog.text ResizeDialog.setText emit
  if st.is_updating then some st
  else
    let st := { st with is_updating := true }
    let start := atoi st.entry_start
    let input := atoi st.entry_mib
    (if input > 0 ∧ st.sector_size > 0 then
      let sectors := Int.tdiv (wrap32 (wrap32 (input * 1024) * 1024)) st.sector_size
      let end_sector := wrap32 (wrap32 (start + sectors) - 1)
      if start ≥ 0 ∧ sectors > 0 ∧ end_sector ≥ start then
        set .entry_end (toString end_sector) st
      else
        set .entry_end "" st
    else
      set .entry_end "" st).bind fun st =>
    some { st with is_updating := false }

/-- Source `on_entry_end_changed` (DriveAssistify.c:2888): `int` arithmetic
throughout. -/
def on_entry_end_changed (emit : ResizeEntry → ResizeDialog → Option ResizeDialog)
    (st : ResizeDialog) : Option ResizeDialog :=
  let set := gtk_entry_set_text ResizeDialog.text ResizeDialog.setText emit
  if st.is_updating then some st
  else
    let st := { st with is_updating := true }
    let start := atoi st.entry_start
    let end_sector := atoi st.entry_end
    (if end_sector > start ∧ st.sector_size > 0 then
      let sectors := wrap32 (wrap32 (end_sector - start) + 1)
      let mib := Int.tdiv (wrap32 (sectors * st.sector_size)) (1024 * 1024)
      set .entry_mib (toString mib) st
    else
      some st).bind fun st =>
    some { st with is_updating := false }

/-- Source `on_entry_bytes_changed` (DriveAssistify.c:2908). -/
def on_entry_bytes_changed (emit : ResizeEntry → ResizeDialog → Option ResizeDialog)
    (st : ResizeDialog) : Option ResizeDialog :=
  let set := gtk_entry_set_text ResizeDialog.text ResizeDialog.setText emit
  let text := st.entry_bytes
  if text = "" then some st
  else if st.sector_size = 0 then none
  else
    let bytes := atoll text
    let mib := Int.tdiv bytes (1024 * 1024)
    let gib := Int.tdiv bytes (1024 * 1024 * 1024)
    let sectors := Int.tdiv (bytes + st.sector_size - 1) st.sector_size
    let st := ((st.block .entry_mib).block .entry_gib).block .entry_sectors
    (set .entry_mib (toString mib) st).bind fun st =>
    (set .entry_gib (toString gib) st).bind fun st =>
    (set .entry_sectors (toString sectors) st).bind fun st =>
    some (((st.unblock .entry_mib).unblock .entry_gib).unblock .entry_sectors)

/-- Source `on_entry_mib_changed` (DriveAssistify.c:2935). -/
def on_entry_mib_changed (emit : ResizeEntry → ResizeDialog → Option ResizeDialog)
    (st : ResizeDialog) : Option ResizeDialog :=
  let set := gtk_entry_set_text ResizeDialog.text ResizeDialog.setText emit
  if st.is_updating then some st
  else
    let st := { st with is_updating := true }
    let text := st.entry_mib
    if text = "" then some { st with is_updating := false }
    else if st.sector_size = 0 then none
    else
      let input_mib := if atoll text < 0 then 0 else atoll text
      let bytes := input_mib * 1024 * 1024
      let sectors := Int.tdiv (bytes + st.sector_size - 1) st.sector_size
      let st := ((st.block .entry_bytes).block .entry_gib).block .entry_sectors
      (set .entry_bytes (toString bytes) st).bind fun st =>
      (set .entry_mib (toString input_mib) st).bind fun st =>
      (set .entry_gib (fmt2 input_mib 1024) st).bind fun st =>
      (set .entry_sectors (toString sectors) st).bind fun st =>
      (if st.entry_start ≠ "" ∧ atoll st.entry_start ≥ 0 ∧ sectors > 0 then
        (set .entry_end (toString (atoll st.entry_start + sectors - 1))
          (st.block .entry_end)).bind fun st =>
        some (st.unblock .entry_end)
      else
        some st).bind fun st =>
      let left :=
        if st.orig_size + st.orig_free - input_mib < 0 then 0
        else st.orig_size + st.orig_free - input_mib
      let st := { st with label_free := "Free space after resize: " ++ toString left ++ " MiB" }
      let st := ((st.unblock .entry_bytes).unblock .entry_gib).unblock .entry_sectors
      some { st with is_updating := false }

/-- The `changed` signal of an entry of the resize dialog: the handler
connected to it at DriveAssistify.c:3306-3317, unless blocked.  The handlers
of the GiB and sectors entries are `on_entry_gib_changed` and
`on_entry_sectors_changed`, which read the `ResizeWidgets` they are given as
a `CreateFSWidgets`; what they do then depends on the layout of the two
structures in memory and is left out. -/
def resize_emit (fuel : Nat) (f : ResizeEntry) (st : ResizeDialog) : Option ResizeDialog :=
  match fuel with
  | 0 => none
  | n + 1 =>
    if st.blocked f > 0 then some st
    else
      match f with
      | .entry_bytes => on_entry_bytes_changed (resize_emit n) st
      | .entry_mib => on_entry_mib_changed (resize_emit n) st
      | .entry_gib => none
      | .entry_sectors => none
      | .entry_start => on_entry_start_changed (resize_emit n) st
      | .entry_end => on_entry_end_changed (resize_emit n) st

/-- An edit of the entry `f` of the resize dialog: the entry comes to hold the
text `t` and its `changed` signal is emitted. -/
def resize_edit (fuel : Nat) (f : ResizeEntry) (t : String) (st : ResizeDialog) :
    Option ResizeDialog :=
  resize_emit fuel f (st.setText f t)

/-! ## The free-space table of `on_show_disk_areas_activate`

The report of `parted <disk> unit MiB print free` is read line by line with
`fgets`; strings are lists of bytes, taken to be ASCII. -/

/-- GLib `g_ascii_isspace`: blank, tab, line feed, form feed, carriage return. -/
def g_ascii_isspace (c : Char) : Bool :=
  c = ' ' || c = '\t' || c = '\n' || c = '\r' || c = Char.ofNat 12

/-- GLib `g_strstrip`: the string without its leading and trailing white space. -/
def g_strstrip (s : List Char) : List Char :=
  ((s.dropWhile g_ascii_isspace).reverse.dropWhile g_ascii_isspace).reverse

/-- C `strstr (hay, needle) != NULL`: `needle` occurs in `hay`. -/
def strstr (hay needle : List Char) : Bool :=
  match hay with
  | [] => needle.isEmpty
  | c :: cs => needle.isPrefixOf (c :: cs) || strstr cs needle

/-- The successive results of `fgets (buf, size, fp)` on a stream holding
`text`, with `cur` the bytes of the current line read so far, last first: a
line ends after a line feed, after `size - 1` bytes, or with the stream. -/
def read_lines (size : Nat) (text : List Char) (cur : List Char) : List (List Char) :=
  match text with
  | [] => if cur = [] then [] else [cur.reverse]
  | c :: rest =>
    if c = '\n' ∨ cur.length + 2 ≥ size then (c :: cur).reverse :: read_lines size rest []
    else read_lines size rest (c :: cur)

/-- One `%Ns` conversion of `sscanf`: white space is skipped, then up to
`width` bytes that are not white space are stored; the conversion fails at the
end of the input.  The result is the string stored and the input left. -/
def scan_s (width : Nat) (input : List Char) : Option (List Char × List Char) :=
  let r := input.dropWhile isspace
  let tok := (r.take width).takeWhile (fun c => !isspace c)
  if tok = [] then none else some (tok, r.drop tok.length)

/-- C `sscanf` with a format made of `%Ns` conversions of the given widths,
separated by blanks: the strings stored, in order, up to the first conversion
that fails.  Their number is what `sscanf` returns (or it returns `EOF` where
the list is empty). -/
def sscanf_s (widths : List Nat) (input : List Char) : List (List Char) :=
  match widths with
  | [] => []
  | w :: ws =>
    match scan_s w input with
    | none => []
    | some (tok, rest) => tok :: sscanf_s ws rest

/-- A row of the list store of the disk-areas window: the columns Start, End,
Size, Type and File system. -/
structure AreaRow where
  start : String
  end_ : String
  size : String
  type : String
  fs : String
  deriving DecidableEq, Repr

/-- The test for the header line of the table (DriveAssistify.c:603). -/
def is_table_header (line : String) : Bool :=
  strstr line.data "Number".data && strstr line.data "File system".data

/-- The file system column of a numbered line (DriveAssistify.c:628-641): when
`sscanf` stored fewer than six strings, or the sixth is empty or `unknown`, the
first line that `blkid -o value -s TYPE <part_dev>` prints is read (`blkid`
gives the output of the command, empty when there is none), stripped, and
copied over `fs` if it is not empty. -/
def resolve_fs (blkid : String → String) (part_dev : String) (parsed : Nat) (fs : String) :
    String :=
  if parsed < 6 ∨ fs = "" ∨ fs = "unknown" then
    let fs_type := g_strstrip ((read_lines 64 (blkid part_dev).data []).headD [])
    if fs_type ≠ [] then String.mk (fs_type.take 31) else fs
  else fs

/-- The reading loop of `on_show_disk_areas_activate` (DriveAssistify.c:600-647)
on the lines `fgets` delivers, with `in_table` the flag of the loop: the rows
appended to the list store, in order. -/
def parse_areas (disk_name : String) (blkid : String → String) (lines : List String)
    (in_table : Bool) : List AreaRow :=
  match lines with
  | [] => []
  | line :: rest =>
    if is_table_header line then parse_areas disk_name blkid rest true
    else if !in_table then parse_areas disk_name blkid rest in_table
    else
      let trim := g_strstrip line.data
      if trim = [] then parse_areas disk_name blkid rest in_table
      else if strstr trim "Free Space".data then
        let v := sscanf_s [31, 31, 31] trim
        { start := String.mk (v.getD 0 []), end_ := String.mk (v.getD 1 []),
          size := String.mk (v.getD 2 []), type := "Free Space", fs := "" }
          :: parse_areas disk_name blkid rest in_table
      else
        let v := sscanf_s [15, 31, 31, 31, 31, 31] trim
        if v.length ≥ 4 then
          let num := String.mk (v.getD 0 [])
          let device_path := "/dev/" ++ disk_name
          let part_dev :=
            if g_str_has_prefix disk_name "nvme" || g_str_has_prefix disk_name "mmcblk" then
              device_path ++ "p" ++ num
            else device_path ++ num
          { start := String.mk (v.getD 1 []), end_ := String.mk (v.getD 2 []),
            size := String.mk (v.getD 3 []), type := String.mk (v.getD 4 []),
            fs := resolve_fs blkid part_dev v.length (String.mk (v.getD 5 [])) }
            :: parse_areas disk_name blkid rest in_table
        else parse_areas disk_name blkid rest in_table

/-- The rows of the disk-areas window for the report `report` of parted. -/
def show_disk_areas_rows (disk_name : String) (blkid : String → String) (report : String) :
    List AreaRow :=
  parse_areas disk_name blkid ((read_lines 512 report.data []).map String.mk) false

/-! ## The order of the device list (`show_disk_list`) -/

/-- C `strcmp`, as its sign: -1, 0 or 1 by the first byte that differs. -/
def strcmp (a b : List Char) : Int :=
  match a, b with
  | [], [] => 0
  | [], _ :: _ => -1
  | _ :: _, [] => 1
  | x :: xs, y :: ys => if x < y then -1 else if y < x then 1 else strcmp xs ys

/-- A row of the device list (`DiskRow`): the seven columns read from lsblk
and the display attributes of the row. -/
structure DiskRow where
  name : String
  size : String
  type : String
  fstype : String
  mountpoint : String
  uuid : String
  model : String
  has_color : Bool
  font_color : String
  weight : Int
  deriving DecidableEq, Repr

/-- The root of a device name in `compare_rows`: its bytes before the first
digit. -/
def name_root (name : String) : List Char :=
  name.data.takeWhile (fun c => c < '0' || c > '9')

/-- Source `compare_rows` (DriveAssistify.c:4501). -/
def compare_rows (ra rb : DiskRow) : Int :=
  let root_a := name_root ra.name
  let root_b := name_root rb.name
  let cmp := strcmp root_a root_b
  if cmp ≠ 0 then cmp
  else
    let is_disk_a := strcmp ra.type.data "disk".data = 0
    let is_disk_b := strcmp rb.type.data "disk".data = 0
    if is_disk_a ∧ ¬ is_disk_b then -1
    else if ¬ is_disk_a ∧ is_disk_b then 1
    else strcmp ra.name.data rb.name.data

/-- Every row of the list is followed by one that `compare_rows` does not put
before it. -/
def rows_in_order (out : List DiskRow) : Bool :=
  match out with
  | a :: b :: rest => decide (compare_rows a b ≤ 0) && rows_in_order (b :: rest)
  | _ => true

/-- What `qsort (rows, row_count, sizeof (DiskRow), compare_rows)` leaves in
the array: the rows it was given, in an order in which `compare_rows` never
puts a row after its successor. -/
def qsort_compare_rows (rows out : List DiskRow) : Prop :=
  out.Perm rows ∧ rows_in_order out = true

instance (rows out : List DiskRow) : Decidable (qsort_compare_rows rows out) :=
  inferInstanceAs (Decidable (out.Perm rows ∧ rows_in_order out = true))

/-- The rows `show_disk_list` appends to the list store, for the rows `rows`
collected from the lines of lsblk: the array `rows[256]` sorted by `qsort`
(DriveAssistify.c:4634).  More than 256 rows overrun the array. -/
def show_disk_list_shows (rows out : List DiskRow) : Prop :=
  rows.length ≤ 256 ∧ qsort_compare_rows rows out

instance (rows out : List DiskRow) : Decidable (show_disk_list_shows rows out) :=
  inferInstanceAs (Decidable (rows.length ≤ 256 ∧ qsort_compare_rows rows out))

/-- A row with the given name and type, shown as `show_disk_list` shows a row
of that type, the other columns empty. -/
def DiskRow.named (name type : String) : DiskRow :=
  { name := name, size := "", type := type, fstype := "", mountpoint := "", uuid := "",
    model := "", has_color := decide (type = "disk"),
    font_color := if type = "disk" then "#0057ae" else "",
    weight := if type = "disk" then 700 else 400 }

/-! ## Auxiliary notions for the statements on the free-space table -/

/-- A field of a table line: not empty, at most `width` bytes, no white space
in it. -/
def is_field (width : Nat) (t : String) : Prop :=
  t.data ≠ [] ∧ t.data.length ≤ width ∧ ∀ c ∈ t.data, isspace c = false

instance (width : Nat) (t : String) : Decidable (is_field width t) := by
  unfold is_field; infer_instance

/-- The blanks between two columns: one and `gap` more. -/
def column_gap (gap : Nat) : List Char := List.replicate (gap + 1) ' '

/-- A line of the table as parted prints it, fields first: a free-space line
has the fields start, end and size and then the words `Free Space`; a
numbered line has the fields number, start, end and size and then any more
(type, file system, flags).  `indent` is the number of blanks the line starts
with, the numbers before the fields are the blanks between the columns beyond
the first, and `nl` tells whether the line ends in a line feed. -/
inductive TableLine where
  | free (indent : Nat) (start : String) (g1 : Nat) (end_ : String) (g2 : Nat)
      (size : String) (g3 : Nat) (nl : Bool)
  | part (indent : Nat) (num : String) (g1 : Nat) (start : String) (g2 : Nat)
      (end_ : String) (g3 : Nat) (size : String) (more : List (Nat × String)) (nl : Bool)

/-- The text of a table line. -/
def TableLine.text : TableLine → String
  | .free indent start g1 end_ g2 size g3 nl =>
    String.mk (List.replicate indent ' ' ++ start.data ++ column_gap g1 ++ end_.data
      ++ column_gap g2 ++ size.data ++ column_gap g3 ++ "Free Space".data
      ++ (if nl then ['\n'] else []))
  | .part indent num g1 start g2 end_ g3 size more nl =>
    String.mk (List.replicate indent ' ' ++ num.data ++ column_gap g1 ++ start.data
      ++ column_gap g2 ++ end_.data ++ column_gap g3 ++ size.data
      ++ more.flatMap (fun p => column_gap p.1 ++ p.2.data)
      ++ (if nl then ['\n'] else []))

/-- A table line is well formed when its fields are fields within the widths
the parser reads (15 bytes for the number, 31 for the others it stores), it
is not taken for the header, and a numbered line does not hold the words
`Free Space`. -/
def TableLine.well_formed (l : TableLine) : Prop :=
  match l with
  | .free _ start _ end_ _ size _ _ =>
    is_field 31 start ∧ is_field 31 end_ ∧ is_field 31 size ∧ is_table_header l.text = false
  | .part _ num _ start _ end_ _ size more _ =>
    is_field 15 num ∧ is_field 31 start ∧ is_field 31 end_ ∧ is_field 31 size ∧
    (∀ p ∈ more.take 2, is_field 31 p.2) ∧ (∀ p ∈ more.drop 2, is_field p.2.length p.2) ∧
    strstr l.text.data "Free Space".data = false ∧ is_table_header l.text = false

/-- The region a table line stands for: its start, end and size fields; the
type `Free Space` for a free-space line and the fifth field for a numbered
line; as file system of a numbered line its sixth field, or what `blkid` tells
for the partition of that number where the line has no sixth field or has
`unknown` there. -/
def TableLine.region (disk_name : String) (blkid : String → String) : TableLine → AreaRow
  | .free _ start _ end_ _ size _ _ =>
    { start := start, end_ := end_, size := size, type := "Free Space", fs := "" }
  | .part _ num _ start _ end_ _ size more _ =>
    { start := start, end_ := end_, size := size,
      type := ((more.get? 0).map Prod.snd).getD "",
      fs := resolve_fs blkid
        ("/dev/" ++ disk_name
          ++ (if g_str_has_prefix disk_name "nvme" || g_str_has_prefix disk_name "mmcblk"
              then "p" else "") ++ num)
        (4 + min more.length 2) (((more.get? 1).map Prod.snd).getD "") }

/-- A free-space line, as opposed to a numbered one. -/
def TableLine.is_free : TableLine → Bool
  | .free .. => true
  | .part .. => false

instance (l : TableLine) : Decidable l.well_formed := by
  cases l <;> (unfold TableLine.well_formed; infer_instance)

/-! ## The device list (`show_disk_list`): reading the lines of lsblk -/

/-- C `isalnum`, for ASCII: a letter or a decimal digit. -/
def isalnum (c : Char) : Bool := c.isAlpha || c.isDigit

/-- Source `clean_string` (DriveAssistify.c:4469): the bytes that are letters,
digits or `'/'`, in order. -/
def clean_string (str : List Char) : List Char :=
  str.filter (fun c => isalnum c || c = '/')

/-- C `strstr (hay, needle)` as a pointer: the rest of `hay` from the first
occurrence of `needle` on, `none` for NULL. -/
def strstr_from (hay needle : List Char) : Option (List Char) :=
  match hay with
  | [] => if needle.isEmpty then some [] else none
  | c :: cs => if needle.isPrefixOf (c :: cs) then some (c :: cs) else strstr_from cs needle

/-- C `strchr (s, c)` as a pointer: the rest of `s` from the first byte `c`
on, `none` for NULL. -/
def strchr_from (s : List Char) (c : Char) : Option (List Char) :=
  match s with
  | [] => none
  | x :: xs => if x = c then some (x :: xs) else strchr_from xs c

/-- Source `get_value` (DriveAssistify.c:4480): the bytes between the first
two double quotes behind the first occurrence of `key`, at most `buflen - 1`
of them; empty when the key or a quote is missing. -/
def get_value (src key : List Char) (buflen : Nat) : List Char :=
  match strstr_from src key with
  | none => []
  | some p =>
    match strchr_from p '"' with
    | none => []
    | some q =>
      let p := q.drop 1
      match strchr_from p '"' with
      | none => []
      | some e =>
        let len := if p.length - e.length < buflen - 1 then p.length - e.length else buflen - 1
        p.take len

/-- The first check on a row of type disk (DriveAssistify.c:4566-4580): the
first line that `lsblk -ndo TYPE /dev/<name> | head -1` prints, read with
`fgets` into 32 bytes and cut at the line feed, is `part`.  `real_type` gives
the output of the command for a name, empty when there is none. -/
def disk_is_really_part (real_type : String → String) (name : String) : Bool :=
  match (read_lines 32 (real_type name).data []).head? with
  | none => false
  | some l => decide (l.takeWhile (fun c => c ≠ '\n') = "part".data)

/-- The number of partitions of a disk (DriveAssistify.c:4583-4591): `atoi` of
what `fgets` reads into 16 bytes from the output of
`lsblk -nlo TYPE /dev/<name> | grep -c 'part'`; `none` when nothing is read.
`part_count` gives the output of the command. -/
def disk_part_count (part_count : String → String) (name : String) : Option Int :=
  match (read_lines 16 (part_count name).data []).head? with
  | none => none
  | some l => some (atoi (String.mk l))

/-- The replacement of an empty value or a lone dash by `N/A`
(DriveAssistify.c:4600-4608). -/
def not_applicable (s : String) : String :=
  if s = "" ∨ s = "-" then "N/A" else s

/-- The body of the reading loop of `show_disk_list` (DriveAssistify.c:4547-4630):
the row stored for the line `path` of lsblk. -/
def show_disk_list_row (real_type part_count : String → String) (path : String) : DiskRow :=
  let name := String.mk (clean_string (get_value path.data "NAME=".data 100))
  let size := String.mk (get_value path.data "SIZE=".data 100)
  let type := String.mk (get_value path.data "TYPE=".data 100)
  let fstype := String.mk (clean_string (get_value path.data "FSTYPE=".data 100))
  let mountpoint := String.mk (clean_string (get_value path.data "MOUNTPOINT=".data 100))
  let uuid := String.mk (clean_string (get_value path.data "UUID=".data 100))
  let model := String.mk (clean_string (get_value path.data "MODEL=".data 100))
  let type := if type = "disk" ∧ disk_is_really_part real_type name = true then "part" else type
  let clear :=
    decide (type = "disk") &&
      (match disk_part_count part_count name with
       | some count => decide (count > 0 ∧ fstype ≠ "")
       | none => false)
  let fstype := if clear then "" else fstype
  let uuid := if clear then "" else uuid
  let mountpoint := if type = "disk" then not_applicable mountpoint else mountpoint
  let uuid := if type = "disk" then not_applicable uuid else uuid
  let model := if type = "disk" then not_applicable model else model
  { name := name, size := size, type := type, fstype := fstype, mountpoint := mountpoint,
    uuid := uuid, model := model, has_color := decide (type = "disk"),
    font_color := if type = "disk" then "#0057ae" else "",
    weight := if type = "disk" then 700 else 400 }

/-- The rows `show_disk_list` collects from the output of lsblk, line by line
(`fgets` with a size of 1034), before they are sorted. -/
def show_disk_list_collect (real_type part_count : String → String) (output : String) :
    List DiskRow :=
  (read_lines 1034 output.data []).map
    (fun l => show_disk_list_row real_type part_count (String.mk l))

/-! ## The whole-disk test of the free-space view -/

/-- The match of `g_regex_match_simple ("^[a-zA-Z]+[0-9]+$", name, 0, 0)`: one
or more ASCII letters, then one or more decimal digits, then the end of the
string or a last line feed. -/
def matches_letters_digits (name : String) : Bool :=
  let letters := name.data.takeWhile Char.isAlpha
  let rest := name.data.drop letters.length
  let digits := rest.takeWhile Char.isDigit
  let tail := rest.drop digits.length
  !letters.isEmpty && !digits.isEmpty && (tail.isEmpty || tail == ['\n'])

/-- The report `on_show_disk_areas_activate` asks for (DriveAssistify.c:563-578):
none when the name is taken for that of a partition, else the command given
to `popen`. -/
def on_show_disk_areas_command (disk_name : String) : Option String :=
  if matches_letters_digits disk_name then none
  else some ("parted " ++ ("/dev/" ++ disk_name) ++ " unit MiB print free")

/-! ## Other readings of a partition name -/

/-- Source `get_base_device` (DriveAssistify.c:335): the same steps as
`get_disk_from_partition`. -/
def get_base_device (dev : String) : String :=
  match controllerDisk dev "nvme" with
  | some d => d
  | none =>
    match controllerDisk dev "mmcblk" with
    | some d => d
    | none =>
      match firstDigit dev.data with
      | some p => String.mk (dev.data.take p)
      | none => dev

/-- C `strrchr (s, c)` as an offset: that of the last byte `c`. -/
def strrchr (s : List Char) (c : Char) : Option Nat := g_strrstr s c

/-- The disk path and partition number of `on_toggle_boot_flag_activate`
(DriveAssistify.c:3907-3921), from the name of the selected row: for a name
that starts with `nvme` and holds a `'p'` the device path is cut at its last
`'p'`; any other device path is cut in front of its last run of digits. -/
def toggle_boot_split (partition_name : String) : Option String × Option String :=
  let device_path := ("/dev/" ++ partition_name).data
  if g_str_has_prefix partition_name "nvme" ∧ 'p' ∈ partition_name.data then
    match strrchr device_path 'p' with
    | some p => (some (String.mk (device_path.take p)), some (String.mk (device_path.drop (p + 1))))
    | none => (none, none)
  else
    let digits := (device_path.reverse.takeWhile Char.isDigit).length
    let p := if digits = device_path.length then 1 else device_path.length - digits
    (some (String.mk (device_path.take p)), some (String.mk (device_path.drop p)))

/-! ## The file write benchmark (`on_disk_file_write_benchmark_activate`) -/

/-- The free space read from `df --output=avail $HOME | tail -1 | tr -d ' '`
(DriveAssistify.c:1681-1690), in KiB: `atoll` of the first line, read with
`fgets` into 16 bytes and stripped; 0 when nothing is read.  `df_output` is
what the command prints. -/
def benchmark_free_kb (df_output : String) : Int :=
  match (read_lines 16 df_output.data []).head? with
  | none => 0
  | some l => atoll (String.mk (g_strstrip l))

/-- The command line of the file write benchmark, `none` where nothing is
given to `run_command_in_terminal`: from the name of the selected row, the
answer to the size dialog with `mib_text` in its MiB entry, the output of df,
and the answer to the last question (DriveAssistify.c:1594-1741). -/
def on_disk_file_write_benchmark_dispatch (partition_name mib_text df_output : String)
    (accept yes : Bool) : Option String :=
  if partition_name = "" then none
  else if !accept then none
  else
  let test_size_mib := if atoll mib_text ≤ 0 then 8192 else atoll mib_text
  let free_kb := benchmark_free_kb df_output
  let required_kb := Int.tdiv test_size_mib 1024 * 1024 * 1024
  if free_kb < required_kb then none
  else
    let test_file := "$HOME/benchmark-" ++ partition_name ++ ".dat"
    if yes then
      some ("sudo sh -c \"echo 3 > /proc/sys/vm/drop_caches\" && " ++ "sync && "
        ++ "dd if=/dev/zero of='" ++ test_file ++ "' bs=1M count=" ++ toString test_size_mib
        ++ " status=progress oflag=direct && " ++ "sync && rm -f '" ++ test_file ++ "'")
    else none

/-- Source `check_tmp_space_for_size` (DriveAssistify.c:1578), which no code
calls: the free space of `/tmp` is at least `required_gib` GiB. -/
def check_tmp_space_for_size (df_output : String) (required_gib : Int) : Bool :=
  decide (benchmark_free_kb df_output ≥ required_gib * 1024 * 1024)

/-! ## The sector sizes of the filesystem dialog -/

/-- The sector sizes offered by the dialog of `on_create_fs_clicked`
(`sector_options`, DriveAssistify.c:1133). -/
def sector_options : List Int := [512, 1024, 2048, 4096, 8192, 16384]

/-! # Theorems -/

/-! ## Device-name resolution (C4, C5) -/

theorem firstDigit_append (pre : List Char) (d : Char) (rest : List Char)
    (hpre : ∀ c ∈ pre, isdigit c = false) (hd : isdigit d = true) :
    firstDigit (pre ++ d :: rest) = some pre.length := by
  induction pre with
  | nil => simp [firstDigit, hd]
  | cons x xs ih =>
    have hx : isdigit x = false := hpre x (List.mem_cons_self _ _)
    have hxs : ∀ c ∈ xs, isdigit c = false := fun c hc => hpre c (List.mem_cons_of_mem _ hc)
    simp [firstDigit, hx, ih hxs]

theorem firstDigit_none (s : List Char) (h : ∀ c ∈ s, isdigit c = false) :
    firstDigit s = none := by
  induction s with
  | nil => simp [firstDigit]
  | cons x xs ih =>
    have hx : isdigit x = false := h x (List.mem_cons_self _ _)
    have hxs : ∀ c ∈ xs, isdigit c = false := fun c hc => h c (List.mem_cons_of_mem _ hc)
    simp [firstDigit, hx, ih hxs]

theorem g_strrstr_none (s : List Char) (c : Char) (h : c ∉ s) : g_strrstr s c = none := by
  induction s with
  | nil => simp [g_strrstr]
  | cons x xs ih =>
    have hx : x ≠ c := fun e => h (e ▸ List.mem_cons_self _ _)
    have hxs : c ∉ xs := fun hc => h (List.mem_cons_of_mem _ hc)
    simp [g_strrstr, ih hxs, hx]

theorem g_strrstr_append (pre suf : List Char) (c : Char) (h : c ∉ suf) :
    g_strrstr (pre ++ c :: suf) c = some pre.length := by
  induction pre with
  | nil => simp [g_strrstr, g_strrstr_none suf c h]
  | cons x xs ih => simp [g_strrstr, ih]

theorem byteAfter_append (pre : List Char) (c d : Char) (rest : List Char) :
    byteAfter (pre ++ c :: d :: rest) pre.length = d := by
  induction pre with
  | nil => simp [byteAfter]
  | cons x xs ih =>
    simpa [byteAfter] using ih

theorem controllerDisk_split (n pfx : String) (pre : List Char) (d : Char) (rest : List Char)
    (hpfx : g_str_has_prefix n pfx = true)
    (hsplit : n.data = pre ++ 'p' :: d :: rest)
    (hd : isdigit d = true) (hlast : 'p' ∉ d :: rest) :
    controllerDisk n pfx = some (String.mk pre) := by
  simp [controllerDisk, hpfx, hsplit, g_strrstr_append pre (d :: rest) 'p' hlast,
    byteAfter_append, hd]

/-- C4 (as amended): for a device name that starts with `nvme` or `mmcblk` and
whose last `'p'` is immediately followed by a decimal digit,
`get_disk_from_partition` returns everything before that last `'p'` and the
partition index of the resize and delete workflows is everything after it. -/
theorem get_disk_from_partition_controller (n : String) (pre : List Char) (d : Char)
    (rest : List Char)
    (hpfx : g_str_has_prefix n "nvme" = true ∨ g_str_has_prefix n "mmcblk" = true)
    (hsplit : n.data = pre ++ 'p' :: d :: rest)
    (hd : isdigit d = true) (hlast : 'p' ∉ d :: rest) :
    get_disk_from_partition n = String.mk pre ∧
      part_num n = some (String.mk (d :: rest)) := by
  constructor
  · unfold get_disk_from_partition
    by_cases h1 : g_str_has_prefix n "nvme" = true
    · rw [controllerDisk_split n "nvme" pre d rest h1 hsplit hd hlast]
    · have h2 : g_str_has_prefix n "mmcblk" = true := by
        cases hpfx with
        | inl h => exact absurd h h1
        | inr h => exact h
      have h0 : controllerDisk n "nvme" = none := by simp [controllerDisk, h1]
      rw [h0, controllerDisk_split n "mmcblk" pre d rest h2 hsplit hd hlast]
  · have hp : ( g_str_has_prefix n "nvme" || g_str_has_prefix n "mmcblk") = true := by
      cases hpfx with
      | inl h => simp [h]
      | inr h => simp [h]
    simp [part_num, hp, hsplit, g_strrstr_append pre (d :: rest) 'p' hlast,
      byteAfter_append, hd]

/-- C4, witness: `nvme0n1p3` gives disk `nvme0n1` and index `3`. -/
theorem get_disk_from_partition_controller_witness :
    get_disk_from_partition "nvme0n1p3" = "nvme0n1" ∧ part_num "nvme0n1p3" = some "3" :=
  get_disk_from_partition_controller "nvme0n1p3" "nvme0n1".data '3' [] (by decide) (by decide)
    (by decide) (by decide)

/-- C4, counterexample: `nvme0n1p3p` starts with `nvme` and holds a `'p'`
immediately followed by the digit `3`, yet its last `'p'` is not followed by
a digit: the disk returned is `nvme`, not `nvme0n1`, and the partition index
is absent, not `3p`. -/
theorem controller_separator_counterexample :
    g_str_has_prefix "nvme0n1p3p" "nvme" = true ∧
    "nvme0n1p3p".data = "nvme0n1".data ++ 'p' :: '3' :: "p".data ∧
    isdigit '3' = true ∧
    get_disk_from_partition "nvme0n1p3p" = "nvme" ∧
    get_disk_from_partition "nvme0n1p3p" ≠ "nvme0n1" ∧
    part_num "nvme0n1p3p" = none := by
  decide

/-- C5: for a device name that starts with neither `nvme` nor `mmcblk`,
`get_disk_from_partition` returns the characters before the first decimal
digit and the partition index is the suffix that starts at that digit; a name
without a digit is returned unchanged and has no index. -/
theorem get_disk_from_partition_plain (n : String)
    (h1 : g_str_has_prefix n "nvme" = false) (h2 : g_str_has_prefix n "mmcblk" = false) :
    (∀ (pre : List Char) (d : Char) (rest : List Char),
        n.data = pre ++ d :: rest → (∀ c ∈ pre, isdigit c = false) → isdigit d = true →
        get_disk_from_partition n = String.mk pre ∧
          part_num n = some (String.mk (d :: rest))) ∧
    ((∀ c ∈ n.data, isdigit c = false) →
        get_disk_from_partition n = n ∧ part_num n = none) := by
  have c1 : controllerDisk n "nvme" = none := by simp [controllerDisk, h1]
  have c2 : controllerDisk n "mmcblk" = none := by simp [controllerDisk, h2]
  refine ⟨?_, ?_⟩
  · intro pre d rest hsplit hpre hd
    have hf := firstDigit_append pre d rest hpre hd
    simp [get_disk_from_partition, part_num, c1, c2, h1, h2, hsplit, hf]
  · intro hnone
    have hf := firstDigit_none n.data hnone
    simp [get_disk_from_partition, part_num, c1, c2, h1, h2, hf]

/-- C5, witness: `sdb1` gives `sdb` and `1`; `sdb` gives `sdb` and no index. -/
theorem get_disk_from_partition_plain_witness :
    (get_disk_from_partition "sdb1" = "sdb" ∧ part_num "sdb1" = some "1") ∧
    (get_disk_from_partition "sdb" = "sdb" ∧ part_num "sdb" = none) :=
  ⟨(get_disk_from_partition_plain "sdb1" (by decide) (by decide)).1 "sdb".data '1' []
      (by decide) (by decide) (by decide),
   (get_disk_from_partition_plain "sdb" (by decide) (by decide)).2 (by decide)⟩

/-! ## Resize: script order and derived values (C1, C2, C9) -/

theorem mem_of_mem_steps {x : ScriptLine} {lines : List ScriptLine} (h : x ∈ steps lines) :
    x ∈ lines := by
  unfold steps at h
  exact (List.mem_filter.mp h).1

set_option maxRecDepth 100000 in
/-- The closing call of the resize script has no defined behaviour, whatever
the disk, the partition number and the sector size: its format has seven
conversions for six arguments; the sixth conversion, `%s`, is given the
`long long sector_size`, and the seventh, `%lld`, nothing. -/
theorem resize_closing_undefined (disk_path part_num : String) (sector_size : Int) :
    resize_closing disk_path part_num sector_size = none :=
  rfl

/-- No request makes `on_resize_dialog_response` write a script: the handler
closes the dialog at once, or it comes to the closing call. -/
theorem resize_never_written (r : ResizeRequest) :
    on_resize_dialog_response r = .closed ∨
      ∃ lines, on_resize_dialog_response r = .undefined lines := by
  unfold on_resize_dialog_response
  by_cases h1 : r.size_str = ""
  · left; simp [h1]
  · cases hn : part_num r.partition_name with
    | none => left; simp [h1]
    | some n =>
      by_cases hpos : parse_target_mib r.size_str ≤ 0
      · left
        rw [if_neg h1]
        simp only []
        rw [if_pos hpos]
      · right
        rw [if_neg h1]
        simp only []
        rw [if_neg hpos]
        simp only [resize_closing_undefined]
        exact ⟨_, rfl⟩

/-- C1: `on_resize_dialog_response` writes no script at all.  For every
request the handler either closes the dialog at once or comes to its closing
call, which has no defined behaviour (seven conversions, six arguments, the
`long long sector_size` given to the sixth `%s`); this call stands in front of
the writing of the file.  Shown on the shrink of the ext4 partition `sdb1`
from sector 409599 to 100 MiB: the lines put together by then do hold the
steps in the order unmount, `e2fsck`, `resize2fs` to the size, `parted
resizepart`, and no script comes of them.  With the query of the sectors
failed (start and end read as 0) the same request is taken for a growth, and
the lines hold `parted resizepart` to sector 204799 with no shrink of the
filesystem in front of it. -/
theorem resize_script_never_written :
    (∀ (r : ResizeRequest) (lines : List ScriptLine) (closing : String),
      on_resize_dialog_response r ≠ .written lines closing) ∧
    resize_closing "/dev/sdb" "1" 512 = none ∧
    (on_resize_dialog_response ⟨"sdb1", "ext4", "100", 512, 2048, 409599, 1000000⟩).lines.map
        (fun lines => (steps lines).map ScriptLine.render)
      = some ["umount /dev/sdb1 2>/dev/null || true", "e2fsck -fy /dev/sdb1",
          "resize2fs /dev/sdb1 100M", "parted /dev/sdb resizepart 1 $\x7bnew_end\x7ds"] ∧
    (on_resize_dialog_response ⟨"sdb1", "ext4", "100", 512, 0, 0, 1000000⟩).lines.map
        (fun lines => (steps lines).map ScriptLine.render)
      = some ["umount /dev/sdb1 2>/dev/null || true",
          "parted --script /dev/sdb resizepart 1 204799s", "e2fsck -fy /dev/sdb1 || true",
          "resize2fs /dev/sdb1 || true"] := by
  refine ⟨?_, by decide!, by decide!, by decide!⟩
  intro r lines closing h
  rcases resize_never_written r with h2 | ⟨l, h2⟩
  · rw [h2] at h; exact absurd h (by simp)
  · rw [h2] at h; exact absurd h (by simp)

theorem resize_sector_size_pos (w : Int) : 0 < resize_sector_size w := by
  unfold resize_sector_size
  split <;> omega

/-- The round-up division of the source is the ceiling of the exact quotient. -/
theorem resize_target_sectors_ceil (target_mib s : Int) (ht : 0 < target_mib) (hs : 0 < s) :
    resize_target_sectors target_mib s = ⌈((target_mib : ℚ) * 2 ^ 20) / (s : ℚ)⌉ := by
  unfold resize_target_sectors
  have hnum : 0 ≤ target_mib * 1024 * 1024 + s - 1 := by nlinarith
  rw [Int.tdiv_eq_ediv hnum hs.le]
  symm
  rw [Int.ceil_eq_iff]
  have hsq : (0 : ℚ) < (s : ℚ) := by exact_mod_cast hs
  have h1 := Int.ediv_mul_le (target_mib * 1024 * 1024 + s - 1) (ne_of_gt hs)
  have h2 := Int.lt_ediv_add_one_mul_self (target_mib * 1024 * 1024 + s - 1) hs
  set k := (target_mib * 1024 * 1024 + s - 1) / s with hk
  constructor
  · rw [lt_div_iff₀ hsq]
    have : (k - 1) * s < target_mib * 2 ^ 20 := by nlinarith
    exact_mod_cast this
  · rw [div_le_iff₀ hsq]
    have : target_mib * 2 ^ 20 ≤ k * s := by nlinarith
    exact_mod_cast this

/-- C2 (as amended): for a target size above zero the workflow derives
`targetSectors = ceil(targetSizeMiB * 2^20 / sectorSize)`, with the sector size
of the dialog when it is positive and 512 otherwise;
`finalEndSector = min(start + targetSectors - 1, diskTotalSectors - 1)` when
the disk size is positive, and `start + targetSectors - 1` with no clamp when
it is not (the size query failed); `isShrink = finalEndSector < currentEndSector`. -/
theorem resize_derive_spec (target_mib widget_sector_size start_sector current_end_sector
    disk_sectors : Int) (ht : 0 < target_mib) :
    let d := resize_derive target_mib widget_sector_size start_sector current_end_sector
      disk_sectors
    let s := resize_sector_size widget_sector_size
    (0 < widget_sector_size → s = widget_sector_size) ∧
    (widget_sector_size ≤ 0 → s = 512) ∧
    d.target_sectors = ⌈((target_mib : ℚ) * 2 ^ 20) / (s : ℚ)⌉ ∧
    (0 < disk_sectors →
      d.final_end_sector = min (start_sector + d.target_sectors - 1) (disk_sectors - 1)) ∧
    (disk_sectors ≤ 0 → d.final_end_sector = start_sector + d.target_sectors - 1) ∧
    (d.shrinking = true ↔ d.final_end_sector < current_end_sector) := by
  intro d s
  have e1 : d.target_sectors = resize_target_sectors target_mib s := rfl
  have e2 : d.final_end_sector =
      resize_final_end_sector start_sector (resize_target_sectors target_mib s) disk_sectors :=
    rfl
  refine ⟨?_, ?_, ?_, ?_, ?_, ?_⟩
  · intro h; simp [s, resize_sector_size, h]
  · intro h
    have : ¬ widget_sector_size > 0 := by omega
    simp [s, resize_sector_size, this]
  · rw [e1]
    exact resize_target_sectors_ceil target_mib s ht (resize_sector_size_pos _)
  · intro hd
    rw [e2, e1]
    unfold resize_final_end_sector
    simp only [hd, true_and, gt_iff_lt, ge_iff_le]
    split
    · rename_i h; rw [min_eq_right]; omega
    · rename_i h; rw [min_eq_left]; omega
  · intro hd
    rw [e2, e1]
    unfold resize_final_end_sector
    have : ¬ disk_sectors > 0 := by omega
    simp [this]
  · simp [d, resize_derive]

/-- C2, witness: 100 MiB from sector 2048 with 512-byte sectors on a disk of
1000000 sectors, and the clamp to the last sector of the disk. -/
theorem resize_derive_spec_witness :
    (resize_derive 100 512 2048 409599 1000000).target_sectors = 204800 ∧
    (resize_derive 100 512 2048 409599 1000000).final_end_sector = 206847 ∧
    (resize_derive 100 512 2048 409599 1000000).shrinking = true ∧
    (resize_derive 100 512 999000 409599 1000000).final_end_sector = 999999 := by
  have h := resize_derive_spec 100 512 2048 409599 1000000 (by decide)
  have h2 := resize_derive_spec 100 512 999000 409599 1000000 (by decide)
  refine ⟨by decide, ?_, ?_, ?_⟩
  · rw [h.2.2.2.1 (by decide)]; decide
  · exact h.2.2.2.2.2.mpr (by decide)
  · rw [h2.2.2.2.1 (by decide)]; decide

/-- C2, counterexample: with a disk size of 0 (the size query failed) the
workflow keeps `start + targetSectors - 1 = 4095`, where the claimed
`min(start + targetSectors - 1, diskTotalSectors - 1)` is `-1`. -/
theorem resize_derive_unclamped_counterexample :
    (resize_derive 1 512 2048 8191 0).target_sectors = 2048 ∧
    (resize_derive 1 512 2048 8191 0).final_end_sector = 4095 ∧
    (resize_derive 1 512 2048 8191 0).final_end_sector ≠
      min (2048 + (resize_derive 1 512 2048 8191 0).target_sectors - 1) (0 - 1) := by
  decide

/-! ## Alignment (C10) -/

/-- C10: with alignment on, for a sector size `s` that divides 2^20 the start
sector is the least multiple of `sectorsPerMiB = 2^20 / s` that is at least
the requested start sector and at least `sectorsPerMiB`; it is never sector 0,
and for `s = 512` a requested start of 34 becomes 2048. -/
theorem align_start_sector_least (start_sector s : Int) (hs : 0 < s) (hdiv : s ∣ 1048576) :
    let spm := (1048576 : Int) / s
    let a := align_start_sector start_sector s
    spm ∣ a ∧ start_sector ≤ a ∧ spm ≤ a ∧
    (∀ m : Int, spm ∣ m → start_sector ≤ m → spm ≤ m → a ≤ m) ∧
    a ≠ 0 ∧ align_start_sector 34 512 = 2048 := by
  intro spm a
  have hspm_pos : 0 < spm := by
    obtain ⟨k, hk⟩ := hdiv
    have hk' : (1048576 : Int) / s = k := by
      rw [hk]; exact Int.mul_ediv_cancel_left k (ne_of_gt hs)
    have : 0 < k := by
      by_contra hneg
      have : k ≤ 0 := by omega
      nlinarith
    show 0 < (1048576 : Int) / s
    omega
  have htd : Int.tdiv 1048576 s = spm := Int.tdiv_eq_ediv (by decide) hs.le
  have ha : a = if start_sector < spm then spm
      else if Int.tmod start_sector spm ≠ 0 then (Int.tdiv start_sector spm + 1) * spm
      else start_sector := by
    show align_start_sector start_sector s = _
    unfold align_start_sector
    simp only [htd]
  by_cases h1 : start_sector < spm
  · have ha1 : a = spm := by rw [ha, if_pos h1]
    refine ⟨by rw [ha1], by omega, by omega, ?_, by omega, by decide⟩
    intro m _ _ hm
    omega
  · have hnn : 0 ≤ start_sector := by omega
    have hmod : Int.tmod start_sector spm = start_sector % spm :=
      Int.tmod_eq_emod hnn hspm_pos.le
    have hdv : Int.tdiv start_sector spm = start_sector / spm :=
      Int.tdiv_eq_ediv hnn hspm_pos.le
    have hdm := Int.ediv_add_emod start_sector spm
    have hm0 := Int.emod_nonneg start_sector (ne_of_gt hspm_pos)
    have hm1 := Int.emod_lt_of_pos start_sector hspm_pos
    by_cases h2 : start_sector % spm = 0
    · have ha2 : a = start_sector := by
        rw [ha, if_neg h1, hmod, if_neg (by simpa using h2)]
      refine ⟨?_, by omega, by omega, ?_, by omega, by decide⟩
      · rw [ha2]; exact Int.dvd_of_emod_eq_zero h2
      · intro m _ hm _
        omega
    · have ha3 : a = (start_sector / spm + 1) * spm := by
        rw [ha, if_neg h1, hmod, if_pos h2, hdv]
      have hge : start_sector < (start_sector / spm + 1) * spm :=
        Int.lt_ediv_add_one_mul_self start_sector hspm_pos
      refine ⟨?_, by omega, by omega, ?_, by omega, by decide⟩
      · rw [ha3]; exact Dvd.intro_left _ rfl
      · intro m hmdiv hm _
        obtain ⟨q, hq⟩ := hmdiv
        rw [ha3, hq]
        have hq1 : start_sector / spm < q := by
          by_contra hle
          have hle' : q ≤ start_sector / spm := by omega
          have : spm * q ≤ spm * (start_sector / spm) :=
            Int.mul_le_mul_of_nonneg_left hle' hspm_pos.le
          have hne : start_sector ≠ spm * q := by
            intro heq
            apply h2
            rw [heq]
            exact Int.mul_emod_right spm q
          omega
        have : spm * (start_sector / spm + 1) ≤ spm * q :=
          Int.mul_le_mul_of_nonneg_left (by omega) hspm_pos.le
        linarith

/-- C10, witness: sectors 34 and 4097 with 512-byte sectors. -/
theorem align_start_sector_least_witness :
    (2048 : Int) ∣ align_start_sector 34 512 ∧ align_start_sector 34 512 ≠ 0 ∧
    align_start_sector 4097 512 = 6144 :=
  ⟨(align_start_sector_least 34 512 (by decide) (by decide)).1,
   (align_start_sector_least 34 512 (by decide) (by decide)).2.2.2.2.1,
   by decide⟩

/-! ## Repair and creation commands (C6, C7, C8) -/

/-- C7: auto-detect repair proposes exactly `e2fsck -f -y -v <dev>` for ext2, ext3
and ext4, `dosfsck -a -v <dev>` for vfat and fat32, `ntfsfix <dev>` for ntfs,
`xfs_repair <dev>` for xfs, `btrfs check --repair <dev>` for btrfs and
`fsck.f2fs -f <dev>` for f2fs; every other filesystem string is reported as
unsupported and no command is run. -/
theorem auto_fsck_table (filesystem dev : String) :
    (filesystem = "ext2" ∨ filesystem = "ext3" ∨ filesystem = "ext4" →
      auto_fsck_dispatch filesystem dev true = some ("e2fsck -f -y -v " ++ dev)) ∧
    (filesystem = "vfat" ∨ filesystem = "fat32" →
      auto_fsck_dispatch filesystem dev true = some ("dosfsck -a -v " ++ dev)) ∧
    (filesystem = "ntfs" →
      auto_fsck_dispatch filesystem dev true = some ("ntfsfix " ++ dev)) ∧
    (filesystem = "xfs" →
      auto_fsck_dispatch filesystem dev true = some ("xfs_repair " ++ dev)) ∧
    (filesystem = "btrfs" →
      auto_fsck_dispatch filesystem dev true = some ("btrfs check --repair " ++ dev)) ∧
    (filesystem = "f2fs" →
      auto_fsck_dispatch filesystem dev true = some ("fsck.f2fs -f " ++ dev)) ∧
    (filesystem ∉ ["ext2", "ext3", "ext4", "vfat", "fat32", "ntfs", "xfs", "btrfs", "f2fs"] →
      auto_fsck_choice filesystem dev = .unsupported filesystem ∧
      ∀ confirmed, auto_fsck_dispatch filesystem dev confirmed = none) := by
  refine ⟨?_, ?_, ?_, ?_, ?_, ?_, ?_⟩
  · rintro (h | h | h) <;> subst h <;> simp [auto_fsck_dispatch, auto_fsck_choice]
  · rintro (h | h) <;> subst h <;> simp [auto_fsck_dispatch, auto_fsck_choice]
  · rintro rfl; simp [auto_fsck_dispatch, auto_fsck_choice]
  · rintro rfl; simp [auto_fsck_dispatch, auto_fsck_choice]
  · rintro rfl; simp [auto_fsck_dispatch, auto_fsck_choice]
  · rintro rfl; simp [auto_fsck_dispatch, auto_fsck_choice]
  · intro h
    simp only [List.mem_cons, List.mem_singleton, List.not_mem_nil, or_false, not_or] at h
    obtain ⟨h1, h2, h3, h4, h5, h6, h7, h8, h9⟩ := h
    have hc : auto_fsck_choice filesystem dev = .unsupported filesystem := by
      simp [auto_fsck_choice, h1, h2, h3, h4, h5, h6, h7, h8, h9]
    exact ⟨hc, fun confirmed => by simp [auto_fsck_dispatch, hc]⟩

/-- C7, witness: `ext4`, `vfat` and the unsupported `zfs`. -/
theorem auto_fsck_table_witness :
    auto_fsck_dispatch "ext4" "/dev/sdb1" true = some "e2fsck -f -y -v /dev/sdb1" ∧
    auto_fsck_dispatch "vfat" "/dev/sdb1" true = some "dosfsck -a -v /dev/sdb1" ∧
    auto_fsck_choice "zfs" "/dev/sdb1" = .unsupported "zfs" :=
  ⟨(auto_fsck_table "ext4" "/dev/sdb1").1 (Or.inr (Or.inr rfl)),
   (auto_fsck_table "vfat" "/dev/sdb1").2.1 (Or.inl rfl),
   ((auto_fsck_table "zfs" "/dev/sdb1").2.2.2.2.2.2 (by decide)).1⟩

/-- C6: the creation command of each family of the table, in both creation
dialogs (`on_mkfs_activate` formats `dev`, `on_create_fs_clicked` formats
`$NEW_PART`).  With a size selected the command carries that size behind the
family's unit flag (`-b` for ext4/ext3/ext2, `-c` for ntfs, `-s` for exfat and
fat32; ntfs quick carries `-Q`, ntfs full does not); with none selected the
size is 4096 for ext4 and ext3, 1024 for ext2, 8 for exfat, 1 for fat32, and
ntfs gets no `-c` flag. -/
theorem mkfs_command_table (dev sel : String) :
    (sel ≠ "default" →
      format_mkfs_cmd "ext4" (mkfs_cluster_val (fs_type_of "ext4") (some sel)) dev =
        some ("mkfs.ext4 -F -b " ++ toString (atoll sel) ++ " '" ++ dev ++ "'") ∧
      format_mkfs_cmd "ext3" (mkfs_cluster_val (fs_type_of "ext3") (some sel)) dev =
        some ("mkfs.ext3 -F -b " ++ toString (atoll sel) ++ " '" ++ dev ++ "'") ∧
      format_mkfs_cmd "ext2" (mkfs_cluster_val (fs_type_of "ext2") (some sel)) dev =
        some ("mkfs.ext2 -F -b " ++ toString (atoll sel) ++ " '" ++ dev ++ "'") ∧
      format_mkfs_cmd "exfat" (mkfs_cluster_val (fs_type_of "exfat") (some sel)) dev =
        some ("mkfs.exfat -s " ++ toString (atoll sel) ++ " '" ++ dev ++ "'") ∧
      format_mkfs_cmd "fat32" (mkfs_cluster_val (fs_type_of "fat32") (some sel)) dev =
        some ("mkfs.vfat -F 32 -s " ++ toString (atoll sel) ++ " '" ++ dev ++ "'") ∧
      (0 < atoll sel →
        format_mkfs_cmd "ntfs (quick format)"
            (mkfs_cluster_val (fs_type_of "ntfs (quick format)") (some sel)) dev =
          some ("mkfs.ntfs -f -c " ++ toString (atoll sel) ++ " -Q '" ++ dev ++ "'") ∧
        format_mkfs_cmd "ntfs (full zeroing)"
            (mkfs_cluster_val (fs_type_of "ntfs (full zeroing)") (some sel)) dev =
          some ("mkfs.ntfs -F -c " ++ toString (atoll sel) ++ " '" ++ dev ++ "'"))) ∧
    (format_mkfs_cmd "ext4" (mkfs_cluster_val (fs_type_of "ext4") none) dev =
        some ("mkfs.ext4 -F -b 4096 '" ++ dev ++ "'") ∧
      format_mkfs_cmd "ext3" (mkfs_cluster_val (fs_type_of "ext3") none) dev =
        some ("mkfs.ext3 -F -b 4096 '" ++ dev ++ "'") ∧
      format_mkfs_cmd "ext2" (mkfs_cluster_val (fs_type_of "ext2") none) dev =
        some ("mkfs.ext2 -F -b 1024 '" ++ dev ++ "'") ∧
      format_mkfs_cmd "exfat" (mkfs_cluster_val (fs_type_of "exfat") none) dev =
        some ("mkfs.exfat -s 8 '" ++ dev ++ "'") ∧
      format_mkfs_cmd "fat32" (mkfs_cluster_val (fs_type_of "fat32") none) dev =
        some ("mkfs.vfat -F 32 -s 1 '" ++ dev ++ "'") ∧
      format_mkfs_cmd "ntfs (quick format)"
          (mkfs_cluster_val (fs_type_of "ntfs (quick format)") none) dev =
        some ("mkfs.ntfs -f -Q '" ++ dev ++ "'") ∧
      format_mkfs_cmd "ntfs (full zeroing)"
          (mkfs_cluster_val (fs_type_of "ntfs (full zeroing)") none) dev =
        some ("mkfs.ntfs -F '" ++ dev ++ "'")) ∧
    (let c := atoll (String.mk (sel.data.takeWhile (fun ch => ch != ' ')))
     create_mkfs_cmd "ext4" (create_cluster_val (fs_type_of "ext4") (some sel)) =
       some ("sudo mkfs.ext4 -F -b " ++ toString c ++ " \"$NEW_PART\"") ∧
     create_mkfs_cmd "ext3" (create_cluster_val (fs_type_of "ext3") (some sel)) =
       some ("sudo mkfs.ext3 -F -b " ++ toString c ++ " \"$NEW_PART\"") ∧
     create_mkfs_cmd "ext2" (create_cluster_val (fs_type_of "ext2") (some sel)) =
       some ("sudo mkfs.ext2 -F -b " ++ toString c ++ " \"$NEW_PART\"") ∧
     create_mkfs_cmd "exfat" (create_cluster_val (fs_type_of "exfat") (some sel)) =
       some ("sudo mkfs.exfat -s " ++ toString c ++ " \"$NEW_PART\"") ∧
     create_mkfs_cmd "fat32" (create_cluster_val (fs_type_of "fat32") (some sel)) =
       some ("sudo mkfs.vfat -F 32 -s " ++ toString c ++ " \"$NEW_PART\"") ∧
     (0 < c →
       create_mkfs_cmd "ntfs (quick format)"
           (create_cluster_val (fs_type_of "ntfs (quick format)") (some sel)) =
         some ("sudo mkfs.ntfs -f -c " ++ toString c ++ " -Q \"$NEW_PART\"") ∧
       create_mkfs_cmd "ntfs (full zeroing)"
           (create_cluster_val (fs_type_of "ntfs (full zeroing)") (some sel)) =
         some ("sudo mkfs.ntfs -F -c " ++ toString c ++ " \"$NEW_PART\""))) ∧
    (create_mkfs_cmd "ext4" (create_cluster_val (fs_type_of "ext4") none) =
        some "sudo mkfs.ext4 -F -b 4096 \"$NEW_PART\"" ∧
      create_mkfs_cmd "ext3" (create_cluster_val (fs_type_of "ext3") none) =
        some "sudo mkfs.ext3 -F -b 4096 \"$NEW_PART\"" ∧
      create_mkfs_cmd "ext2" (create_cluster_val (fs_type_of "ext2") none) =
        some "sudo mkfs.ext2 -F -b 1024 \"$NEW_PART\"" ∧
      create_mkfs_cmd "exfat" (create_cluster_val (fs_type_of "exfat") none) =
        some "sudo mkfs.exfat -s 8 \"$NEW_PART\"" ∧
      create_mkfs_cmd "fat32" (create_cluster_val (fs_type_of "fat32") none) =
        some "sudo mkfs.vfat -F 32 -s 1 \"$NEW_PART\"" ∧
      create_mkfs_cmd "ntfs (quick format)"
          (create_cluster_val (fs_type_of "ntfs (quick format)") none) =
        some "sudo mkfs.ntfs -f -Q \"$NEW_PART\"" ∧
      create_mkfs_cmd "ntfs (full zeroing)"
          (create_cluster_val (fs_type_of "ntfs (full zeroing)") none) =
        some "sudo mkfs.ntfs -F \"$NEW_PART\"") := by
  refine ⟨?_, ?_, ?_, ?_⟩
  · intro hsel
    refine ⟨?_, ?_, ?_, ?_, ?_, ?_⟩ <;>
      first
        | (intro hpos
           simp [format_mkfs_cmd, mkfs_cluster_val, fs_type_of, hsel, hpos])
        | simp [format_mkfs_cmd, mkfs_cluster_val, fs_type_of, hsel]
  · refine ⟨?_, ?_, ?_, ?_, ?_, ?_, ?_⟩ <;>
      simp [format_mkfs_cmd, mkfs_cluster_val, fs_type_of, default_cluster_val] <;> rfl
  · intro c
    refine ⟨?_, ?_, ?_, ?_, ?_, ?_⟩ <;>
      first
        | (intro hpos
           simp [create_mkfs_cmd, create_cluster_val, fs_type_of, c, hpos])
        | simp [create_mkfs_cmd, create_cluster_val, fs_type_of, c]
  · decide

/-- C6, witness: ext4 with 2048, ntfs quick with 4096, ntfs full with the
selection `4096 (default)`. -/
theorem mkfs_command_table_witness :
    format_mkfs_cmd "ext4" (mkfs_cluster_val "ext4" (some "2048")) "/dev/sdb1" =
      some "mkfs.ext4 -F -b 2048 '/dev/sdb1'" ∧
    format_mkfs_cmd "ntfs (quick format)" (mkfs_cluster_val "ntfs" (some "4096")) "/dev/sdb1" =
      some "mkfs.ntfs -f -c 4096 -Q '/dev/sdb1'" ∧
    create_mkfs_cmd "ntfs (full zeroing)" (create_cluster_val "ntfs" (some "4096 (default)")) =
      some "sudo mkfs.ntfs -F -c 4096 \"$NEW_PART\"" :=
  ⟨((mkfs_command_table "/dev/sdb1" "2048").1 (by decide)).1,
   (((mkfs_command_table "/dev/sdb1" "4096").1 (by decide)).2.2.2.2.2 (by decide)).1,
   ((mkfs_command_table "/dev/sdb1" "4096 (default)").2.2.1.2.2.2.2.2 (by decide)).2⟩

theorem ne_empty_of_has_prefix (c p : String) (hp : p ≠ "")
    (h : g_str_has_prefix c p = true) : c ≠ "" := by
  intro hc
  subst hc
  apply hp
  unfold g_str_has_prefix at h
  have : p.data = [] := by
    cases hd : p.data with
    | nil => rfl
    | cons x xs => rw [hd] at h; simp [List.isPrefixOf] at h
  exact String.ext this

theorem format_mkfs_cmd_listed (fs_display : String) (c : Int) (dev : String)
    (h : fs_display ∈ listed_filesystems) :
    ∃ cmd, format_mkfs_cmd fs_display c dev = some cmd ∧ g_str_has_prefix cmd "mkfs." = true := by
  simp only [listed_filesystems, List.mem_cons, List.mem_singleton, List.not_mem_nil,
    or_false] at h
  rcases h with h | h | h | h | h | h | h <;> subst h <;>
    by_cases hc : c > 0 <;>
    simp [format_mkfs_cmd, fs_type_of, hc, g_str_has_prefix, String.data_append]

theorem create_mkfs_cmd_listed (fs_display : String) (c : Int)
    (h : fs_display ∈ listed_filesystems) :
    ∃ cmd, create_mkfs_cmd fs_display c = some cmd ∧
      g_str_has_prefix cmd "sudo mkfs." = true := by
  simp only [listed_filesystems, List.mem_cons, List.mem_singleton, List.not_mem_nil,
    or_false] at h
  rcases h with h | h | h | h | h | h | h <;> subst h <;>
    by_cases hc : c > 0 <;>
    simp [create_mkfs_cmd, fs_type_of, hc, g_str_has_prefix, String.data_append]

/-- C8 (as amended): for every filesystem entry of the creation table both
creation dialogs build a non-empty `mkfs` command, whatever size is selected;
for every name outside the table the `mkfs` command is absent (the NULL the
chain of comparisons leaves). -/
theorem create_synthesizer_complete (fs_display dev : String) (cluster_sel : Option String) :
    (fs_display ∈ listed_filesystems →
      (∃ cmd, format_mkfs_cmd fs_display
          (mkfs_cluster_val (fs_type_of fs_display) cluster_sel) dev = some cmd ∧ cmd ≠ "") ∧
      (∃ cmd, create_mkfs_cmd fs_display
          (create_cluster_val (fs_type_of fs_display) cluster_sel) = some cmd ∧ cmd ≠ "")) ∧
    (fs_display ∉ listed_filesystems →
      ∀ c : Int, format_mkfs_cmd fs_display c dev = none ∧ create_mkfs_cmd fs_display c = none) := by
  constructor
  · intro h
    obtain ⟨c1, h1, p1⟩ := format_mkfs_cmd_listed fs_display
      (mkfs_cluster_val (fs_type_of fs_display) cluster_sel) dev h
    obtain ⟨c2, h2, p2⟩ := create_mkfs_cmd_listed fs_display
      (create_cluster_val (fs_type_of fs_display) cluster_sel) h
    exact ⟨⟨c1, h1, ne_empty_of_has_prefix c1 "mkfs." (by decide) p1⟩,
      ⟨c2, h2, ne_empty_of_has_prefix c2 "sudo mkfs." (by decide) p2⟩⟩
  · intro h c
    simp only [listed_filesystems, List.mem_cons, List.mem_singleton, List.not_mem_nil,
      or_false, not_or] at h
    obtain ⟨h1, h2, h3, h4, h5, h6, h7⟩ := h
    simp [format_mkfs_cmd, create_mkfs_cmd, fs_type_of, h1, h2, h3, h4, h5, h6, h7]

/-- C8, witness: the listed `exfat` and the unlisted `xfs`. -/
theorem create_synthesizer_complete_witness :
    (∃ cmd, format_mkfs_cmd "exfat" (mkfs_cluster_val (fs_type_of "exfat") none) "/dev/sdb1"
        = some cmd ∧ cmd ≠ "") ∧
    format_mkfs_cmd "xfs" 0 "/dev/sdb1" = none ∧ create_mkfs_cmd "xfs" 0 = none :=
  ⟨((create_synthesizer_complete "exfat" "/dev/sdb1" none).1 (by decide)).1,
   (create_synthesizer_complete "xfs" "/dev/sdb1" none).2 (by decide) 0⟩

/-- C8, counterexample: for the unlisted name `xfs` no "unsupported" signal is
raised; both dialogs dispatch a command line, built around the missing `mkfs`
command. -/
theorem create_unlisted_counterexample :
    "xfs" ∉ listed_filesystems ∧
    on_mkfs_dispatch "sdb1" "xfs" none none true =
      some ("echo 'Formatting /dev/sdb1 as xfs...'; sudo (null); sudo udevadm settle && "
        ++ "(sudo partprobe '/dev/sdb1' || sudo blockdev --rereadpt '/dev/sdb1'); "
        ++ "echo 'Filesystem created and partition table re-read.'") ∧
    (on_create_fs_dispatch ⟨"/dev/sdb", 1, 1000, 500, true, "xfs", none, 512⟩ true).isSome
      = true := by
  decide!

/-! ## Unmount sequencing of the destructive workflows (C3) -/

theorem Extends.refl (calls h : List Call) (ok : Bool) (ctl : Ctl) :
    Extends calls h ⟨h, ok, ctl⟩ := ⟨[], by simp, by simp⟩

theorem Extends.trans {c1 c2 calls h : List Call} {r1 r2 : Outcome}
    (h1 : Extends c1 h r1) (h2 : Extends c2 r1.trace r2)
    (s1 : ∀ c ∈ c1, c ∈ calls) (s2 : ∀ c ∈ c2, c ∈ calls) : Extends calls h r2 := by
  obtain ⟨n1, e1, m1⟩ := h1
  obtain ⟨n2, e2, m2⟩ := h2
  refine ⟨n1 ++ n2, by rw [e2, e1, List.append_assoc], ?_⟩
  intro c hc
  rcases List.mem_append.mp hc with hc | hc
  · exact s1 c (m1 c hc)
  · exact s2 c (m2 c hc)

theorem Extends.mono {c1 calls h : List Call} {r : Outcome}
    (h1 : Extends c1 h r) (s1 : ∀ c ∈ c1, c ∈ calls) : Extends calls h r := by
  obtain ⟨n1, e1, m1⟩ := h1
  exact ⟨n1, e1, fun c hc => s1 c (m1 c hc)⟩

theorem runLoop_extends (calls : List Call) (body : List Call → Outcome)
    (hb : ∀ h, Extends calls h (body h)) (items : List String) (h : List Call) :
    Extends calls h (runLoop body items h) := by
  induction items generalizing h with
  | nil => exact Extends.refl _ _ _ _
  | cons i rest ih =>
    unfold runLoop
    simp only
    split
    · exact hb h
    · obtain ⟨n, e, m⟩ := hb h
      exact ⟨n, e, m⟩
    · split
      · exact hb h
      · rename_i j js
        exact Extends.trans (hb h) (ih (body h).trace) (fun _ hc => hc) (fun _ hc => hc)

theorem exec_extends (env : Env) (s : Sh) (h : List Call) :
    Extends s.calls h (s.exec env h) := by
  induction s generalizing h with
  | cmd tool text => exact ⟨[⟨tool, text⟩], rfl, by simp [Sh.calls]⟩
  | seq a b iha ihb =>
    unfold Sh.exec
    simp only
    have sa : ∀ c ∈ a.calls, c ∈ (Sh.seq a b).calls := fun c hc => by simp [Sh.calls, hc]
    have sb : ∀ c ∈ b.calls, c ∈ (Sh.seq a b).calls := fun c hc => by simp [Sh.calls, hc]
    split
    · exact Extends.trans (iha h) (ihb _) sa sb
    · exact Extends.mono (iha h) sa
  | and a b iha ihb =>
    unfold Sh.exec
    simp only
    have sa : ∀ c ∈ a.calls, c ∈ (Sh.and a b).calls := fun c hc => by simp [Sh.calls, hc]
    have sb : ∀ c ∈ b.calls, c ∈ (Sh.and a b).calls := fun c hc => by simp [Sh.calls, hc]
    split
    · split
      · exact Extends.trans (iha h) (ihb _) sa sb
      · exact Extends.mono (iha h) sa
    · exact Extends.mono (iha h) sa
  | or a b iha ihb =>
    unfold Sh.exec
    simp only
    have sa : ∀ c ∈ a.calls, c ∈ (Sh.or a b).calls := fun c hc => by simp [Sh.calls, hc]
    have sb : ∀ c ∈ b.calls, c ∈ (Sh.or a b).calls := fun c hc => by simp [Sh.calls, hc]
    split
    · split
      · exact Extends.mono (iha h) sa
      · exact Extends.trans (iha h) (ihb _) sa sb
    · exact Extends.mono (iha h) sa
  | paren a iha =>
    unfold Sh.exec
    obtain ⟨n, e, m⟩ := iha h
    exact ⟨n, e, m⟩
  | brace a iha =>
    unfold Sh.exec
    exact iha h
  | ifThen c t ihc iht =>
    unfold Sh.exec
    simp only
    have sc : ∀ x ∈ c.calls, x ∈ (Sh.ifThen c t).calls := fun x hx => by simp [Sh.calls, hx]
    have st : ∀ x ∈ t.calls, x ∈ (Sh.ifThen c t).calls := fun x hx => by simp [Sh.calls, hx]
    split
    · split
      · exact Extends.trans (ihc h) (iht _) sc st
      · obtain ⟨n, e, m⟩ := ihc h
        exact ⟨n, e, fun x hx => sc x (m x hx)⟩
    · exact Extends.mono (ihc h) sc
  | ifThenElse c t e ihc iht ihe =>
    unfold Sh.exec
    simp only
    have sc : ∀ x ∈ c.calls, x ∈ (Sh.ifThenElse c t e).calls :=
      fun x hx => by simp [Sh.calls, hx]
    have st : ∀ x ∈ t.calls, x ∈ (Sh.ifThenElse c t e).calls :=
      fun x hx => by simp [Sh.calls, hx]
    have se : ∀ x ∈ e.calls, x ∈ (Sh.ifThenElse c t e).calls :=
      fun x hx => by simp [Sh.calls, hx]
    split
    · split
      · exact Extends.trans (ihc h) (iht _) sc st
      · exact Extends.trans (ihc h) (ihe _) sc se
    · exact Extends.mono (ihc h) sc
  | forIn var items body ihb =>
    unfold Sh.exec
    exact runLoop_extends _ _ (fun h => ihb h) items h
  | brk => exact Extends.refl _ _ _ _
  | exit code => exact Extends.refl _ _ _ _

theorem acted_exec (env : Env) (s : Sh) (h : List Call)
    (hh : h.any (fun c => c.tool.destructive) = true) : (s.exec env h).acted = true := by
  obtain ⟨n, e, _⟩ := exec_extends env s h
  unfold Outcome.acted
  rw [e, List.any_append, hh]
  rfl

theorem umounts_exec (env : Env) (s : Sh) (h : List Call)
    (hs : ∀ c ∈ s.calls, (c.tool == Tool.umount) = false) :
    (s.exec env h).umounts = (h.filter (fun c => c.tool == .umount)).length := by
  obtain ⟨n, e, m⟩ := exec_extends env s h
  unfold Outcome.umounts
  rw [e, List.filter_append]
  have : n.filter (fun c => c.tool == .umount) = [] := by
    rw [List.filter_eq_nil_iff]
    intro c hc
    simp [hs c (m c hc)]
  rw [this]
  simp

theorem exec_seq_cmd (env : Env) (tool : Tool) (text : String) (b : Sh) (h : List Call) :
    (Sh.seq (.cmd tool text) b).exec env h = b.exec env (h ++ [⟨tool, text⟩]) := by
  simp [Sh.exec]

theorem exec_seq_or_cmd (env : Env) (t1 t2 : Tool) (x1 x2 : String) (b : Sh) (h : List Call) :
    (Sh.seq (.or (.cmd t1 x1) (.cmd t2 x2)) b).exec env h =
      if env h ⟨t1, x1⟩ = true then b.exec env (h ++ [⟨t1, x1⟩])
      else b.exec env (h ++ [⟨t1, x1⟩, ⟨t2, x2⟩]) := by
  cases e : env h ⟨t1, x1⟩ <;> simp [Sh.exec, e]

theorem acted_and_left (env : Env) (a b : Sh) (h : List Call)
    (ha : (a.exec env h).acted = true) : ((Sh.and a b).exec env h).acted = true := by
  unfold Sh.exec
  simp only
  split
  · split
    · exact acted_exec env b _ ha
    · exact ha
  · exact ha

theorem acted_or_left (env : Env) (a b : Sh) (h : List Call)
    (ha : (a.exec env h).acted = true) : ((Sh.or a b).exec env h).acted = true := by
  unfold Sh.exec
  simp only
  split
  · split
    · exact ha
    · exact acted_exec env b _ ha
  · exact ha

theorem format_script_acts (env : Env) (dev fs : String) (mkfs_cmd mp : Option String)
    (hm : has_mountpoint mp = true) :
    ((format_script dev fs mkfs_cmd mp).run env).acted = true ∧
    ((format_script dev fs mkfs_cmd mp).run env).umounts = 1 := by
  cases hr : requires_reread (fs_type_of fs) <;>
    simp only [format_script, format_tail, hm, hr, Sh.run, exec_seq_cmd, if_true,
      Bool.false_eq_true, if_false] <;>
    refine ⟨acted_exec _ _ _ (by simp [Tool.destructive]), ?_⟩ <;>
    rw [umounts_exec _ _ _ (by simp [Sh.calls])] <;> simp

theorem shred_script_acts (env : Env) (dev : String) (mp : Option String)
    (hm : has_mountpoint mp = true) :
    ((shred_script dev mp).run env).acted = true ∧
    ((shred_script dev mp).run env).umounts = 1 := by
  simp only [shred_script, shred_tail, hm, Sh.run, exec_seq_cmd, exec_seq_or_cmd, if_true]
  split
  · refine ⟨acted_and_left _ _ _ _ (acted_and_left _ _ _ _ ?_), ?_⟩
    · simp [Sh.exec, Outcome.acted, Tool.destructive]
    · rw [umounts_exec _ _ _ (by simp [Sh.calls])]; simp
  · refine ⟨acted_and_left _ _ _ _ (acted_and_left _ _ _ _ ?_), ?_⟩
    · simp [Sh.exec, Outcome.acted, Tool.destructive]
    · rw [umounts_exec _ _ _ (by simp [Sh.calls])]; simp

theorem delete_script_acts (env : Env) (dev name n disk : String) (mp : Option String)
    (hm : has_mountpoint mp = true) :
    ((delete_script dev name n disk mp).run env).acted = true ∧
    ((delete_script dev name n disk mp).run env).umounts = 1 := by
  have hite : ∀ h,
      ((Sh.ifThenElse
        (.cmd .tableQuery ("sudo parted -s " ++ disk
          ++ " print 2>/dev/null | grep -q 'Partition Table: gpt'"))
        (.cmd .partedRm ("  sudo parted -s " ++ disk ++ " rm " ++ n))
        (.cmd .fdiskDelete ("  echo -e 'd\\n" ++ n ++ "\\nw\\n' | sudo fdisk "
          ++ disk ++ " 2>&1 | grep -E 'altered|ioctl|Syncing'"))).exec env h).acted = true := by
    intro h
    simp only [Sh.exec]
    split <;> simp [Outcome.acted, Tool.destructive]
  simp only [delete_script, delete_tail, hm, Sh.run, exec_seq_cmd, exec_seq_or_cmd, if_true]
  split
  · refine ⟨acted_and_left _ _ _ _ (acted_and_left _ _ _ _ (acted_or_left _ _ _ _
      (acted_and_left _ _ _ _ (acted_and_left _ _ _ _ (hite _))))), ?_⟩
    rw [umounts_exec _ _ _ (by simp [Sh.calls])]; simp
  · refine ⟨acted_and_left _ _ _ _ (acted_and_left _ _ _ _ (acted_or_left _ _ _ _
      (acted_and_left _ _ _ _ (acted_and_left _ _ _ _ (hite _))))), ?_⟩
    rw [umounts_exec _ _ _ (by simp [Sh.calls])]; simp

theorem grub_uefi_aborts (env : Env) (dev mount_dir : String)
    (hm : ∀ h text, env h ⟨.mounted, text⟩ = true)
    (hu : ∀ h text, env h ⟨.umount, text⟩ = false) :
    ((grub_uefi_script dev mount_dir).run env).failed = true ∧
    ((grub_uefi_script dev mount_dir).run env).acted = false ∧
    ((grub_uefi_script dev mount_dir).run env).umounts = 2 ∧
    ((grub_uefi_script dev mount_dir).run env).trace.all (fun c => c.tool != .mount) = true := by
  simp [grub_uefi_script, grub_unmount_script, seqList, Sh.run, Sh.exec, runLoop, hm, hu,
    Outcome.failed, Outcome.acted, Outcome.umounts, Tool.destructive]

theorem grub_mbr_aborts (env : Env) (dev mount_dir : String) (disk : Option String)
    (hm : ∀ h text, env h ⟨.mounted, text⟩ = true)
    (hu : ∀ h text, env h ⟨.umount, text⟩ = false) :
    ((grub_mbr_script dev disk mount_dir).run env).failed = true ∧
    ((grub_mbr_script dev disk mount_dir).run env).acted = false ∧
    ((grub_mbr_script dev disk mount_dir).run env).umounts = 2 ∧
    ((grub_mbr_script dev disk mount_dir).run env).trace.all (fun c => c.tool != .mount) = true := by
  simp [grub_mbr_script, grub_unmount_script, seqList, Sh.run, Sh.exec, runLoop, hm, hu,
    Outcome.failed, Outcome.acted, Outcome.umounts, Tool.destructive]

/-! ### The command text and the command tree agree -/

set_option maxRecDepth 100000 in
theorem format_command_render (dev fs : String) (mkfs_cmd mp : Option String) :
    format_command dev fs mkfs_cmd mp = (format_script dev fs mkfs_cmd mp).render := by
  unfold format_command format_script format_tail
  cases has_mountpoint mp <;> cases requires_reread (fs_type_of fs) <;>
    simp only [Sh.render, if_true, if_false, Bool.false_eq_true] <;>
    apply String.ext <;> simp [String.data_append]

set_option maxRecDepth 100000 in
theorem delete_command_render (dev name n disk : String) (mp : Option String) :
    delete_command dev name n disk mp = (delete_script dev name n disk mp).render := by
  unfold delete_command delete_script delete_tail delete_tail_text
  cases has_mountpoint mp <;>
    simp only [Sh.render, if_true, if_false, Bool.false_eq_true] <;>
    apply String.ext <;> simp [String.data_append]

set_option maxRecDepth 100000 in
theorem shred_command_render (dev : String) (mp : Option String) :
    shred_command dev mp = (shred_script dev mp).render := by
  unfold shred_command shred_script shred_tail
  cases has_mountpoint mp <;>
    simp only [Sh.render, if_true, if_false, Bool.false_eq_true] <;>
    apply String.ext <;> simp [String.data_append]

/-- The UEFI command line and its tree spell the same commands (up to the
indentation blanks and the closing `;`), on `/dev/sdb1`. -/
theorem grub_uefi_command_render :
    squeeze (grub_uefi_command "/dev/sdb1" "/mnt/driveassistify_grub").data =
      squeeze ((grub_uefi_script "/dev/sdb1" "/mnt/driveassistify_grub").render ++ ";").data := by
  decide!

/-- The MBR command line and its tree spell the same commands, on
`/dev/nvme0n1p2`. -/
theorem grub_mbr_command_render :
    squeeze (grub_mbr_command "/dev/nvme0n1p2" (grub_mbr_disk_path "nvme0n1p2")
        "/mnt/driveassistify_grub").data =
      squeeze ((grub_mbr_script "/dev/nvme0n1p2" (grub_mbr_disk_path "nvme0n1p2")
        "/mnt/driveassistify_grub").render ++ ";").data := by
  decide!

/-! ### C3 -/

/-- C3 (as amended): when every unmount attempt fails and the device stays
listed as mounted, the two GRUB installers try the unmount twice and then end
with `exit 1` before the partition is mounted and before `grub-install` runs;
the format, partition-deletion and shred command lines try the unmount once,
ignore its failure and run the destructive program. -/
theorem unmount_failure_sequencing (env : Env) (dev name n disk mount_dir fs : String)
    (mkfs_cmd mountpoint disk_path : Option String)
    (hmp : has_mountpoint mountpoint = true)
    (hm : ∀ h text, env h ⟨.mounted, text⟩ = true)
    (hu : ∀ h text, env h ⟨.umount, text⟩ = false) :
    (((grub_uefi_script dev mount_dir).run env).failed = true ∧
      ((grub_uefi_script dev mount_dir).run env).acted = false ∧
      ((grub_uefi_script dev mount_dir).run env).umounts = 2 ∧
      ((grub_uefi_script dev mount_dir).run env).trace.all (fun c => c.tool != .mount) = true) ∧
    (((grub_mbr_script dev disk_path mount_dir).run env).failed = true ∧
      ((grub_mbr_script dev disk_path mount_dir).run env).acted = false ∧
      ((grub_mbr_script dev disk_path mount_dir).run env).umounts = 2 ∧
      ((grub_mbr_script dev disk_path mount_dir).run env).trace.all
        (fun c => c.tool != .mount) = true) ∧
    (((format_script dev fs mkfs_cmd mountpoint).run env).acted = true ∧
      ((format_script dev fs mkfs_cmd mountpoint).run env).umounts = 1) ∧
    (((delete_script dev name n disk mountpoint).run env).acted = true ∧
      ((delete_script dev name n disk mountpoint).run env).umounts = 1) ∧
    (((shred_script dev mountpoint).run env).acted = true ∧
      ((shred_script dev mountpoint).run env).umounts = 1) :=
  ⟨grub_uefi_aborts env dev mount_dir hm hu,
   grub_mbr_aborts env dev mount_dir disk_path hm hu,
   format_script_acts env dev fs mkfs_cmd mountpoint hmp,
   delete_script_acts env dev name n disk mountpoint hmp,
   shred_script_acts env dev mountpoint hmp⟩

/-- C3, witness: the world in which the device is mounted and every other
command, each unmount included, fails. -/
theorem unmount_failure_sequencing_witness :
    ((grub_uefi_script "/dev/sdb1" "/mnt/driveassistify_grub").run
        (fun _ c => c.tool == .mounted)).failed = true ∧
    ((format_script "/dev/sdb1" "ext4" (some "mkfs.ext4 -F -b 4096 '/dev/sdb1'")
        (some "/mnt/data")).run (fun _ c => c.tool == .mounted)).acted = true :=
  have h := unmount_failure_sequencing (fun _ c => c.tool == .mounted) "/dev/sdb1" "sdb1" "1"
    "/dev/sdb" "/mnt/driveassistify_grub" "ext4" (some "mkfs.ext4 -F -b 4096 '/dev/sdb1'")
    (some "/mnt/data") (some "/dev/sdb") (by decide) (fun _ _ => rfl) (fun _ _ => rfl)
  ⟨h.1.1, h.2.2.1.1⟩

/-- C3, counterexample: formatting the mounted `/dev/sdb1` in a world where every
unmount fails.  The one unmount attempt fails, `mkfs` is run all the same, and
the command line does not end in failure. -/
theorem format_unmount_counterexample :
    has_mountpoint (some "/mnt/data") = true ∧
    ((format_script "/dev/sdb1" "ext4" (format_mkfs_cmd "ext4" 4096 "/dev/sdb1")
        (some "/mnt/data")).run (fun _ c => c.tool != .umount)).trace.map (fun c => c.text) =
      ["echo 'Unmounting /dev/sdb1...'", "umount '/dev/sdb1' 2>/dev/null",
       "echo 'Formatting /dev/sdb1 as ext4...'", "sudo mkfs.ext4 -F -b 4096 '/dev/sdb1'",
       "sudo udevadm settle", "sudo partprobe '/dev/sdb1'",
       "echo 'Filesystem created and partition table re-read.'"] ∧
    ((format_script "/dev/sdb1" "ext4" (format_mkfs_cmd "ext4" 4096 "/dev/sdb1")
        (some "/mnt/data")).run (fun _ c => c.tool != .umount)).acted = true ∧
    ((format_script "/dev/sdb1" "ext4" (format_mkfs_cmd "ext4" 4096 "/dev/sdb1")
        (some "/mnt/data")).run (fun _ c => c.tool != .umount)).failed = false := by
  decide!

/-! ## The size-entry dialogs -/


/-- While `updating` is set every handler of the size dialog returns at once. -/
theorem create_emit_updating (n : Nat) (f : CreateEntry) (st : CreateDialog)
    (h : st.updating = true) : create_emit (n + 1) f st = some st := by
  unfold create_emit
  by_cases hb : st.blocked f > 0
  · simp [hb]
  · cases f <;>
      simp [hb, on_create_entry_bytes_changed, on_create_entry_mib_changed,
        on_entry_sectors_changed, on_entry_gib_changed, h]

/-- Writing back the text an entry holds changes nothing. -/
theorem create_setText_text (st : CreateDialog) (f : CreateEntry) :
    st.setText f (st.text f) = st := by
  cases f <;> rfl

/-- While `updating` is set, `gtk_entry_set_text` on the size dialog only
replaces the text. -/
theorem create_set_updating (n : Nat) (f : CreateEntry) (t : String) (st : CreateDialog)
    (h : st.updating = true) :
    gtk_entry_set_text CreateDialog.text CreateDialog.setText (create_emit (n + 1)) f t st
      = some (st.setText f t) := by
  unfold gtk_entry_set_text
  by_cases e : st.text f = t
  · rw [if_pos e, ← e, create_setText_text]
  · rw [if_neg e]
    apply create_emit_updating
    cases f <;> exact h

/-- The bytes handler of the size dialog on a non-empty text. -/
theorem create_bytes_run (n : Nat) (st : CreateDialog) (hu : st.updating = false)
    (hb : st.blocked_bytes = 0) (ht : st.entry_bytes ≠ "") (hs : st.sector_size ≠ 0) :
    create_emit (n + 2) .entry_bytes st = some
      { st with
        entry_mib := toString (Int.tdiv (atoll st.entry_bytes) (1024 * 1024))
        entry_gib := fmt2 (atoll st.entry_bytes) (1024 * 1024 * 1024)
        entry_sectors :=
          toString (Int.tdiv (atoll st.entry_bytes + st.sector_size - 1) st.sector_size) } := by
  unfold create_emit
  simp only [CreateDialog.blocked, hb, gt_iff_lt, lt_self_iff_false, if_false]
  unfold on_create_entry_bytes_changed
  simp only [hu, Bool.false_eq_true, if_false, ht, hs]
  rw [create_set_updating _ _ _ _ rfl]
  simp only [Option.bind]
  rw [create_set_updating _ _ _ _ rfl]
  simp only [Option.bind]
  rw [create_set_updating _ _ _ _ rfl]
  simp [CreateDialog.setText, CreateDialog.block, CreateDialog.unblock, hu, hb]

/-- The MiB handler of the size dialog on a non-empty text. -/
theorem create_mib_run (n : Nat) (st : CreateDialog) (hu : st.updating = false)
    (hb : st.blocked_mib = 0) (ht : st.entry_mib ≠ "") (hs : st.sector_size ≠ 0) :
    create_emit (n + 2) .entry_mib st = some
      { st with
        entry_bytes := toString ((if atoll st.entry_mib < 0 then 0 else atoll st.entry_mib)
          * 1024 * 1024)
        entry_gib := fmt2 (if atoll st.entry_mib < 0 then 0 else atoll st.entry_mib) 1024
        entry_sectors :=
          toString (Int.tdiv ((if atoll st.entry_mib < 0 then 0 else atoll st.entry_mib)
            * 1024 * 1024 + st.sector_size - 1) st.sector_size)
        label_free := create_label
          (if st.orig_free - (if atoll st.entry_mib < 0 then 0 else atoll st.entry_mib) < 0
            then 0
            else st.orig_free - (if atoll st.entry_mib < 0 then 0 else atoll st.entry_mib)) } := by
  unfold create_emit
  simp only [CreateDialog.blocked, hb, gt_iff_lt, lt_self_iff_false, if_false]
  unfold on_create_entry_mib_changed
  simp only [hu, Bool.false_eq_true, if_false, ht, hs]
  rw [create_set_updating _ _ _ _ rfl]
  simp only [Option.bind]
  rw [create_set_updating _ _ _ _ rfl]
  simp only [Option.bind]
  rw [create_set_updating _ _ _ _ rfl]
  simp [CreateDialog.setText, CreateDialog.block, CreateDialog.unblock, hu, hb]

/-- The sectors handler of the size dialog on a non-empty text. -/
theorem create_sectors_run (n : Nat) (st : CreateDialog) (hu : st.updating = false)
    (hb : st.blocked_sectors = 0) (ht : st.entry_sectors ≠ "") :
    create_emit (n + 2) .entry_sectors st = some
      { st with
        entry_bytes := toString (atoll st.entry_sectors * st.sector_size)
        entry_mib := toString (Int.tdiv (atoll st.entry_sectors * st.sector_size) (1024 * 1024))
        entry_gib := fmt2 (atoll st.entry_sectors * st.sector_size) (1024 * 1024 * 1024)
        label_free := create_label
          (if st.orig_free - Int.tdiv (atoll st.entry_sectors * st.sector_size) (1024 * 1024) < 0
            then 0
            else st.orig_free
              - Int.tdiv (atoll st.entry_sectors * st.sector_size) (1024 * 1024)) } := by
  unfold create_emit
  simp only [CreateDialog.blocked, hb, gt_iff_lt, lt_self_iff_false, if_false]
  unfold on_entry_sectors_changed
  simp only [hu, Bool.false_eq_true, if_false, ht]
  rw [create_set_updating _ _ _ _ rfl]
  simp only [Option.bind]
  rw [create_set_updating _ _ _ _ rfl]
  simp only [Option.bind]
  rw [create_set_updating _ _ _ _ rfl]
  simp [CreateDialog.setText, CreateDialog.block, CreateDialog.unblock, hu, hb]

/-- The handlers of the size dialog on an empty text. -/
theorem create_empty_run (n : Nat) (f : CreateEntry) (st : CreateDialog)
    (ht : st.text f = "") :
    create_emit (n + 1) f st = some st := by
  cases hu : st.updating
  · unfold create_emit
    by_cases hb : st.blocked f > 0
    · simp [hb]
    · cases f <;>
        (simp only [CreateDialog.text] at ht
         simp only [hb, if_false, on_create_entry_bytes_changed,
           on_create_entry_mib_changed, on_entry_sectors_changed, on_entry_gib_changed,
           hu, ht, Bool.false_eq_true, if_true]
         cases st
         simp_all)
  · exact create_emit_updating n f st hu

/-- Writing back the text an entry holds changes nothing. -/
theorem resize_setText_text (st : ResizeDialog) (f : ResizeEntry) :
    st.setText f (st.text f) = st := by
  cases f <;> rfl

/-- On an entry whose handler is blocked, `gtk_entry_set_text` only replaces
the text. -/
theorem resize_set_blocked (n : Nat) (f : ResizeEntry) (t : String) (st : ResizeDialog)
    (h : st.blocked f > 0) :
    gtk_entry_set_text ResizeDialog.text ResizeDialog.setText (resize_emit (n + 1)) f t st
      = some (st.setText f t) := by
  unfold gtk_entry_set_text
  by_cases e : st.text f = t
  · rw [if_pos e, ← e, resize_setText_text]
  · rw [if_neg e]
    unfold resize_emit
    have : (st.setText f t).blocked f > 0 := by cases f <;> exact h
    simp [this]

/-- While `is_updating` is set, `gtk_entry_set_text` on the MiB entry of the
resize dialog only replaces the text: the nested handler returns at once. -/
theorem resize_set_mib_updating (n : Nat) (t : String) (st : ResizeDialog)
    (h : st.is_updating = true) :
    gtk_entry_set_text ResizeDialog.text ResizeDialog.setText (resize_emit (n + 1))
      .entry_mib t st = some (st.setText .entry_mib t) := by
  unfold gtk_entry_set_text
  by_cases e : st.text .entry_mib = t
  · rw [if_pos e, ← e, resize_setText_text]
  · rw [if_neg e]
    unfold resize_emit
    by_cases hb : (st.setText .entry_mib t).blocked .entry_mib > 0
    · simp [hb]
    · simp only [hb, if_false, on_entry_mib_changed]
      have : (st.setText .entry_mib t).is_updating = true := h
      simp [this]

/-- The bytes handler of the resize dialog on a non-empty text. -/
theorem resize_bytes_run (n : Nat) (st : ResizeDialog)
    (hb : st.blocked_bytes = 0) (ht : st.entry_bytes ≠ "") (hs : st.sector_size ≠ 0) :
    resize_emit (n + 2) .entry_bytes st = some
      { st with
        entry_mib := toString (Int.tdiv (atoll st.entry_bytes) (1024 * 1024))
        entry_gib := toString (Int.tdiv (atoll st.entry_bytes) (1024 * 1024 * 1024))
        entry_sectors :=
          toString (Int.tdiv (atoll st.entry_bytes + st.sector_size - 1) st.sector_size) } := by
  unfold resize_emit
  simp only [ResizeDialog.blocked, hb, gt_iff_lt, lt_self_iff_false, if_false]
  unfold on_entry_bytes_changed
  simp only [if_false, ht, hs]
  rw [resize_set_blocked _ _ _ _ (by simp [ResizeDialog.blocked, ResizeDialog.block])]
  simp only [Option.bind]
  rw [resize_set_blocked _ _ _ _
    (by simp [ResizeDialog.blocked, ResizeDialog.block, ResizeDialog.setText])]
  simp only [Option.bind]
  rw [resize_set_blocked _ _ _ _
    (by simp [ResizeDialog.blocked, ResizeDialog.block, ResizeDialog.setText])]
  simp [ResizeDialog.setText, ResizeDialog.block, ResizeDialog.unblock, hb]

/-- The size in MiB the MiB handlers compute with: negative input counts as 0. -/
theorem resize_mib_run (n : Nat) (st : ResizeDialog) (hu : st.is_updating = false)
    (hb : st.blocked_mib = 0) (ht : st.entry_mib ≠ "") (hs : st.sector_size ≠ 0) :
    resize_emit (n + 2) .entry_mib st = some
      { st with
        entry_bytes := toString ((if atoll st.entry_mib < 0 then 0 else atoll st.entry_mib)
          * 1024 * 1024)
        entry_mib := toString (if atoll st.entry_mib < 0 then 0 else atoll st.entry_mib)
        entry_gib := fmt2 (if atoll st.entry_mib < 0 then 0 else atoll st.entry_mib) 1024
        entry_sectors :=
          toString (Int.tdiv ((if atoll st.entry_mib < 0 then 0 else atoll st.entry_mib)
            * 1024 * 1024 + st.sector_size - 1) st.sector_size)
        entry_end :=
          if st.entry_start ≠ "" ∧ atoll st.entry_start ≥ 0 ∧
              Int.tdiv ((if atoll st.entry_mib < 0 then 0 else atoll st.entry_mib)
                * 1024 * 1024 + st.sector_size - 1) st.sector_size > 0 then
            toString (atoll st.entry_start
              + Int.tdiv ((if atoll st.entry_mib < 0 then 0 else atoll st.entry_mib)
                * 1024 * 1024 + st.sector_size - 1) st.sector_size - 1)
          else st.entry_end
        label_free := "Free space after resize: " ++ toString
          (if st.orig_size + st.orig_free
              - (if atoll st.entry_mib < 0 then 0 else atoll st.entry_mib) < 0 then 0
            else st.orig_size + st.orig_free
              - (if atoll st.entry_mib < 0 then 0 else atoll st.entry_mib)) ++ " MiB" } := by
  unfold resize_emit
  simp only [ResizeDialog.blocked, hb, gt_iff_lt, lt_self_iff_false, if_false]
  unfold on_entry_mib_changed
  simp only [hu, Bool.false_eq_true, if_false, ht, hs]
  rw [resize_set_blocked _ _ _ _ (by simp [ResizeDialog.blocked, ResizeDialog.block])]
  simp only [Option.bind]
  rw [resize_set_mib_updating _ _ _
    (by simp [ResizeDialog.block, ResizeDialog.setText])]
  simp only [Option.bind]
  rw [resize_set_blocked _ _ _ _
    (by simp [ResizeDialog.blocked, ResizeDialog.block, ResizeDialog.setText])]
  simp only [Option.bind]
  rw [resize_set_blocked _ _ _ _
    (by simp [ResizeDialog.blocked, ResizeDialog.block, ResizeDialog.setText])]
  simp only [Option.bind]
  simp only [ResizeDialog.setText, ResizeDialog.block]
  by_cases hc : st.entry_start ≠ "" ∧ atoll st.entry_start ≥ 0 ∧
      Int.tdiv ((if atoll st.entry_mib < 0 then 0 else atoll st.entry_mib)
        * 1024 * 1024 + st.sector_size - 1) st.sector_size > 0
  · rw [if_pos hc, if_pos hc]
    rw [resize_set_blocked _ _ _ _ (by simp [ResizeDialog.blocked])]
    simp [ResizeDialog.setText, ResizeDialog.unblock, hu, hb]
  · rw [if_neg hc, if_neg hc]
    simp [ResizeDialog.unblock, hu, hb]


/-- A blocked handler of the size dialog does not run. -/
theorem create_emit_blocked (n : Nat) (f : CreateEntry) (st : CreateDialog)
    (h : st.blocked f > 0) : create_emit (n + 1) f st = some st := by
  unfold create_emit
  simp [h]

/-- A blocked handler of the resize dialog does not run. -/
theorem resize_emit_blocked (n : Nat) (f : ResizeEntry) (st : ResizeDialog)
    (h : st.blocked f > 0) : resize_emit (n + 1) f st = some st := by
  unfold resize_emit
  simp [h]

/-- While `is_updating` is set the MiB handler of the resize dialog returns at
once. -/
theorem resize_emit_mib_updating (n : Nat) (st : ResizeDialog) (h : st.is_updating = true) :
    resize_emit (n + 1) .entry_mib st = some st := by
  unfold resize_emit
  by_cases hb : st.blocked .entry_mib > 0
  · simp [hb]
  · simp [hb, on_entry_mib_changed, h]

/-- The bytes and MiB handlers of the resize dialog on an empty text. -/
theorem resize_empty_run (n : Nat) (f : ResizeEntry) (st : ResizeDialog)
    (hf : f = .entry_bytes ∨ f = .entry_mib) (ht : st.text f = "") :
    resize_emit (n + 1) f st = some st := by
  by_cases hb : st.blocked f > 0
  · exact resize_emit_blocked n f st hb
  · rcases hf with rfl | rfl
    · unfold resize_emit
      simp only [ResizeDialog.text] at ht
      simp [hb, on_entry_bytes_changed, ht]
    · cases hu : st.is_updating
      · unfold resize_emit
        simp only [ResizeDialog.text] at ht
        simp only [hb, if_false, on_entry_mib_changed, hu, ht, Bool.false_eq_true, if_true]
        cases st
        simp_all
      · exact resize_emit_mib_updating n st hu

/-- The MiB handler of the size dialog with no sector size. -/
theorem create_mib_no_sector_size (n : Nat) (st : CreateDialog) (hu : st.updating = false)
    (hb : st.blocked_mib = 0) (ht : st.entry_mib ≠ "") (hs : st.sector_size = 0) :
    create_emit (n + 1) .entry_mib st = none := by
  unfold create_emit
  simp [CreateDialog.blocked, hb, on_create_entry_mib_changed, hu, ht, hs]

/-- The MiB handler of the resize dialog with no sector size. -/
theorem resize_mib_no_sector_size (n : Nat) (st : ResizeDialog) (hu : st.is_updating = false)
    (hb : st.blocked_mib = 0) (ht : st.entry_mib ≠ "") (hs : st.sector_size = 0) :
    resize_emit (n + 1) .entry_mib st = none := by
  unfold resize_emit
  simp [ResizeDialog.blocked, hb, on_entry_mib_changed, hu, ht, hs]

/-- Running the MiB handler of the size dialog on its own result changes
nothing. -/
theorem create_mib_rerun (n : Nat) (st st1 : CreateDialog)
    (h : create_emit (n + 2) .entry_mib st = some st1) :
    create_emit (n + 2) .entry_mib (st1.setText .entry_mib st.entry_mib) = some st1 := by
  by_cases hb : st.blocked .entry_mib > 0
  · rw [create_emit_blocked _ _ _ hb] at h
    injection h with h
    subst h
    rw [show st.entry_mib = st.text .entry_mib from rfl, create_setText_text]
    exact create_emit_blocked _ _ _ hb
  · cases hu : st.updating
    · by_cases ht : st.entry_mib = ""
      · have ht1 : st.text .entry_mib = "" := ht
        rw [create_empty_run _ _ _ ht1] at h
        injection h with h
        subst h
        rw [show st.entry_mib = st.text .entry_mib from rfl, create_setText_text]
        exact create_empty_run _ _ _ ht1
      · have hb0 : st.blocked_mib = 0 := by
          simp only [CreateDialog.blocked] at hb; omega
        by_cases hs : st.sector_size = 0
        · rw [create_mib_no_sector_size _ _ hu hb0 ht hs] at h
          exact absurd h (by simp)
        · rw [create_mib_run n st hu hb0 ht hs] at h
          injection h with h
          have e := create_mib_run n (st1.setText .entry_mib st.entry_mib)
            (by rw [← h]; exact hu) (by rw [← h]; exact hb0) (by rw [← h]; exact ht)
            (by rw [← h]; exact hs)
          rw [e, ← h]
          simp [CreateDialog.setText]
    · rw [create_emit_updating _ _ _ hu] at h
      injection h with h
      subst h
      rw [show st.entry_mib = st.text .entry_mib from rfl, create_setText_text]
      exact create_emit_updating _ _ _ hu

/-- Running the MiB handler of the resize dialog again, with the text that was
entered put back, changes nothing. -/
theorem resize_mib_rerun (n : Nat) (st st1 : ResizeDialog)
    (h : resize_emit (n + 2) .entry_mib st = some st1) :
    resize_emit (n + 2) .entry_mib (st1.setText .entry_mib st.entry_mib) = some st1 := by
  by_cases hb : st.blocked .entry_mib > 0
  · rw [resize_emit_blocked _ _ _ hb] at h
    injection h with h
    subst h
    rw [show st.entry_mib = st.text .entry_mib from rfl, resize_setText_text]
    exact resize_emit_blocked _ _ _ hb
  · cases hu : st.is_updating
    · by_cases ht : st.entry_mib = ""
      · have ht1 : st.text .entry_mib = "" := ht
        rw [resize_empty_run _ _ _ (Or.inr rfl) ht1] at h
        injection h with h
        subst h
        rw [show st.entry_mib = st.text .entry_mib from rfl, resize_setText_text]
        exact resize_empty_run _ _ _ (Or.inr rfl) ht1
      · have hb0 : st.blocked_mib = 0 := by
          simp only [ResizeDialog.blocked] at hb; omega
        by_cases hs : st.sector_size = 0
        · rw [resize_mib_no_sector_size _ _ hu hb0 ht hs] at h
          exact absurd h (by simp)
        · rw [resize_mib_run n st hu hb0 ht hs] at h
          injection h with h
          have e := resize_mib_run n (st1.setText .entry_mib st.entry_mib)
            (by rw [← h]; exact hu) (by rw [← h]; exact hb0) (by rw [← h]; exact ht)
            (by rw [← h]; exact hs)
          rw [e, ← h]
          by_cases hc : st.entry_start ≠ "" ∧ atoll st.entry_start ≥ 0 ∧
              Int.tdiv ((if atoll st.entry_mib < 0 then 0 else atoll st.entry_mib)
                * 1024 * 1024 + st.sector_size - 1) st.sector_size > 0
          · simp only [ResizeDialog.setText, if_pos hc]
          · simp only [ResizeDialog.setText, if_neg hc]
    · rw [resize_emit_mib_updating _ _ hu] at h
      injection h with h
      subst h
      rw [show st.entry_mib = st.text .entry_mib from rfl, resize_setText_text]
      exact resize_emit_mib_updating _ _ hu

/-- The round-up division of the handlers is the ceiling of the exact
quotient. -/
theorem tdiv_round_up_ceil (b s : Int) (hb : 0 ≤ b) (hs : 0 < s) :
    Int.tdiv (b + s - 1) s = ⌈(b : ℚ) / (s : ℚ)⌉ := by
  have hnum : 0 ≤ b + s - 1 := by omega
  rw [Int.tdiv_eq_ediv hnum hs.le]
  symm
  rw [Int.ceil_eq_iff]
  have hsq : (0 : ℚ) < (s : ℚ) := by exact_mod_cast hs
  have h1 := Int.ediv_mul_le (b + s - 1) (ne_of_gt hs)
  have h2 := Int.lt_ediv_add_one_mul_self (b + s - 1) hs
  set k := (b + s - 1) / s with hk
  constructor
  · rw [lt_div_iff₀ hsq]
    have : (k - 1) * s < b := by nlinarith
    exact_mod_cast this
  · rw [div_le_iff₀ hsq]
    have : b ≤ k * s := by nlinarith
    exact_mod_cast this

/-- C11 (as amended): for every positive number of bytes `b` (the value
`atoll` reads from the text put in the bytes entry) and every positive sector
size `s` with `b + s` within `long long` (at most `2^63 - 1`, so that the sum
`bytes + sector_size - 1` of the handlers does not overflow), an edit of the
bytes entry of a dialog at rest gives a state whose sectors entry shows
`ceil (b / s)` and whose MiB entry shows `b div 2^20`, in the size dialog of
partition creation and in the resize dialog. -/
theorem set_bytes_round_trip (fuel : Nat) (t : String) (b s : Int)
    (cst : CreateDialog) (rst : ResizeDialog)
    (hb : 0 < b) (hs : 0 < s) (hr : b + s ≤ 9223372036854775807) (ht : atoll t = b)
    (hc : cst.idle) (hcs : cst.sector_size = s)
    (hr2 : rst.idle) (hrs : rst.sector_size = s) :
    (∃ st, create_edit (fuel + 2) .entry_bytes t cst = some st ∧
      st.entry_bytes = t ∧
      st.entry_sectors = toString ⌈(b : ℚ) / (s : ℚ)⌉ ∧
      st.entry_mib = toString (b / 2 ^ 20)) ∧
    (∃ st, resize_edit (fuel + 2) .entry_bytes t rst = some st ∧
      st.entry_bytes = t ∧
      st.entry_sectors = toString ⌈(b : ℚ) / (s : ℚ)⌉ ∧
      st.entry_mib = toString (b / 2 ^ 20)) := by
  have hne : t ≠ "" := by
    intro h
    rw [h] at ht
    have : atoll "" = 0 := by decide
    omega
  -- the sums the handlers form, `bytes + sector_size` and one less, are within `long long`
  have _hsum : 0 < b + s ∧ b + s ≤ 9223372036854775807 ∧ 0 ≤ b + s - 1 := by omega
  have hm : Int.tdiv b (1024 * 1024) = b / 2 ^ 20 := by
    rw [Int.tdiv_eq_ediv hb.le (by norm_num)]
    norm_num
  have hsec : Int.tdiv (b + s - 1) s = ⌈(b : ℚ) / (s : ℚ)⌉ :=
    tdiv_round_up_ceil b s hb.le hs
  constructor
  · obtain ⟨hu, hbb, -⟩ := hc
    refine ⟨_, create_bytes_run fuel (cst.setText .entry_bytes t) hu hbb hne
      (by show cst.sector_size ≠ 0; omega), rfl, ?_, ?_⟩
    · show toString (Int.tdiv (atoll t + cst.sector_size - 1) cst.sector_size) = _
      rw [ht, hcs, hsec]
    · show toString (Int.tdiv (atoll t) (1024 * 1024)) = _
      rw [ht, hm]
  · obtain ⟨-, hbb, -⟩ := hr2
    refine ⟨_, resize_bytes_run fuel (rst.setText .entry_bytes t) hbb hne
      (by show rst.sector_size ≠ 0; omega), rfl, ?_, ?_⟩
    · show toString (Int.tdiv (atoll t + rst.sector_size - 1) rst.sector_size) = _
      rw [ht, hrs, hsec]
    · show toString (Int.tdiv (atoll t) (1024 * 1024)) = _
      rw [ht, hm]

/-- C11, witness: 1048577 bytes with 512-byte sectors show as 2049 sectors and
1 MiB in both dialogs. -/
theorem set_bytes_round_trip_witness :
    (∃ st, create_edit 2 .entry_bytes "1048577"
        { entry_bytes := "", entry_mib := "", entry_gib := "", entry_sectors := "",
          label_free := "", orig_free := 1000, sector_size := 512, updating := false,
          blocked_bytes := 0, blocked_mib := 0, blocked_gib := 0, blocked_sectors := 0 }
        = some st ∧ st.entry_sectors = "2049" ∧ st.entry_mib = "1") ∧
    (∃ st, resize_edit 2 .entry_bytes "1048577"
        { entry_bytes := "104857600", entry_mib := "100", entry_gib := "0.10",
          entry_sectors := "204800", entry_start := "2048", entry_end := "206847",
          label_free := "Free space: 50 MiB", orig_free := 50, orig_size := 100,
          sector_size := 512, is_updating := false, blocked_bytes := 0, blocked_mib := 0,
          blocked_gib := 0, blocked_sectors := 0, blocked_start := 0, blocked_end := 0 }
        = some st ∧ st.entry_sectors = "2049" ∧ st.entry_mib = "1") := by
  have h := set_bytes_round_trip 0 "1048577" 1048577 512
    { entry_bytes := "", entry_mib := "", entry_gib := "", entry_sectors := "",
      label_free := "", orig_free := 1000, sector_size := 512, updating := false,
      blocked_bytes := 0, blocked_mib := 0, blocked_gib := 0, blocked_sectors := 0 }
    { entry_bytes := "104857600", entry_mib := "100", entry_gib := "0.10",
      entry_sectors := "204800", entry_start := "2048", entry_end := "206847",
      label_free := "Free space: 50 MiB", orig_free := 50, orig_size := 100,
      sector_size := 512, is_updating := false, blocked_bytes := 0, blocked_mib := 0,
      blocked_gib := 0, blocked_sectors := 0, blocked_start := 0, blocked_end := 0 }
    (by decide) (by decide) (by decide) (by decide) (by decide) rfl (by decide) rfl
  have hceil : ⌈((1048577 : Int) : ℚ) / ((512 : Int) : ℚ)⌉ = 2049 := by
    rw [Int.ceil_eq_iff]
    constructor <;> norm_num
  rw [hceil] at h
  obtain ⟨⟨st, h1, -, h2, h3⟩, ⟨st2, h4, -, h5, h6⟩⟩ := h
  exact ⟨⟨st, h1, by rw [h2]; decide, by rw [h3]; decide⟩,
    ⟨st2, h4, by rw [h5]; decide, by rw [h6]; decide⟩⟩

/-- C11 as stated fails beyond the range of `long long`: the text
`9223372036854775808` (`b = 2^63`) in the bytes entry is read by `atoll` as
`2^63 - 1`, and the MiB entry of either dialog shows 8796093022207, where
`b div 2^20` is 8796093022208. -/
theorem set_bytes_beyond_range_counterexample :
    atoll "9223372036854775808" = 9223372036854775807 ∧
    Option.map CreateDialog.entry_mib (create_edit 2 .entry_bytes "9223372036854775808"
        { entry_bytes := "", entry_mib := "", entry_gib := "", entry_sectors := "",
          label_free := "", orig_free := 1000, sector_size := 512, updating := false,
          blocked_bytes := 0, blocked_mib := 0, blocked_gib := 0, blocked_sectors := 0 })
      = some "8796093022207" ∧
    Option.map ResizeDialog.entry_mib (resize_edit 2 .entry_bytes "9223372036854775808"
        { entry_bytes := "104857600", entry_mib := "100", entry_gib := "0.10",
          entry_sectors := "204800", entry_start := "2048", entry_end := "206847",
          label_free := "Free space: 50 MiB", orig_free := 50, orig_size := 100,
          sector_size := 512, is_updating := false, blocked_bytes := 0, blocked_mib := 0,
          blocked_gib := 0, blocked_sectors := 0, blocked_start := 0, blocked_end := 0 })
      = some "8796093022207" ∧
    toString ((9223372036854775808 : Int) / 2 ^ 20) = "8796093022208" := by
  decide

/-- The end-sector handler of the resize dialog: it writes the MiB entry, or
nothing. -/
theorem resize_end_run (n : Nat) (st : ResizeDialog) (hu : st.is_updating = false)
    (hb : st.blocked_end = 0) :
    resize_emit (n + 2) .entry_end st = some
      (if atoi st.entry_end > atoi st.entry_start ∧ st.sector_size > 0 then
        { st with
          entry_mib := toString (Int.tdiv
            (wrap32 (wrap32 (wrap32 (atoi st.entry_end - atoi st.entry_start) + 1)
              * st.sector_size)) (1024 * 1024)) }
      else st) := by
  unfold resize_emit
  simp only [ResizeDialog.blocked, hb, gt_iff_lt, lt_self_iff_false, if_false]
  unfold on_entry_end_changed
  simp only [hu, Bool.false_eq_true, if_false]
  by_cases hc : atoi st.entry_start < atoi st.entry_end ∧ 0 < st.sector_size
  · rw [if_pos hc, if_pos hc, resize_set_mib_updating _ _ _ rfl]
    simp [ResizeDialog.setText, hu, hb]
  · rw [if_neg hc, if_neg hc]
    cases st
    simp_all

/-- C12: the resize dialog with 512-byte sectors shows a partition of 100 MiB
from sector 2048 to sector 206847, all entries consistent.  An edit of the
end sector to 6143 (4096 sectors, 2 MiB) writes "2" to the MiB entry and
nothing else: the bytes entry keeps 104857600 where 2 MiB are 2097152 bytes,
the sectors entry keeps 204800 where 4096 is due, and the GiB entry and the
free-space label keep their texts as well. -/
theorem end_edit_stale_fields :
    resize_edit 2 .entry_end "6143"
      { entry_bytes := "104857600", entry_mib := "100", entry_gib := "0.10",
        entry_sectors := "204800", entry_start := "2048", entry_end := "206847",
        label_free := "Free space after resize: 50 MiB", orig_free := 50, orig_size := 100,
        sector_size := 512, is_updating := false, blocked_bytes := 0, blocked_mib := 0,
        blocked_gib := 0, blocked_sectors := 0, blocked_start := 0, blocked_end := 0 }
    = some
      { entry_bytes := "104857600", entry_mib := "2", entry_gib := "0.10",
        entry_sectors := "204800", entry_start := "2048", entry_end := "6143",
        label_free := "Free space after resize: 50 MiB", orig_free := 50, orig_size := 100,
        sector_size := 512, is_updating := false, blocked_bytes := 0, blocked_mib := 0,
        blocked_gib := 0, blocked_sectors := 0, blocked_start := 0, blocked_end := 0 } := by
  decide

/-- The MiB entry after an edit of the end sector is what the MiB handler, run
on that same text, would have turned into other bytes and sectors: run
directly, the MiB handler does bring the entries in line. -/
theorem mib_edit_after_end_edit :
    resize_edit 2 .entry_mib "2"
      { entry_bytes := "104857600", entry_mib := "100", entry_gib := "0.10",
        entry_sectors := "204800", entry_start := "2048", entry_end := "206847",
        label_free := "Free space after resize: 50 MiB", orig_free := 50, orig_size := 100,
        sector_size := 512, is_updating := false, blocked_bytes := 0, blocked_mib := 0,
        blocked_gib := 0, blocked_sectors := 0, blocked_start := 0, blocked_end := 0 }
    = some
      { entry_bytes := "2097152", entry_mib := "2", entry_gib := "0.00",
        entry_sectors := "4096", entry_start := "2048", entry_end := "6143",
        label_free := "Free space after resize: 148 MiB", orig_free := 50, orig_size := 100,
        sector_size := 512, is_updating := false, blocked_bytes := 0, blocked_mib := 0,
        blocked_gib := 0, blocked_sectors := 0, blocked_start := 0, blocked_end := 0 } := by
  decide

/-- C13: the end sector after an edit of the start sector and after an edit of
the MiB entry, for the same start and size.  With 512-byte sectors, size 4096
MiB and start 2048 the start handler computes `4096 * 1024 * 1024` in `int`,
finds no sectors and clears the end entry, where the MiB handler writes
8390655.  With no overflow, 520-byte sectors, size 1 MiB and start 2048: the
start handler rounds the sectors down and writes 4063, the MiB handler rounds
up and writes 4064. -/
theorem start_edit_end_differs :
    Option.map ResizeDialog.entry_end (resize_edit 2 .entry_start "2048"
      { entry_bytes := "4294967296", entry_mib := "4096", entry_gib := "4.00",
        entry_sectors := "8388608", entry_start := "0", entry_end := "8388607",
        label_free := "", orig_free := 0, orig_size := 4096,
        sector_size := 512, is_updating := false, blocked_bytes := 0, blocked_mib := 0,
        blocked_gib := 0, blocked_sectors := 0, blocked_start := 0, blocked_end := 0 })
      = some "" ∧
    Option.map ResizeDialog.entry_end (resize_edit 2 .entry_mib "4096"
      { entry_bytes := "104857600", entry_mib := "100", entry_gib := "0.10",
        entry_sectors := "204800", entry_start := "2048", entry_end := "206847",
        label_free := "", orig_free := 0, orig_size := 4096,
        sector_size := 512, is_updating := false, blocked_bytes := 0, blocked_mib := 0,
        blocked_gib := 0, blocked_sectors := 0, blocked_start := 0, blocked_end := 0 })
      = some "8390655" ∧
    Option.map ResizeDialog.entry_end (resize_edit 2 .entry_start "2048"
      { entry_bytes := "1048576", entry_mib := "1", entry_gib := "0.00",
        entry_sectors := "2017", entry_start := "0", entry_end := "2016",
        label_free := "", orig_free := 0, orig_size := 1,
        sector_size := 520, is_updating := false, blocked_bytes := 0, blocked_mib := 0,
        blocked_gib := 0, blocked_sectors := 0, blocked_start := 0, blocked_end := 0 })
      = some "4063" ∧
    Option.map ResizeDialog.entry_end (resize_edit 2 .entry_mib "1"
      { entry_bytes := "2097152", entry_mib := "2", entry_gib := "0.00",
        entry_sectors := "4033", entry_start := "2048", entry_end := "6080",
        label_free := "", orig_free := 0, orig_size := 1,
        sector_size := 520, is_updating := false, blocked_bytes := 0, blocked_mib := 0,
        blocked_gib := 0, blocked_sectors := 0, blocked_start := 0, blocked_end := 0 })
      = some "4064" := by
  decide

/-- While `is_updating` is set, `gtk_entry_set_text` on the end-sector entry
of the resize dialog only replaces the text: the nested handler returns at
once. -/
theorem resize_set_end_updating (n : Nat) (t : String) (st : ResizeDialog)
    (h : st.is_updating = true) :
    gtk_entry_set_text ResizeDialog.text ResizeDialog.setText (resize_emit (n + 1))
      .entry_end t st = some (st.setText .entry_end t) := by
  unfold gtk_entry_set_text
  by_cases e : st.text .entry_end = t
  · rw [if_pos e, ← e, resize_setText_text]
  · rw [if_neg e]
    unfold resize_emit
    by_cases hb : (st.setText .entry_end t).blocked .entry_end > 0
    · simp [hb]
    · simp only [hb, if_false, on_entry_end_changed]
      have : (st.setText .entry_end t).is_updating = true := h
      simp [this]

/-- The start-sector handler of the resize dialog: it writes the end-sector
entry, the end sector computed in `int` or the empty text. -/
theorem resize_start_run (n : Nat) (st : ResizeDialog) (hu : st.is_updating = false)
    (hb : st.blocked_start = 0) :
    resize_emit (n + 2) .entry_start st = some
      { st with
        entry_end :=
          if atoi st.entry_mib > 0 ∧ st.sector_size > 0 then
            if atoi st.entry_start ≥ 0 ∧
                Int.tdiv (wrap32 (wrap32 (atoi st.entry_mib * 1024) * 1024)) st.sector_size > 0 ∧
                wrap32 (wrap32 (atoi st.entry_start
                  + Int.tdiv (wrap32 (wrap32 (atoi st.entry_mib * 1024) * 1024))
                      st.sector_size) - 1) ≥ atoi st.entry_start then
              toString (wrap32 (wrap32 (atoi st.entry_start
                + Int.tdiv (wrap32 (wrap32 (atoi st.entry_mib * 1024) * 1024))
                    st.sector_size) - 1))
            else ""
          else "" } := by
  unfold resize_emit
  simp only [ResizeDialog.blocked, hb, gt_iff_lt, lt_self_iff_false, if_false]
  unfold on_entry_start_changed
  simp only [hu, Bool.false_eq_true, if_false]
  by_cases hc : 0 < atoi st.entry_mib ∧ 0 < st.sector_size
  · rw [if_pos hc, if_pos hc]
    by_cases hd : atoi st.entry_start ≥ 0 ∧
        0 < Int.tdiv (wrap32 (wrap32 (atoi st.entry_mib * 1024) * 1024)) st.sector_size ∧
        wrap32 (wrap32 (atoi st.entry_start
          + Int.tdiv (wrap32 (wrap32 (atoi st.entry_mib * 1024) * 1024))
              st.sector_size) - 1) ≥ atoi st.entry_start
    · rw [if_pos hd, if_pos hd, resize_set_end_updating _ _ _ rfl]
      simp [ResizeDialog.setText, hu, hb]
    · rw [if_neg hd, if_neg hd, resize_set_end_updating _ _ _ rfl]
      simp [ResizeDialog.setText, hu, hb]
  · rw [if_neg hc, if_neg hc, resize_set_end_updating _ _ _ rfl]
    simp [ResizeDialog.setText, hu, hb]

/-- A value within the range of `int` is kept by `int` arithmetic. -/
theorem wrap32_of_range (x : Int) (h1 : -2147483648 ≤ x) (h2 : x < 2147483648) :
    wrap32 x = x := by
  unfold wrap32
  omega

/-- C `atoi` reads what `atoll` reads where that fits in an `int`. -/
theorem atoi_of_range (s : String) (h1 : -2147483648 ≤ atoll s) (h2 : atoll s < 2147483648) :
    atoi s = atoll s := by
  unfold atoi strtol
  rw [min_eq_right (by omega), max_eq_right (by omega)]
  exact wrap32_of_range _ h1 h2

/-- Where the start and MiB handlers of the resize dialog agree: for a start
sector `S >= 0` and a size of `M > 0` MiB in the entries, with a sector size
that divides the size in bytes, and with the size in bytes and the sum of
start and sectors within the range of `int`, both handlers write the end sector
`S + M * 2^20 / sectorSize - 1`. -/
theorem start_edit_end_agrees (fuel : Nat) (st : ResizeDialog) (S M : Int)
    (hi : st.idle) (hss : 0 < st.sector_size) (hdiv : st.sector_size ∣ M * 1048576)
    (hM : 0 < M) (hMr : M * 1048576 < 2147483648) (hS : 0 ≤ S)
    (hE : S + M * 1048576 / st.sector_size < 2147483648)
    (hne : st.entry_start ≠ "") (hnm : st.entry_mib ≠ "")
    (hs : atoll st.entry_start = S) (hm : atoll st.entry_mib = M) :
    Option.map ResizeDialog.entry_end (resize_emit (fuel + 2) .entry_start st)
      = some (toString (S + M * 1048576 / st.sector_size - 1)) ∧
    Option.map ResizeDialog.entry_end (resize_emit (fuel + 2) .entry_mib st)
      = some (toString (S + M * 1048576 / st.sector_size - 1)) := by
  obtain ⟨hu, -, hbm, -, -, hbs, -⟩ := hi
  obtain ⟨k, hk⟩ := hdiv
  have hq : M * 1048576 / st.sector_size = k := by
    rw [hk]
    exact Int.mul_ediv_cancel_left k (by omega)
  have hkpos : 0 < k := by
    by_contra hneg
    have : st.sector_size * k ≤ 0 := Int.mul_nonpos_of_nonneg_of_nonpos (by omega) (by omega)
    omega
  have ha1 : atoi st.entry_start = S := by
    rw [atoi_of_range _ (by omega) (by rw [hs]; nlinarith), hs]
  have ha2 : atoi st.entry_mib = M := by
    rw [atoi_of_range _ (by omega) (by omega), hm]
  have hw1 : wrap32 (wrap32 (M * 1024) * 1024) = M * 1048576 := by
    rw [wrap32_of_range (M * 1024) (by omega) (by omega)]
    rw [wrap32_of_range _ (by omega) (by omega)]
    ring
  have ht : Int.tdiv (M * 1048576) st.sector_size = k := by
    rw [Int.tdiv_eq_ediv (by omega) hss.le, hq]
  have hw2 : wrap32 (wrap32 (S + k) - 1) = S + k - 1 := by
    rw [hq] at hE
    unfold wrap32
    omega
  constructor
  · rw [resize_start_run fuel st hu hbs]
    simp only [Option.map, ha1, ha2, hw1, ht, hw2, hq]
    rw [if_pos ⟨hM, hss⟩, if_pos ⟨by omega, hkpos, by omega⟩]
  · rw [resize_mib_run fuel st hu hbm hnm (by omega)]
    have hc : Int.tdiv ((if atoll st.entry_mib < 0 then 0 else atoll st.entry_mib) * 1024 * 1024
        + st.sector_size - 1) st.sector_size = k := by
      rw [hm, if_neg (by omega)]
      rw [Int.tdiv_eq_ediv (by nlinarith) hss.le]
      have : M * 1024 * 1024 + st.sector_size - 1 = st.sector_size * k + (st.sector_size - 1) := by
        rw [← hk]; ring
      rw [this, Int.add_comm, Int.add_mul_ediv_left _ _ (by omega : st.sector_size ≠ 0)]
      rw [Int.ediv_eq_zero_of_lt (by omega) (by omega)]
      simp
    simp only [Option.map, hc, hs, hq]
    rw [if_pos ⟨hne, by omega, hkpos⟩]

/-- The agreement of the two handlers, on 100 MiB from sector 2048 with
512-byte sectors: both write 206847. -/
theorem start_edit_end_agrees_witness :
    Option.map ResizeDialog.entry_end (resize_emit 2 .entry_start
      { entry_bytes := "104857600", entry_mib := "100", entry_gib := "0.10",
        entry_sectors := "204800", entry_start := "2048", entry_end := "",
        label_free := "", orig_free := 50, orig_size := 100,
        sector_size := 512, is_updating := false, blocked_bytes := 0, blocked_mib := 0,
        blocked_gib := 0, blocked_sectors := 0, blocked_start := 0, blocked_end := 0 })
      = some "206847" := by
  have h := (start_edit_end_agrees 0
      { entry_bytes := "104857600", entry_mib := "100", entry_gib := "0.10",
        entry_sectors := "204800", entry_start := "2048", entry_end := "",
        label_free := "", orig_free := 50, orig_size := 100,
        sector_size := 512, is_updating := false, blocked_bytes := 0, blocked_mib := 0,
        blocked_gib := 0, blocked_sectors := 0, blocked_start := 0, blocked_end := 0 }
      2048 100 (by decide) (by decide) (by decide) (by decide) (by decide) (by decide)
      (by decide) (by decide) (by decide) (by decide) (by decide)).1
  rw [h]
  decide

/-- C14: setting the MiB field to `x` twice in a row gives the same dialog
state (every entry and the free-space label) as setting it once, for every
text `x` and every prior state, in the size dialog and in the resize dialog;
and with a sector size other than zero the edit does give a state. -/
theorem set_mib_idempotent (fuel : Nat) (x : String) (cst : CreateDialog)
    (rst : ResizeDialog) :
    (create_edit (fuel + 2) .entry_mib x cst).bind (create_edit (fuel + 2) .entry_mib x)
      = create_edit (fuel + 2) .entry_mib x cst ∧
    (resize_edit (fuel + 2) .entry_mib x rst).bind (resize_edit (fuel + 2) .entry_mib x)
      = resize_edit (fuel + 2) .entry_mib x rst ∧
    (cst.sector_size ≠ 0 → (create_edit (fuel + 2) .entry_mib x cst).isSome = true) ∧
    (rst.sector_size ≠ 0 → (resize_edit (fuel + 2) .entry_mib x rst).isSome = true) := by
  refine ⟨?_, ?_, ?_, ?_⟩
  · unfold create_edit
    cases h : create_emit (fuel + 2) .entry_mib (cst.setText .entry_mib x) with
    | none => rfl
    | some st1 =>
      have := create_mib_rerun fuel _ st1 h
      simpa [CreateDialog.setText] using this
  · unfold resize_edit
    cases h : resize_emit (fuel + 2) .entry_mib (rst.setText .entry_mib x) with
    | none => rfl
    | some st1 =>
      have := resize_mib_rerun fuel _ st1 h
      simpa [ResizeDialog.setText] using this
  · intro hs
    unfold create_edit
    by_cases hb : (cst.setText .entry_mib x).blocked .entry_mib > 0
    · rw [create_emit_blocked _ _ _ hb]; rfl
    · cases hu : (cst.setText .entry_mib x).updating
      · by_cases ht : (cst.setText .entry_mib x).entry_mib = ""
        · rw [create_empty_run _ _ _ (show CreateDialog.text _ .entry_mib = "" from ht)]
          rfl
        · have hb0 : (cst.setText .entry_mib x).blocked_mib = 0 := by
            simp only [CreateDialog.blocked] at hb; omega
          rw [create_mib_run fuel _ hu hb0 ht hs]; rfl
      · rw [create_emit_updating _ _ _ hu]; rfl
  · intro hs
    unfold resize_edit
    by_cases hb : (rst.setText .entry_mib x).blocked .entry_mib > 0
    · rw [resize_emit_blocked _ _ _ hb]; rfl
    · cases hu : (rst.setText .entry_mib x).is_updating
      · by_cases ht : (rst.setText .entry_mib x).entry_mib = ""
        · rw [resize_empty_run _ _ _ (Or.inr rfl)
            (show ResizeDialog.text _ .entry_mib = "" from ht)]
          rfl
        · have hb0 : (rst.setText .entry_mib x).blocked_mib = 0 := by
            simp only [ResizeDialog.blocked] at hb; omega
          rw [resize_mib_run fuel _ hu hb0 ht hs]; rfl
      · rw [resize_emit_mib_updating _ _ hu]; rfl

/-- C14, witness: "250" entered twice in the MiB entry of either dialog. -/
theorem set_mib_idempotent_witness :
    (create_edit 2 .entry_mib "250"
      { entry_bytes := "", entry_mib := "", entry_gib := "", entry_sectors := "",
        label_free := "", orig_free := 1000, sector_size := 512, updating := false,
        blocked_bytes := 0, blocked_mib := 0, blocked_gib := 0, blocked_sectors := 0 }).isSome
      = true ∧
    (resize_edit 2 .entry_mib "250"
      { entry_bytes := "104857600", entry_mib := "100", entry_gib := "0.10",
        entry_sectors := "204800", entry_start := "2048", entry_end := "206847",
        label_free := "Free space: 50 MiB", orig_free := 50, orig_size := 100,
        sector_size := 512, is_updating := false, blocked_bytes := 0, blocked_mib := 0,
        blocked_gib := 0, blocked_sectors := 0, blocked_start := 0, blocked_end := 0 }).bind
        (resize_edit 2 .entry_mib "250")
      = resize_edit 2 .entry_mib "250"
      { entry_bytes := "104857600", entry_mib := "100", entry_gib := "0.10",
        entry_sectors := "204800", entry_start := "2048", entry_end := "206847",
        label_free := "Free space: 50 MiB", orig_free := 50, orig_size := 100,
        sector_size := 512, is_updating := false, blocked_bytes := 0, blocked_mib := 0,
        blocked_gib := 0, blocked_sectors := 0, blocked_start := 0, blocked_end := 0 } := by
  have h := set_mib_idempotent 0 "250"
    { entry_bytes := "", entry_mib := "", entry_gib := "", entry_sectors := "",
      label_free := "", orig_free := 1000, sector_size := 512, updating := false,
      blocked_bytes := 0, blocked_mib := 0, blocked_gib := 0, blocked_sectors := 0 }
    { entry_bytes := "104857600", entry_mib := "100", entry_gib := "0.10",
      entry_sectors := "204800", entry_start := "2048", entry_end := "206847",
      label_free := "Free space: 50 MiB", orig_free := 50, orig_size := 100,
      sector_size := 512, is_updating := false, blocked_bytes := 0, blocked_mib := 0,
      blocked_gib := 0, blocked_sectors := 0, blocked_start := 0, blocked_end := 0 }
  exact ⟨h.2.2.1 (by decide), h.2.1⟩

/-- C15: the bytes and sectors handlers write negative numbers.  In the size
dialog with 512-byte sectors, "-5000000" in the bytes entry shows -4 MiB,
-0.00 GiB and -9764 sectors, and "-3" in the sectors entry shows -1536 bytes
and -0.00 GiB; in the resize dialog "-5000000" in the bytes entry shows -4 MiB
and -9764 sectors.  The MiB handlers do count a negative input as 0. -/
theorem negative_fields_shown :
    create_edit 2 .entry_bytes "-5000000"
      { entry_bytes := "1048576000", entry_mib := "1000", entry_gib := "0.98",
        entry_sectors := "2048000",
        label_free := "Free space after creation: 0 MiB (0.00 GiB)", orig_free := 1000,
        sector_size := 512, updating := false,
        blocked_bytes := 0, blocked_mib := 0, blocked_gib := 0, blocked_sectors := 0 }
    = some
      { entry_bytes := "-5000000", entry_mib := "-4", entry_gib := "-0.00",
        entry_sectors := "-9764",
        label_free := "Free space after creation: 0 MiB (0.00 GiB)", orig_free := 1000,
        sector_size := 512, updating := false,
        blocked_bytes := 0, blocked_mib := 0, blocked_gib := 0, blocked_sectors := 0 } ∧
    create_edit 2 .entry_sectors "-3"
      { entry_bytes := "1048576000", entry_mib := "1000", entry_gib := "0.98",
        entry_sectors := "2048000",
        label_free := "Free space after creation: 0 MiB (0.00 GiB)", orig_free := 1000,
        sector_size := 512, updating := false,
        blocked_bytes := 0, blocked_mib := 0, blocked_gib := 0, blocked_sectors := 0 }
    = some
      { entry_bytes := "-1536", entry_mib := "0", entry_gib := "-0.00",
        entry_sectors := "-3",
        label_free := "Free space after creation: 1000 MiB (0.98 GiB)", orig_free := 1000,
        sector_size := 512, updating := false,
        blocked_bytes := 0, blocked_mib := 0, blocked_gib := 0, blocked_sectors := 0 } ∧
    resize_edit 2 .entry_bytes "-5000000"
      { entry_bytes := "104857600", entry_mib := "100", entry_gib := "0.10",
        entry_sectors := "204800", entry_start := "2048", entry_end := "206847",
        label_free := "Free space after resize: 50 MiB", orig_free := 50, orig_size := 100,
        sector_size := 512, is_updating := false, blocked_bytes := 0, blocked_mib := 0,
        blocked_gib := 0, blocked_sectors := 0, blocked_start := 0, blocked_end := 0 }
    = some
      { entry_bytes := "-5000000", entry_mib := "-4", entry_gib := "0",
        entry_sectors := "-9764", entry_start := "2048", entry_end := "206847",
        label_free := "Free space after resize: 50 MiB", orig_free := 50, orig_size := 100,
        sector_size := 512, is_updating := false, blocked_bytes := 0, blocked_mib := 0,
        blocked_gib := 0, blocked_sectors := 0, blocked_start := 0, blocked_end := 0 } ∧
    create_edit 2 .entry_mib "-7"
      { entry_bytes := "1048576000", entry_mib := "1000", entry_gib := "0.98",
        entry_sectors := "2048000",
        label_free := "Free space after creation: 0 MiB (0.00 GiB)", orig_free := 1000,
        sector_size := 512, updating := false,
        blocked_bytes := 0, blocked_mib := 0, blocked_gib := 0, blocked_sectors := 0 }
    = some
      { entry_bytes := "0", entry_mib := "-7", entry_gib := "0.00",
        entry_sectors := "0",
        label_free := "Free space after creation: 1000 MiB (0.98 GiB)", orig_free := 1000,
        sector_size := 512, updating := false,
        blocked_bytes := 0, blocked_mib := 0, blocked_gib := 0, blocked_sectors := 0 } := by
  decide

/-- C16 as stated fails: in the size dialog showing 1000 MiB, the text "abc"
in the bytes entry is read as 0 and the MiB, GiB and sectors entries are
rewritten to 0, 0.00 and 0. -/
theorem non_numeric_recomputes_counterexample :
    create_edit 2 .entry_bytes "abc"
      { entry_bytes := "1048576000", entry_mib := "1000", entry_gib := "0.98",
        entry_sectors := "2048000",
        label_free := "Free space after creation: 0 MiB (0.00 GiB)", orig_free := 1000,
        sector_size := 512, updating := false,
        blocked_bytes := 0, blocked_mib := 0, blocked_gib := 0, blocked_sectors := 0 }
    = some
      { entry_bytes := "abc", entry_mib := "0", entry_gib := "0.00",
        entry_sectors := "0",
        label_free := "Free space after creation: 0 MiB (0.00 GiB)", orig_free := 1000,
        sector_size := 512, updating := false,
        blocked_bytes := 0, blocked_mib := 0, blocked_gib := 0, blocked_sectors := 0 } := by
  decide

/-- C16 (as amended): an empty text in the bytes, MiB, GiB or sectors entry of
the size dialog, or in the bytes or MiB entry of the resize dialog, leaves
every other entry and the label as they were.  A text `t` that is not empty
and that `atoll` reads as 0 (such as "abc") makes the handler of a dialog at
rest with a positive sector size recompute from 0: the other size entries
show 0 (0.00 for the GiB entry written with two decimals), the MiB and
sectors handlers write the free-space label for a size of 0, and the MiB
handler of the resize dialog also rewrites its own entry to "0" and leaves
the end sector alone. -/
theorem empty_text_no_recompute (fuel : Nat) (t : String) (cst : CreateDialog)
    (rst : ResizeDialog) (ht : t ≠ "") (h0 : atoll t = 0)
    (hc : cst.idle) (hcs : 0 < cst.sector_size)
    (hr : rst.idle) (hrs : 0 < rst.sector_size) :
    (∀ f, create_edit (fuel + 1) f "" cst = some (cst.setText f "")) ∧
    resize_edit (fuel + 1) .entry_bytes "" rst = some (rst.setText .entry_bytes "") ∧
    resize_edit (fuel + 1) .entry_mib "" rst = some (rst.setText .entry_mib "") ∧
    create_edit (fuel + 2) .entry_bytes t cst = some
      { cst with entry_bytes := t, entry_mib := "0", entry_gib := "0.00",
                 entry_sectors := "0" } ∧
    create_edit (fuel + 2) .entry_mib t cst = some
      { cst with entry_mib := t, entry_bytes := "0", entry_gib := "0.00",
                 entry_sectors := "0",
                 label_free := create_label (if cst.orig_free < 0 then 0 else cst.orig_free) } ∧
    create_edit (fuel + 2) .entry_sectors t cst = some
      { cst with entry_sectors := t, entry_bytes := "0", entry_mib := "0",
                 entry_gib := "0.00",
                 label_free := create_label (if cst.orig_free < 0 then 0 else cst.orig_free) } ∧
    resize_edit (fuel + 2) .entry_bytes t rst = some
      { rst with entry_bytes := t, entry_mib := "0", entry_gib := "0",
                 entry_sectors := "0" } ∧
    resize_edit (fuel + 2) .entry_mib t rst = some
      { rst with entry_mib := "0", entry_bytes := "0", entry_gib := "0.00",
                 entry_sectors := "0",
                 label_free := "Free space after resize: " ++ toString
                   (if rst.orig_size + rst.orig_free < 0 then 0
                    else rst.orig_size + rst.orig_free) ++ " MiB" } := by
  obtain ⟨hcu, hcb, hcm, -, hcsec⟩ := hc
  obtain ⟨hru, hrb, hrm, -⟩ := hr
  have hz : ∀ s : Int, 0 < s → Int.tdiv (0 * 1024 * 1024 + s - 1) s = 0 := by
    intro s hs
    rw [Int.tdiv_eq_ediv (by omega) hs.le]
    exact Int.ediv_eq_zero_of_lt (by omega) (by omega)
  have hz2 : ∀ s : Int, 0 < s → Int.tdiv (0 + s - 1) s = 0 := by
    intro s hs
    have := hz s hs
    simpa using this
  have e0 : toString (0 : Int) = "0" := by decide
  have eg : fmt2 0 (1024 * 1024 * 1024) = "0.00" := by decide
  have eg2 : fmt2 0 1024 = "0.00" := by decide
  have et : Int.tdiv 0 (1024 * 1024) = 0 := by decide
  have et2 : Int.tdiv 0 (1024 * 1024 * 1024) = 0 := by decide
  refine ⟨?_, ?_, ?_, ?_, ?_, ?_, ?_, ?_⟩
  · intro f
    exact create_empty_run fuel f (cst.setText f "") (by cases f <;> rfl)
  · exact resize_empty_run fuel .entry_bytes _ (Or.inl rfl) rfl
  · exact resize_empty_run fuel .entry_mib _ (Or.inr rfl) rfl
  · unfold create_edit
    rw [create_bytes_run fuel (cst.setText .entry_bytes t) hcu hcb ht (by show cst.sector_size ≠ 0; omega)]
    simp only [CreateDialog.setText, h0, et, hz2 _ hcs, e0, eg]
  · unfold create_edit
    rw [create_mib_run fuel (cst.setText .entry_mib t) hcu hcm ht (by show cst.sector_size ≠ 0; omega)]
    simp only [CreateDialog.setText, h0, lt_self_iff_false, if_false, hz _ hcs, e0, eg2,
      sub_zero]
    rfl
  · unfold create_edit
    rw [create_sectors_run fuel (cst.setText .entry_sectors t) hcu hcsec ht]
    simp only [CreateDialog.setText, h0, zero_mul, et, e0, eg, sub_zero]
  · unfold resize_edit
    rw [resize_bytes_run fuel (rst.setText .entry_bytes t) hrb ht (by show rst.sector_size ≠ 0; omega)]
    simp only [ResizeDialog.setText, h0, et, et2, hz2 _ hrs, e0]
  · unfold resize_edit
    rw [resize_mib_run fuel (rst.setText .entry_mib t) hru hrm ht (by show rst.sector_size ≠ 0; omega)]
    simp only [ResizeDialog.setText, h0, lt_self_iff_false, if_false, hz _ hrs, e0, eg2,
      sub_zero, gt_iff_lt, and_false]
    rfl

/-- C16, witness: the empty text and "abc" in the entries of both dialogs. -/
theorem empty_text_no_recompute_witness :
    create_edit 1 .entry_sectors ""
      { entry_bytes := "1048576000", entry_mib := "1000", entry_gib := "0.98",
        entry_sectors := "2048000", label_free := "", orig_free := 1000,
        sector_size := 512, updating := false,
        blocked_bytes := 0, blocked_mib := 0, blocked_gib := 0, blocked_sectors := 0 }
    = some
      { entry_bytes := "1048576000", entry_mib := "1000", entry_gib := "0.98",
        entry_sectors := "", label_free := "", orig_free := 1000,
        sector_size := 512, updating := false,
        blocked_bytes := 0, blocked_mib := 0, blocked_gib := 0, blocked_sectors := 0 } ∧
    resize_edit 2 .entry_mib "abc"
      { entry_bytes := "104857600", entry_mib := "100", entry_gib := "0.10",
        entry_sectors := "204800", entry_start := "2048", entry_end := "206847",
        label_free := "Free space after resize: 50 MiB", orig_free := 50, orig_size := 100,
        sector_size := 512, is_updating := false, blocked_bytes := 0, blocked_mib := 0,
        blocked_gib := 0, blocked_sectors := 0, blocked_start := 0, blocked_end := 0 }
    = some
      { entry_bytes := "0", entry_mib := "0", entry_gib := "0.00",
        entry_sectors := "0", entry_start := "2048", entry_end := "206847",
        label_free := "Free space after resize: 150 MiB", orig_free := 50, orig_size := 100,
        sector_size := 512, is_updating := false, blocked_bytes := 0, blocked_mib := 0,
        blocked_gib := 0, blocked_sectors := 0, blocked_start := 0, blocked_end := 0 } := by
  have h := empty_text_no_recompute 0 "abc"
    { entry_bytes := "1048576000", entry_mib := "1000", entry_gib := "0.98",
      entry_sectors := "2048000", label_free := "", orig_free := 1000,
      sector_size := 512, updating := false,
      blocked_bytes := 0, blocked_mib := 0, blocked_gib := 0, blocked_sectors := 0 }
    { entry_bytes := "104857600", entry_mib := "100", entry_gib := "0.10",
      entry_sectors := "204800", entry_start := "2048", entry_end := "206847",
      label_free := "Free space after resize: 50 MiB", orig_free := 50, orig_size := 100,
      sector_size := 512, is_updating := false, blocked_bytes := 0, blocked_mib := 0,
      blocked_gib := 0, blocked_sectors := 0, blocked_start := 0, blocked_end := 0 }
    (by decide) (by decide) (by decide) (by decide) (by decide) (by decide)
  refine ⟨h.1 .entry_sectors, ?_⟩
  rw [h.2.2.2.2.2.2.2]
  decide

/-! ## The free-space table -/

/-- C `strstr` finds `needle` exactly when it is an infix of `hay`. -/
theorem strstr_iff (hay needle : List Char) :
    strstr hay needle = true ↔ needle <:+: hay := by
  induction hay with
  | nil =>
    simp [strstr, List.isEmpty_iff]
  | cons c cs ih =>
    rw [strstr, Bool.or_eq_true, ih, List.infix_cons_iff, List.isPrefixOf_iff_prefix]

/-- What `g_strstrip` leaves is a piece of the string. -/
theorem g_strstrip_piece (s : List Char) : g_strstrip s <:+: s := by
  have h1 : g_strstrip s <+: s.dropWhile g_ascii_isspace :=
    List.rdropWhile_prefix g_ascii_isspace _
  exact List.IsInfix.trans h1.isInfix (List.dropWhile_suffix _).isInfix

/-- White space for `g_ascii_isspace` is white space for `isspace`. -/
theorem isspace_of_g_ascii_isspace (c : Char) (h : g_ascii_isspace c = true) :
    isspace c = true := by
  simp only [g_ascii_isspace, Bool.or_eq_true, decide_eq_true_eq] at h
  simp only [isspace, Bool.or_eq_true, decide_eq_true_eq]
  tauto

/-- The function `dropWhile` runs through a stretch on which the test holds. -/
theorem dropWhile_append_all (p : Char → Bool) (a b : List Char) (h : ∀ c ∈ a, p c = true) :
    (a ++ b).dropWhile p = b.dropWhile p := by
  induction a with
  | nil => rfl
  | cons x xs ih =>
    rw [List.cons_append, List.dropWhile_cons_of_pos (h x (List.mem_cons_self _ _))]
    exact ih (fun c hc => h c (List.mem_cons_of_mem _ hc))

/-- The function `dropWhile` stops at once where the test fails on the first element. -/
theorem dropWhile_head_neg (p : Char → Bool) (a : List Char)
    (h : ∀ c ∈ a.head?, p c = false) : a.dropWhile p = a := by
  cases a with
  | nil => rfl
  | cons x xs =>
    rw [List.dropWhile_cons_of_neg]
    simpa using h x rfl

/-- The function `takeWhile` takes a stretch on which the test holds, up to an element on
which it fails. -/
theorem takeWhile_append_stop (p : Char → Bool) (a b : List Char) (h : ∀ c ∈ a, p c = true)
    (hb : ∀ c ∈ b.head?, p c = false) : (a ++ b).takeWhile p = a := by
  induction a with
  | nil =>
    cases b with
    | nil => rfl
    | cons x xs =>
      rw [List.nil_append, List.takeWhile_cons_of_neg]
      simpa using hb x rfl
  | cons x xs ih =>
    rw [List.cons_append, List.takeWhile_cons_of_pos (h x (List.mem_cons_self _ _))]
    rw [ih (fun c hc => h c (List.mem_cons_of_mem _ hc))]

/-- One `%Ns` conversion on a field that fits, after any blanks, with white
space or the end of the input behind it. -/
theorem scan_s_field (width n : Nat) (t : String) (rest : List Char) (ht : is_field width t)
    (hr : ∀ c ∈ rest.head?, isspace c = true) :
    scan_s width (List.replicate n ' ' ++ t.data ++ rest) = some (t.data, rest) := by
  obtain ⟨hne, hlen, hns⟩ := ht
  have h1 : (List.replicate n ' ' ++ t.data ++ rest).dropWhile isspace = t.data ++ rest := by
    rw [List.append_assoc, dropWhile_append_all]
    · apply dropWhile_head_neg
      intro c hc
      cases htd : t.data with
      | nil => exact absurd htd hne
      | cons x xs =>
        rw [htd] at hc
        simp only [List.cons_append, List.head?_cons, Option.mem_def, Option.some.injEq] at hc
        subst hc
        exact hns x (by rw [htd]; exact List.mem_cons_self _ _)
    · intro c hc
      rw [List.eq_of_mem_replicate hc]
      decide
  have h2 : ((t.data ++ rest).take width).takeWhile (fun c => !isspace c) = t.data := by
    rw [List.take_append_eq_append_take]
    rw [List.take_of_length_le hlen]
    apply takeWhile_append_stop
    · intro c hc
      simp [hns c hc]
    · intro c hc
      have hc1 : c ∈ rest.head? := by
        cases hrest : rest with
        | nil => rw [hrest] at hc; simp at hc
        | cons x xs =>
          rw [hrest] at hc
          cases hw : width - t.data.length with
          | zero => rw [hw] at hc; simp at hc
          | succ k =>
            rw [hw] at hc
            simpa using hc
      simp [hr c hc1]
  unfold scan_s
  simp only [h1, h2]
  rw [if_neg hne]
  simp

/-- GLib `g_strstrip` on an indented line with at most a line feed behind it. -/
theorem g_strstrip_line (indent : Nat) (x : List Char) (z : Char) (nl : Bool)
    (hh : ∀ c ∈ (x ++ [z]).head?, g_ascii_isspace c = false)
    (hz : g_ascii_isspace z = false) :
    g_strstrip (List.replicate indent ' ' ++ ((x ++ [z]) ++ (if nl then ['\n'] else [])))
      = x ++ [z] := by
  have h1 : (List.replicate indent ' ' ++ ((x ++ [z]) ++ (if nl then ['\n'] else []))).dropWhile
      g_ascii_isspace = (x ++ [z]) ++ (if nl then ['\n'] else []) := by
    rw [dropWhile_append_all]
    · apply dropWhile_head_neg
      intro c hc
      apply hh
      cases hx : x ++ [z] with
      | nil => simp at hx
      | cons a as => rw [hx] at hc; simpa using hc
    · intro c hc
      rw [List.eq_of_mem_replicate hc]
      decide
  have h2 : g_strstrip (List.replicate indent ' ' ++ ((x ++ [z]) ++ (if nl then ['\n'] else [])))
      = List.rdropWhile g_ascii_isspace
        ((List.replicate indent ' ' ++ ((x ++ [z]) ++ (if nl then ['\n'] else []))).dropWhile
          g_ascii_isspace) := rfl
  rw [h2, h1]
  cases nl
  · simp only [Bool.false_eq_true, if_false, List.append_nil]
    rw [List.rdropWhile_concat_neg _ _ _ (by simp [hz])]
  · simp only [if_true]
    rw [List.rdropWhile_concat_pos _ _ _ (by decide)]
    rw [List.rdropWhile_concat_neg _ _ _ (by simp [hz])]

/-- A byte that is no white space for `isspace` is none for `g_ascii_isspace`. -/
theorem g_ascii_isspace_of_not_isspace (c : Char) (h : isspace c = false) :
    g_ascii_isspace c = false := by
  cases hg : g_ascii_isspace c
  · rfl
  · rw [isspace_of_g_ascii_isspace c hg] at h
    exact absurd h (by decide)

/-- The columns after the size column start with a blank, if there are any. -/
theorem more_head_space (more : List (Nat × String)) :
    ∀ c ∈ (more.flatMap (fun p => column_gap p.1 ++ p.2.data)).head?, isspace c = true := by
  intro c hc
  cases more with
  | nil => simp at hc
  | cons m ms =>
    simp only [List.flatMap_cons, column_gap, List.replicate_succ, List.cons_append,
      List.head?_cons, Option.mem_def, Option.some.injEq] at hc
    subst hc
    decide

/-- A line of fields ends in a byte that is no white space. -/
theorem more_last (y : List Char) (more : List (Nat × String))
    (hy : ∃ y0 z, y = y0 ++ [z] ∧ isspace z = false)
    (hm : ∀ p ∈ more, p.2.data ≠ [] ∧ ∀ c ∈ p.2.data, isspace c = false) :
    ∃ x0 z, y ++ more.flatMap (fun p => column_gap p.1 ++ p.2.data) = x0 ++ [z] ∧
      isspace z = false := by
  induction more generalizing y with
  | nil =>
    obtain ⟨y0, z, e, hz⟩ := hy
    exact ⟨y0, z, by simp [e], hz⟩
  | cons m ms ih =>
    obtain ⟨hne, hns⟩ := hm m (List.mem_cons_self _ _)
    obtain ⟨d0, z, hd⟩ := (List.eq_nil_or_concat m.2.data).resolve_left hne
    have := ih (y ++ (column_gap m.1 ++ m.2.data))
      ⟨y ++ (column_gap m.1 ++ d0), z, by rw [hd]; simp [List.append_assoc],
        hns z (by rw [hd]; simp)⟩
      (fun p hp => hm p (List.mem_cons_of_mem _ hp))
    obtain ⟨x0, z2, e, hz2⟩ := this
    exact ⟨x0, z2, by rw [← e]; simp [List.flatMap_cons, List.append_assoc], hz2⟩

/-- One `%Ns` conversion on a field that fits, behind a column gap. -/
theorem scan_s_gap (width g : Nat) (t : String) (rest : List Char) (ht : is_field width t)
    (hr : ∀ c ∈ rest.head?, isspace c = true) :
    scan_s width (column_gap g ++ (t.data ++ rest)) = some (t.data, rest) := by
  have := scan_s_field width (g + 1) t rest ht hr
  rwa [List.append_assoc] at this

/-- One `%Ns` conversion on a field that fits, at the start of the input. -/
theorem scan_s_first (width : Nat) (t : String) (rest : List Char) (ht : is_field width t)
    (hr : ∀ c ∈ rest.head?, isspace c = true) :
    scan_s width (t.data ++ rest) = some (t.data, rest) := by
  have := scan_s_field width 0 t rest ht hr
  simpa using this

/-- A column gap starts with a blank. -/
theorem gap_head_space (g : Nat) (rest : List Char) :
    ∀ c ∈ (column_gap g ++ rest).head?, isspace c = true := by
  intro c hc
  simp only [column_gap, List.replicate_succ, List.cons_append, List.head?_cons,
    Option.mem_def, Option.some.injEq] at hc
  subst hc
  decide

/-- No conversion succeeds on an empty input. -/
theorem scan_s_nil (width : Nat) : scan_s width [] = none := by
  simp [scan_s]

/-- What `sscanf` stores from a well-formed numbered line: the number, start,
end and size fields and up to two more. -/
theorem sscanf_s_part (num start end_ size : String) (g1 g2 g3 : Nat)
    (more : List (Nat × String))
    (h0 : is_field 15 num) (h1 : is_field 31 start) (h2 : is_field 31 end_)
    (h3 : is_field 31 size) (hm : ∀ p ∈ more.take 2, is_field 31 p.2) :
    sscanf_s [15, 31, 31, 31, 31, 31]
      (num.data ++ (column_gap g1 ++ (start.data ++ (column_gap g2 ++ (end_.data
        ++ (column_gap g3 ++ (size.data
          ++ more.flatMap (fun p => column_gap p.1 ++ p.2.data))))))))
      = [num.data, start.data, end_.data, size.data] ++ (more.take 2).map (fun p => p.2.data) := by
  rw [sscanf_s, scan_s_first 15 num _ h0 (gap_head_space _ _)]
  simp only []
  rw [sscanf_s, scan_s_gap 31 g1 start _ h1 (gap_head_space _ _)]
  simp only []
  rw [sscanf_s, scan_s_gap 31 g2 end_ _ h2 (gap_head_space _ _)]
  simp only []
  rw [sscanf_s, scan_s_gap 31 g3 size _ h3 (more_head_space _)]
  simp only []
  cases more with
  | nil => simp [sscanf_s, scan_s_nil]
  | cons m1 ms =>
    have hm1 : is_field 31 m1.2 := hm m1 (by simp)
    rw [List.flatMap_cons, List.append_assoc]
    rw [sscanf_s, scan_s_gap 31 m1.1 m1.2 _ hm1 (more_head_space _)]
    simp only []
    cases ms with
    | nil => simp [sscanf_s, scan_s_nil]
    | cons m2 ms2 =>
      have hm2 : is_field 31 m2.2 := hm m2 (by simp)
      rw [List.flatMap_cons, List.append_assoc]
      rw [sscanf_s, scan_s_gap 31 m2.1 m2.2 _ hm2 (more_head_space _)]
      simp [sscanf_s]

/-- What `sscanf` stores from a well-formed free-space line: start, end and
size. -/
theorem sscanf_s_free (start end_ size : String) (g1 g2 g3 : Nat)
    (h1 : is_field 31 start) (h2 : is_field 31 end_) (h3 : is_field 31 size) :
    sscanf_s [31, 31, 31]
      (start.data ++ (column_gap g1 ++ (end_.data ++ (column_gap g2 ++ (size.data
        ++ (column_gap g3 ++ "Free Space".data))))))
      = [start.data, end_.data, size.data] := by
  rw [sscanf_s, scan_s_first 31 start _ h1 (gap_head_space _ _)]
  simp only []
  rw [sscanf_s, scan_s_gap 31 g1 end_ _ h2 (gap_head_space _ _)]
  simp only []
  rw [sscanf_s, scan_s_gap 31 g2 size _ h3 (gap_head_space _ _)]
  simp [sscanf_s]

/-- A field ends in a byte that is no white space. -/
theorem field_last (width : Nat) (t : String) (y : List Char) (ht : is_field width t) :
    ∃ y0 z, y ++ t.data = y0 ++ [z] ∧ isspace z = false := by
  obtain ⟨hne, -, hns⟩ := ht
  obtain ⟨d0, z, hd⟩ := (List.eq_nil_or_concat t.data).resolve_left hne
  exact ⟨y ++ d0, z, by rw [hd, List.concat_eq_append, List.append_assoc],
    hns z (by rw [hd]; simp)⟩

/-- A line that starts with a field starts with a byte that is no white space. -/
theorem field_head (width : Nat) (t : String) (rest : List Char) (ht : is_field width t) :
    ∀ c ∈ (t.data ++ rest).head?, g_ascii_isspace c = false := by
  obtain ⟨hne, -, hns⟩ := ht
  intro c hc
  cases htd : t.data with
  | nil => exact absurd htd hne
  | cons x xs =>
    rw [htd] at hc
    simp only [List.cons_append, List.head?_cons, Option.mem_def, Option.some.injEq] at hc
    subst hc
    exact g_ascii_isspace_of_not_isspace _ (hns x (by rw [htd]; exact List.mem_cons_self _ _))

/-- The loop on a well-formed numbered line, in the table: one row, that of
the line. -/
theorem parse_areas_part (disk_name : String) (blkid : String → String) (rest : List String)
    (indent : Nat) (num : String) (g1 : Nat) (start : String) (g2 : Nat) (end_ : String)
    (g3 : Nat) (size : String) (more : List (Nat × String)) (nl : Bool)
    (hw : (TableLine.part indent num g1 start g2 end_ g3 size more nl).well_formed) :
    parse_areas disk_name blkid
        ((TableLine.part indent num g1 start g2 end_ g3 size more nl).text :: rest) true
      = (TableLine.part indent num g1 start g2 end_ g3 size more nl).region disk_name blkid
        :: parse_areas disk_name blkid rest true := by
  obtain ⟨h0, h1, h2, h3, hm, hm2, hfree, hhead⟩ := hw
  have hall : ∀ p ∈ more, p.2.data ≠ [] ∧ ∀ c ∈ p.2.data, isspace c = false := by
    intro p hp
    rw [← List.take_append_drop 2 more, List.mem_append] at hp
    rcases hp with hp | hp
    · exact ⟨(hm p hp).1, (hm p hp).2.2⟩
    · exact ⟨(hm2 p hp).1, (hm2 p hp).2.2⟩
  -- the text of the line, grouped as indent, content, end
  have hx : ∃ x0 z, num.data ++ (column_gap g1 ++ (start.data ++ (column_gap g2 ++ (end_.data
        ++ (column_gap g3 ++ (size.data
          ++ more.flatMap (fun p => column_gap p.1 ++ p.2.data))))))) = x0 ++ [z] ∧
      isspace z = false := by
    have := more_last (num.data ++ (column_gap g1 ++ (start.data ++ (column_gap g2
      ++ (end_.data ++ (column_gap g3 ++ size.data)))))) more
      (by
        obtain ⟨y0, z, e, hz⟩ := field_last 31 size (num.data ++ (column_gap g1
          ++ (start.data ++ (column_gap g2 ++ (end_.data ++ column_gap g3))))) h3
        exact ⟨y0, z, by rw [← e]; simp [List.append_assoc], hz⟩)
      hall
    obtain ⟨x0, z, e, hz⟩ := this
    exact ⟨x0, z, by rw [← e]; simp [List.append_assoc], hz⟩
  obtain ⟨x0, z, hxe, hz⟩ := hx
  have htext : (TableLine.part indent num g1 start g2 end_ g3 size more nl).text.data
      = List.replicate indent ' ' ++ ((x0 ++ [z]) ++ (if nl then ['\n'] else [])) := by
    rw [← hxe]
    simp [TableLine.text, List.append_assoc]
  have htrim : g_strstrip (TableLine.part indent num g1 start g2 end_ g3 size more nl).text.data
      = x0 ++ [z] := by
    rw [htext]
    apply g_strstrip_line
    · rw [← hxe]
      exact field_head 15 num _ h0
    · exact g_ascii_isspace_of_not_isspace _ hz
  have hnf : strstr (x0 ++ [z]) "Free Space".data = false := by
    cases hs : strstr (x0 ++ [z]) "Free Space".data
    · rfl
    · have hi := (strstr_iff _ _).1 hs
      rw [← htrim] at hi
      have := (strstr_iff _ _).2 (List.IsInfix.trans hi (g_strstrip_piece _))
      rw [hfree] at this
      exact absurd this (by decide)
  rw [parse_areas]
  simp only [hhead, Bool.false_eq_true, if_false, Bool.not_true, htrim]
  rw [if_neg (by simp), hnf]
  simp only [Bool.false_eq_true, if_false]
  rw [← hxe, sscanf_s_part num start end_ size g1 g2 g3 more h0 h1 h2 h3 hm]
  have hlen : ([num.data, start.data, end_.data, size.data]
      ++ (more.take 2).map (fun p => p.2.data)).length ≥ 4 := by simp
  rw [if_pos hlen]
  congr 1
  cases more with
  | nil =>
    cases hp : ( g_str_has_prefix disk_name "nvme" || g_str_has_prefix disk_name "mmcblk") <;>
      simp [TableLine.region, hp, String.append_assoc]
  | cons m1 ms =>
    cases ms with
    | nil =>
      cases hp : ( g_str_has_prefix disk_name "nvme" || g_str_has_prefix disk_name "mmcblk") <;>
        simp [TableLine.region, hp, String.append_assoc]
    | cons m2 ms2 =>
      cases hp : ( g_str_has_prefix disk_name "nvme" || g_str_has_prefix disk_name "mmcblk") <;>
        simp [TableLine.region, hp, String.append_assoc]

/-- The loop on a well-formed free-space line, in the table: one row, that of
the line. -/
theorem parse_areas_free (disk_name : String) (blkid : String → String) (rest : List String)
    (indent : Nat) (start : String) (g1 : Nat) (end_ : String) (g2 : Nat) (size : String)
    (g3 : Nat) (nl : Bool)
    (hw : (TableLine.free indent start g1 end_ g2 size g3 nl).well_formed) :
    parse_areas disk_name blkid
        ((TableLine.free indent start g1 end_ g2 size g3 nl).text :: rest) true
      = (TableLine.free indent start g1 end_ g2 size g3 nl).region disk_name blkid
        :: parse_areas disk_name blkid rest true := by
  obtain ⟨h1, h2, h3, hhead⟩ := hw
  have hxe : start.data ++ (column_gap g1 ++ (end_.data ++ (column_gap g2 ++ (size.data
        ++ (column_gap g3 ++ "Free Space".data)))))
      = (start.data ++ (column_gap g1 ++ (end_.data ++ (column_gap g2 ++ (size.data
        ++ (column_gap g3 ++ "Free Spac".data)))))) ++ ['e'] := by
    simp [List.append_assoc]
  have htext : (TableLine.free indent start g1 end_ g2 size g3 nl).text.data
      = List.replicate indent ' ' ++ (((start.data ++ (column_gap g1 ++ (end_.data
        ++ (column_gap g2 ++ (size.data ++ (column_gap g3 ++ "Free Spac".data))))))
          ++ ['e']) ++ (if nl then ['\n'] else [])) := by
    rw [← hxe]
    simp [TableLine.text, List.append_assoc]
  have htrim : g_strstrip (TableLine.free indent start g1 end_ g2 size g3 nl).text.data
      = start.data ++ (column_gap g1 ++ (end_.data ++ (column_gap g2 ++ (size.data
        ++ (column_gap g3 ++ "Free Space".data))))) := by
    rw [htext, hxe]
    apply g_strstrip_line
    · rw [← hxe]
      exact field_head 31 start _ h1
    · decide
  have hf : strstr (start.data ++ (column_gap g1 ++ (end_.data ++ (column_gap g2 ++ (size.data
        ++ (column_gap g3 ++ "Free Space".data)))))) "Free Space".data = true := by
    rw [strstr_iff]
    refine ⟨start.data ++ (column_gap g1 ++ (end_.data ++ (column_gap g2 ++ (size.data
        ++ column_gap g3)))), [], ?_⟩
    simp [List.append_assoc]
  rw [parse_areas]
  simp only [hhead, Bool.false_eq_true, if_false, Bool.not_true, htrim]
  rw [if_neg (fun h => h1.1 (List.append_eq_nil.1 h).1)]
  rw [if_pos hf, sscanf_s_free start end_ size g1 g2 g3 h1 h2 h3]
  simp [TableLine.region]

/-- The loop on a well-formed line, in the table: one row, that of the line. -/
theorem parse_areas_line (disk_name : String) (blkid : String → String) (rest : List String)
    (l : TableLine) (hw : l.well_formed) :
    parse_areas disk_name blkid (l.text :: rest) true
      = l.region disk_name blkid :: parse_areas disk_name blkid rest true := by
  cases l with
  | free indent start g1 end_ g2 size g3 nl =>
    exact parse_areas_free disk_name blkid rest indent start g1 end_ g2 size g3 nl hw
  | part indent num g1 start g2 end_ g3 size more nl =>
    exact parse_areas_part disk_name blkid rest indent num g1 start g2 end_ g3 size more nl hw

/-- In the table the loop works line by line. -/
theorem parse_areas_append_true (disk_name : String) (blkid : String → String)
    (a b : List String) :
    parse_areas disk_name blkid (a ++ b) true
      = parse_areas disk_name blkid a true ++ parse_areas disk_name blkid b true := by
  induction a with
  | nil => rfl
  | cons l ls ih =>
    rw [List.cons_append, parse_areas, parse_areas, ih]
    simp only [Bool.not_true, Bool.false_eq_true, if_false]
    split
    · rfl
    · split
      · rfl
      · split
        · rfl
        · split <;> rfl

/-- Before the header no line gives a row. -/
theorem parse_areas_before_header (disk_name : String) (blkid : String → String)
    (pre rest : List String) (hp : ∀ l ∈ pre, is_table_header l = false) :
    parse_areas disk_name blkid (pre ++ rest) false = parse_areas disk_name blkid rest false := by
  induction pre with
  | nil => rfl
  | cons l ls ih =>
    rw [List.cons_append, parse_areas, hp l (List.mem_cons_self _ _)]
    simp only [Bool.false_eq_true, if_false, Bool.not_false, if_true]
    exact ih (fun l hl => hp l (List.mem_cons_of_mem _ hl))

/-- C17 as stated fails: for a free-space line written as in the example of
the claim, marker first, the parser stores the first three words of the line:
`Free Space 500MiB 1200MiB 700MiB` gives a region with start `Free`, end
`Space` and size `500MiB`, the start field of the line, not its size field
`700MiB`.  And a numbered line that holds the words `Free Space`, here as the
name of partition 1, gives a free region, with the number as start and the
end field `500MiB` as size. -/
theorem free_marker_first_counterexample :
    show_disk_areas_rows "sdb" (fun _ => "")
      "Number  Start  End  Size  File system  Flags\nFree Space 500MiB 1200MiB 700MiB\n"
    = [{ start := "Free", end_ := "Space", size := "500MiB", type := "Free Space",
         fs := "" }] ∧
    show_disk_areas_rows "sdb" (fun _ => "")
      ("Number  Start  End  Size  File system  Name  Flags\n"
        ++ " 1  1.00MiB  500MiB  499MiB  ext4  Free Space\n")
    = [{ start := "1", end_ := "1.00MiB", size := "500MiB", type := "Free Space",
         fs := "" }] := by
  decide

/-- The example of C17, read by the parser (with `blkid` telling `ext4`): two
rows, that of the partition and then that of the free space, with the sizes
`499MiB` and `500MiB`; the start and end of the second row are the words
`Free` and `Space`, and its size is the third word of the line, the start
field. -/
theorem spec_example_rows :
    show_disk_areas_rows "sdb" (fun _ => "ext4\n")
      ("Number  Start  End  Size  File system  Flags\n"
        ++ "1  1.00MiB  500MiB  499MiB  ext4\n" ++ "Free Space 500MiB 1000MiB 500MiB\n")
    = [{ start := "1.00MiB", end_ := "500MiB", size := "499MiB", type := "ext4",
         fs := "ext4" },
       { start := "Free", end_ := "Space", size := "500MiB", type := "Free Space",
         fs := "" }] := by
  decide

/-- C17 (as amended): for every report made of a header line and well-formed
lines behind it, free-space lines written fields first (start, end, size,
then `Free Space`, as parted prints them) and numbered lines (number, start,
end, size and any more fields), the loop gives exactly one row per line, in
the order of the lines, each with the start, end and size fields of its line;
the row of a free-space line has the type `Free Space` and the row of a
numbered line has another type. -/
theorem parse_areas_well_formed (disk_name : String) (blkid : String → String)
    (header : String) (ls : List TableLine) (hh : is_table_header header = true)
    (hl : ∀ l ∈ ls, l.well_formed) :
    parse_areas disk_name blkid (header :: ls.map TableLine.text) false
      = ls.map (TableLine.region disk_name blkid) ∧
    ∀ l ∈ ls, ((l.region disk_name blkid).type = "Free Space" ↔ l.is_free = true) := by
  constructor
  · rw [parse_areas, hh]
    simp only [if_true]
    induction ls with
    | nil => rfl
    | cons l rest ih =>
      rw [List.map_cons, List.map_cons,
        parse_areas_line disk_name blkid _ l (hl l (List.mem_cons_self _ _)),
        ih (fun x hx => hl x (List.mem_cons_of_mem _ hx))]
  · intro l hm
    have hw := hl l hm
    cases l with
    | free indent start g1 end_ g2 size g3 nl => simp [TableLine.region, TableLine.is_free]
    | part indent num g1 start g2 end_ g3 size more nl =>
      obtain ⟨-, -, -, -, hmore, -⟩ := hw
      simp only [TableLine.region, TableLine.is_free, Bool.false_eq_true, iff_false]
      cases more with
      | nil => decide
      | cons m ms =>
        intro h
        have hf : is_field 31 m.2 := hmore m (by simp)
        have h2 : m.2 = "Free Space" := by simpa using h
        have := hf.2.2 ' ' (by rw [h2]; decide)
        exact absurd this (by decide)

/-- C17, witness: a table with one partition and the free space behind it, as
parted prints it. -/
theorem parse_areas_well_formed_witness :
    parse_areas "sdb" (fun _ => "")
      ["Number  Start    End      Size     File system  Flags\n",
       " 1      1.00MiB  500MiB   499MiB   ext4\n",
       "        500MiB   1000MiB  500MiB   Free Space\n"] false
    = [{ start := "1.00MiB", end_ := "500MiB", size := "499MiB", type := "ext4", fs := "" },
       { start := "500MiB", end_ := "1000MiB", size := "500MiB", type := "Free Space",
         fs := "" }] :=
  (parse_areas_well_formed "sdb" (fun _ => "")
    "Number  Start    End      Size     File system  Flags\n"
    [TableLine.part 1 "1" 5 "1.00MiB" 1 "500MiB" 2 "499MiB" [(2, "ext4")] true,
     TableLine.free 8 "500MiB" 2 "1000MiB" 1 "500MiB" 2 true]
    (by decide) (by decide)).1

/-- A line of white space is stripped to nothing. -/
theorem g_strstrip_blank (s : List Char) (h : ∀ c ∈ s, g_ascii_isspace c = true) :
    g_strstrip s = [] := by
  have : s.dropWhile g_ascii_isspace = [] := by
    rw [List.dropWhile_eq_nil_iff]
    exact h
  simp [g_strstrip, this]

/-- A line of white space is not taken for the header. -/
theorem is_table_header_blank (l : String) (h : ∀ c ∈ l.data, g_ascii_isspace c = true) :
    is_table_header l = false := by
  cases hs : strstr l.data "Number".data
  · simp [is_table_header, hs]
  · have hi := (strstr_iff _ _).1 hs
    have hN : 'N' ∈ l.data := hi.subset (by decide)
    have := h 'N' hN
    exact absurd this (by decide)

/-- In the table, lines of white space give no row. -/
theorem parse_areas_blank (disk_name : String) (blkid : String → String) (blank : List String)
    (in_table : Bool) (hb : ∀ l ∈ blank, ∀ c ∈ l.data, g_ascii_isspace c = true) :
    parse_areas disk_name blkid blank in_table = [] := by
  induction blank with
  | nil => rfl
  | cons l ls ih =>
    have hl := hb l (List.mem_cons_self _ _)
    rw [parse_areas, is_table_header_blank l hl, g_strstrip_blank l.data hl]
    simp only [Bool.false_eq_true, if_false, if_true]
    rw [ih (fun x hx => hb x (List.mem_cons_of_mem _ hx))]
    simp

/-- Without a header no line gives a row. -/
theorem parse_areas_no_header (disk_name : String) (blkid : String → String)
    (pre : List String) (hp : ∀ l ∈ pre, is_table_header l = false) :
    parse_areas disk_name blkid pre false = [] := by
  have := parse_areas_before_header disk_name blkid pre [] hp
  rw [List.append_nil] at this
  rw [this]
  rfl

/-- C18: rows come only from the lines behind a header line, one that holds
both `Number` and `File system`.  With lines `pre` that are no header lines
in front of the header, the rows are those the loop gives in the table for
the lines `rest` behind the header, whatever `pre` and the header hold; a
report without header line gives no row, and so do the empty report and a
report with only lines of white space behind the header. -/
theorem parse_areas_after_header (disk_name : String) (blkid : String → String)
    (pre : List String) (header : String) (rest blank : List String)
    (hp : ∀ l ∈ pre, is_table_header l = false) (hh : is_table_header header = true)
    (hb : ∀ l ∈ blank, ∀ c ∈ l.data, g_ascii_isspace c = true) :
    parse_areas disk_name blkid (pre ++ header :: rest) false
      = parse_areas disk_name blkid rest true ∧
    parse_areas disk_name blkid pre false = [] ∧
    parse_areas disk_name blkid (pre ++ header :: blank) false = [] ∧
    show_disk_areas_rows disk_name blkid "" = [] := by
  have h1 : ∀ r, parse_areas disk_name blkid (pre ++ header :: r) false
      = parse_areas disk_name blkid r true := by
    intro r
    rw [parse_areas_before_header disk_name blkid pre _ hp, parse_areas, hh]
    simp
  refine ⟨h1 rest, parse_areas_no_header disk_name blkid pre hp, ?_, rfl⟩
  rw [h1 blank]
  exact parse_areas_blank disk_name blkid blank true hb

/-- C18, witness: a banner of two lines in front of the header and one
partition behind it; the same banner and header with blank lines behind. -/
theorem parse_areas_after_header_witness :
    parse_areas "sdb" (fun _ => "")
      (["Model: ATA Disk (scsi)\n", "Number of the beast\n"]
        ++ "Number  Start  End  Size  Type  File system  Flags\n"
          :: [" 1  1.00MiB  500MiB  499MiB  primary  ext4\n"]) false
      = parse_areas "sdb" (fun _ => "") [" 1  1.00MiB  500MiB  499MiB  primary  ext4\n"] true ∧
    parse_areas "sdb" (fun _ => "")
      (["Model: ATA Disk (scsi)\n", "Number of the beast\n"]
        ++ "Number  Start  End  Size  Type  File system  Flags\n" :: ["\n", "  \n"]) false
      = [] := by
  have h := parse_areas_after_header "sdb" (fun _ => "")
    ["Model: ATA Disk (scsi)\n", "Number of the beast\n"]
    "Number  Start  End  Size  Type  File system  Flags\n"
    [" 1  1.00MiB  500MiB  499MiB  primary  ext4\n"] ["\n", "  \n"]
    (by decide) (by decide) (by decide)
  exact ⟨h.1, h.2.2.1⟩

/-- In the table, a line that is not a free-space line and from which `sscanf`
stores fewer than four strings gives no row, and the rows of the other lines
are those of the report without it. -/
theorem parse_areas_short_numbered (disk_name : String) (blkid : String → String)
    (before after : List String) (l : String)
    (hf : strstr (g_strstrip l.data) "Free Space".data = false)
    (hn : (sscanf_s [15, 31, 31, 31, 31, 31] (g_strstrip l.data)).length < 4) :
    parse_areas disk_name blkid (before ++ l :: after) true
      = parse_areas disk_name blkid (before ++ after) true := by
  rw [parse_areas_append_true, parse_areas_append_true]
  congr 1
  rw [parse_areas]
  have hn2 : ¬ (sscanf_s [15, 31, 31, 31, 31, 31] (g_strstrip l.data)).length ≥ 4 := by omega
  simp only [Bool.not_true, Bool.false_eq_true, if_false, hf, hn2]
  split
  · rfl
  · split <;> rfl

/-- C19: behind the header, the line ` 1 1.00MiB` (two fields where a numbered
line needs four) gives no row, but the line `Free Space` (no start, end or
size field) gives a row, with the words `Free` and `Space` as start and end
and an empty size, and so does `500MiB Free Space`: the result of `sscanf`
is checked for numbered lines only. -/
theorem short_free_line_makes_row :
    show_disk_areas_rows "sdb" (fun _ => "")
      ("Number  Start  End  Size  File system  Flags\n" ++ " 1 1.00MiB\n" ++ "Free Space\n"
        ++ "500MiB Free Space\n")
    = [{ start := "Free", end_ := "Space", size := "", type := "Free Space", fs := "" },
       { start := "500MiB", end_ := "Free", size := "Space", type := "Free Space",
         fs := "" }] := by
  decide

/-! ## The order of the device list -/

/-- C `strcmp` is negative exactly for a string that comes first byte-wise. -/
theorem strcmp_neg_iff (a b : List Char) : strcmp a b < 0 ↔ a < b := by
  induction a generalizing b with
  | nil =>
    cases b with
    | nil => simp [strcmp]
    | cons y ys => simp [strcmp, List.nil_lt_cons]
  | cons x xs ih =>
    cases b with
    | nil =>
      simp only [strcmp]
      constructor
      · intro h; omega
      · intro h; exact absurd h (List.Lex.not_nil_right _ _)
    | cons y ys =>
      rw [strcmp]
      by_cases h1 : x < y
      · simp only [h1, if_true]
        constructor
        · intro _; exact List.Lex.rel h1
        · intro _; omega
      · by_cases h2 : y < x
        · simp only [h1, h2, if_false, if_true]
          constructor
          · intro h; omega
          · intro h
            cases h with
            | cons h => exact absurd h2 (lt_irrefl _)
            | rel h => exact absurd h h1
        · have e : x = y := le_antisymm (not_lt.1 h2) (not_lt.1 h1)
          subst e
          simp only [h1, if_false, ih]
          exact (List.Lex.cons_iff).symm

/-- C `strcmp` is zero exactly for equal strings. -/
theorem strcmp_zero_iff (a b : List Char) : strcmp a b = 0 ↔ a = b := by
  induction a generalizing b with
  | nil =>
    cases b with
    | nil => simp [strcmp]
    | cons y ys => simp [strcmp]
  | cons x xs ih =>
    cases b with
    | nil => simp [strcmp]
    | cons y ys =>
      rw [strcmp]
      by_cases h1 : x < y
      · simp only [h1, if_true]
        constructor
        · intro h; omega
        · intro h
          injection h with h _
          subst h
          exact absurd h1 (lt_irrefl _)
      · by_cases h2 : y < x
        · simp only [h1, h2, if_false, if_true]
          constructor
          · intro h; omega
          · intro h
            injection h with h _
            subst h
            exact absurd h2 (lt_irrefl _)
        · have e : x = y := le_antisymm (not_lt.1 h2) (not_lt.1 h1)
          subst e
          simp only [h1, if_false, ih]
          simp

/-- C `strcmp` is at most zero exactly for a string that does not come later. -/
theorem strcmp_le_iff (a b : List Char) : strcmp a b ≤ 0 ↔ a ≤ b := by
  rw [le_iff_lt_or_eq, le_iff_lt_or_eq, strcmp_neg_iff, strcmp_zero_iff]

/-- The order of `compare_rows`: by root; within a root the rows of type disk
first; then by name. -/
theorem compare_rows_le_iff (a b : DiskRow) :
    compare_rows a b ≤ 0 ↔
      name_root a.name < name_root b.name ∨
      (name_root a.name = name_root b.name ∧
        ((a.type = "disk" ∧ b.type ≠ "disk") ∨
         ((a.type = "disk" ↔ b.type = "disk") ∧ a.name.data ≤ b.name.data))) := by
  have hda : strcmp a.type.data "disk".data = 0 ↔ a.type = "disk" := by
    rw [strcmp_zero_iff]
    exact ⟨fun h => String.ext h, fun h => by rw [h]⟩
  have hdb : strcmp b.type.data "disk".data = 0 ↔ b.type = "disk" := by
    rw [strcmp_zero_iff]
    exact ⟨fun h => String.ext h, fun h => by rw [h]⟩
  unfold compare_rows
  simp only [hda, hdb]
  by_cases h0 : strcmp (name_root a.name) (name_root b.name) = 0
  · have he := (strcmp_zero_iff _ _).1 h0
    simp only [h0, ne_eq, not_true_eq_false, if_false]
    simp only [he, lt_irrefl, false_or, true_and]
    by_cases ha : a.type = "disk" <;> by_cases hb : b.type = "disk" <;>
      simp [ha, hb, strcmp_le_iff]
  · have hne : name_root a.name ≠ name_root b.name := fun h => h0 ((strcmp_zero_iff _ _).2 h)
    simp only [ne_eq, h0, not_false_eq_true, if_true, hne, false_and, or_false]
    rw [← strcmp_neg_iff]
    omega

/-- Source `compare_rows` orders any two rows one way or the other. -/
theorem compare_rows_total (a b : DiskRow) : compare_rows a b ≤ 0 ∨ compare_rows b a ≤ 0 := by
  rw [compare_rows_le_iff, compare_rows_le_iff]
  rcases lt_trichotomy (name_root a.name) (name_root b.name) with h | h | h
  · exact Or.inl (Or.inl h)
  · by_cases ha : a.type = "disk" <;> by_cases hb : b.type = "disk"
    · rcases le_total a.name.data b.name.data with hn | hn
      · exact Or.inl (Or.inr ⟨h, Or.inr ⟨by simp [ha, hb], hn⟩⟩)
      · exact Or.inr (Or.inr ⟨h.symm, Or.inr ⟨by simp [ha, hb], hn⟩⟩)
    · exact Or.inl (Or.inr ⟨h, Or.inl ⟨ha, hb⟩⟩)
    · exact Or.inr (Or.inr ⟨h.symm, Or.inl ⟨hb, ha⟩⟩)
    · rcases le_total a.name.data b.name.data with hn | hn
      · exact Or.inl (Or.inr ⟨h, Or.inr ⟨by simp [ha, hb], hn⟩⟩)
      · exact Or.inr (Or.inr ⟨h.symm, Or.inr ⟨by simp [ha, hb], hn⟩⟩)
  · exact Or.inr (Or.inl h)

/-- Source `compare_rows` is transitive. -/
theorem compare_rows_trans (a b c : DiskRow) (h1 : compare_rows a b ≤ 0)
    (h2 : compare_rows b c ≤ 0) : compare_rows a c ≤ 0 := by
  rw [compare_rows_le_iff] at *
  rcases h1 with h1 | ⟨e1, h1⟩
  · rcases h2 with h2 | ⟨e2, h2⟩
    · exact Or.inl (lt_trans h1 h2)
    · exact Or.inl (e2 ▸ h1)
  · rcases h2 with h2 | ⟨e2, h2⟩
    · exact Or.inl (e1 ▸ h2)
    · refine Or.inr ⟨e1.trans e2, ?_⟩
      rcases h1 with ⟨ha, hb⟩ | ⟨hab, hn1⟩
      · rcases h2 with ⟨hb2, _⟩ | ⟨hbc, _⟩
        · exact absurd hb2 hb
        · exact Or.inl ⟨ha, fun hc => hb (hbc.2 hc)⟩
      · rcases h2 with ⟨hb2, hc⟩ | ⟨hbc, hn2⟩
        · exact Or.inl ⟨hab.2 hb2, hc⟩
        · exact Or.inr ⟨hab.trans hbc, le_trans hn1 hn2⟩

/-- The test `rows_in_order` tells that the list is a chain for `compare_rows`. -/
theorem rows_in_order_iff (out : List DiskRow) :
    rows_in_order out = true ↔ out.Chain' (fun a b => compare_rows a b ≤ 0) := by
  induction out with
  | nil => simp [rows_in_order]
  | cons a rest ih =>
    cases rest with
    | nil => simp [rows_in_order]
    | cons b rest2 =>
      rw [rows_in_order, Bool.and_eq_true, ih, List.chain'_cons, decide_eq_true_eq]

/-- The order of the sorted rows, in terms of the root that `compare_rows`
computes: for at most 256 rows `qsort` with `compare_rows` has a result, and
in every result the roots ascend, a disk comes first within a root, names
ascend among rows of one kind, and the rows of one root stand together. -/
theorem show_disk_list_order_by_root (rows : List DiskRow) (hlen : rows.length ≤ 256) :
    (∃ out, show_disk_list_shows rows out) ∧
    ∀ out, show_disk_list_shows rows out →
      out.Pairwise (fun a b =>
        name_root a.name ≤ name_root b.name ∧
        (name_root a.name = name_root b.name →
          (b.type = "disk" → a.type = "disk") ∧
          ((a.type = "disk" ↔ b.type = "disk") → a.name.data ≤ b.name.data))) ∧
      ∀ a b c, List.Sublist [a, b, c] out → name_root a.name = name_root c.name →
        name_root b.name = name_root a.name := by
  haveI : IsTrans DiskRow (fun a b => compare_rows a b ≤ 0) := ⟨compare_rows_trans⟩
  haveI : IsTotal DiskRow (fun a b => compare_rows a b ≤ 0) := ⟨compare_rows_total⟩
  have key : ∀ a b : DiskRow, compare_rows a b ≤ 0 →
      name_root a.name ≤ name_root b.name ∧
      (name_root a.name = name_root b.name →
        (b.type = "disk" → a.type = "disk") ∧
        ((a.type = "disk" ↔ b.type = "disk") → a.name.data ≤ b.name.data)) := by
    intro a b h
    rw [compare_rows_le_iff] at h
    rcases h with h | ⟨e, h⟩
    · exact ⟨le_of_lt h, fun e => absurd h (by rw [e]; exact lt_irrefl _)⟩
    · refine ⟨le_of_eq e, fun _ => ?_⟩
      rcases h with ⟨ha, hb⟩ | ⟨hab, hn⟩
      · exact ⟨fun _ => ha, fun hiff => absurd (hiff.1 ha) hb⟩
      · exact ⟨hab.2, fun _ => hn⟩
  constructor
  · refine ⟨rows.insertionSort (fun a b => compare_rows a b ≤ 0), hlen,
      List.perm_insertionSort _ _, ?_⟩
    exact (rows_in_order_iff _).2
      (List.sorted_insertionSort (fun a b => compare_rows a b ≤ 0) rows).chain'
  · intro out hout
    obtain ⟨-, -, hchain⟩ := hout
    have hp : out.Pairwise (fun a b => compare_rows a b ≤ 0) :=
      List.chain'_iff_pairwise.1 ((rows_in_order_iff _).1 hchain)
    have hp2 := hp.imp (fun {a b} h => key a b h)
    refine ⟨hp2, ?_⟩
    intro a b c hs hac
    have h3 := hp2.sublist hs
    simp only [List.pairwise_cons, List.mem_cons, List.mem_singleton, forall_eq_or_imp,
      forall_eq] at h3
    have hab := h3.1.1.1
    have hbc := h3.2.1.1.1
    rw [← hac] at hbc
    exact le_antisymm hbc hab

/-- The test of the root loop of `compare_rows` (DriveAssistify.c:4508): a byte
below `'0'` or above `'9'` is a byte that is no decimal digit. -/
theorem not_digit_iff (c : Char) : (decide (c < '0') || decide (c > '9')) = !c.isDigit := by
  have h0 : ('0' : Char).val.toNat = 48 := by decide
  have h9 : ('9' : Char).val.toNat = 57 := by decide
  have e1 : c < '0' ↔ c.val.toNat < 48 := by
    rw [← h0]; exact Iff.rfl
  have e2 : c > '9' ↔ 57 < c.val.toNat := by
    rw [← h9]; exact Iff.rfl
  have e3 : c.isDigit = true ↔ 48 ≤ c.val.toNat ∧ c.val.toNat ≤ 57 := by
    simp only [Char.isDigit, Bool.and_eq_true, decide_eq_true_eq]
    exact Iff.rfl
  by_cases hd : c.isDigit = true
  · have := e3.1 hd
    rw [hd]
    simp only [Bool.not_true, Bool.or_eq_false_iff, decide_eq_false_iff_not]
    rw [e1, e2]; omega
  · have hd2 : c.isDigit = false := by simpa using hd
    rw [hd2]
    simp only [Bool.not_false, Bool.or_eq_true, decide_eq_true_eq]
    rw [e1, e2]
    by_contra hc
    exact hd (e3.2 (by omega))

/-- The root `compare_rows` computes is the name up to its first decimal
digit: all of the name when it holds no digit. -/
theorem name_root_eq (name : String) :
    name_root name = name.data.takeWhile (fun c => !c.isDigit) := by
  unfold name_root
  congr 1
  funext c
  exact not_digit_iff c

/-- C20: for at most 256 rows collected from lsblk, `qsort` with
`compare_rows` has a result, and in every result the rows are grouped by the
root of their names, the root being the characters of the name before its
first decimal digit (written out as `takeWhile` below): of two rows the
earlier has the root that is byte-wise smaller or the same; with the same
root, no row of another type comes before a row of type disk, and two rows
that are both of type disk or both of another type are in ascending byte-wise
order of their names.  The rows of one root stand together: a row between two
rows of one root has that root. -/
theorem show_disk_list_order (rows : List DiskRow) (hlen : rows.length ≤ 256) :
    (∃ out, show_disk_list_shows rows out) ∧
    ∀ out, show_disk_list_shows rows out →
      out.Pairwise (fun a b =>
        a.name.data.takeWhile (fun c => !c.isDigit)
          ≤ b.name.data.takeWhile (fun c => !c.isDigit) ∧
        (a.name.data.takeWhile (fun c => !c.isDigit)
            = b.name.data.takeWhile (fun c => !c.isDigit) →
          (b.type = "disk" → a.type = "disk") ∧
          ((a.type = "disk" ↔ b.type = "disk") → a.name.data ≤ b.name.data))) ∧
      ∀ a b c, List.Sublist [a, b, c] out →
        a.name.data.takeWhile (fun c => !c.isDigit)
          = c.name.data.takeWhile (fun c => !c.isDigit) →
        b.name.data.takeWhile (fun c => !c.isDigit)
          = a.name.data.takeWhile (fun c => !c.isDigit) := by
  have h := show_disk_list_order_by_root rows hlen
  simp only [name_root_eq] at h
  exact h

/-- C20, witness: six rows of two NVMe disks and one SATA disk.  Sorted, the
rows of the root `nvme` come first, both disks in front of both partitions:
the disk `nvme1n1` stands before the partition `nvme0n1p1` although its name
is byte-wise the larger, because the two share the root `nvme`. -/
theorem show_disk_list_order_witness :
    show_disk_list_shows
      [DiskRow.named "nvme1n1p1" "part", DiskRow.named "sda1" "part",
       DiskRow.named "nvme0n1" "disk", DiskRow.named "nvme1n1" "disk",
       DiskRow.named "sda" "disk", DiskRow.named "nvme0n1p1" "part"]
      [DiskRow.named "nvme0n1" "disk", DiskRow.named "nvme1n1" "disk",
       DiskRow.named "nvme0n1p1" "part", DiskRow.named "nvme1n1p1" "part",
       DiskRow.named "sda" "disk", DiskRow.named "sda1" "part"] ∧
    "nvme0n1p1".data.takeWhile (fun c => !c.isDigit) = "nvme".data ∧
    ¬ "nvme1n1".data ≤ "nvme0n1p1".data ∧
    [DiskRow.named "nvme0n1" "disk", DiskRow.named "nvme1n1" "disk",
     DiskRow.named "nvme0n1p1" "part", DiskRow.named "nvme1n1p1" "part",
     DiskRow.named "sda" "disk", DiskRow.named "sda1" "part"].Pairwise (fun a b =>
        a.name.data.takeWhile (fun c => !c.isDigit)
          ≤ b.name.data.takeWhile (fun c => !c.isDigit) ∧
        (a.name.data.takeWhile (fun c => !c.isDigit)
            = b.name.data.takeWhile (fun c => !c.isDigit) →
          (b.type = "disk" → a.type = "disk") ∧
          ((a.type = "disk" ↔ b.type = "disk") → a.name.data ≤ b.name.data))) :=
  ⟨by decide, by decide, by decide,
   ((show_disk_list_order
      [DiskRow.named "nvme1n1p1" "part", DiskRow.named "sda1" "part",
       DiskRow.named "nvme0n1" "disk", DiskRow.named "nvme1n1" "disk",
       DiskRow.named "sda" "disk", DiskRow.named "nvme0n1p1" "part"] (by decide)).2
      [DiskRow.named "nvme0n1" "disk", DiskRow.named "nvme1n1" "disk",
       DiskRow.named "nvme0n1p1" "part", DiskRow.named "nvme1n1p1" "part",
       DiskRow.named "sda" "disk", DiskRow.named "sda1" "part"] (by decide)).1⟩

/-! ## The device list: the rows read from lsblk (C21, C22) -/

/-- What `clean_string` leaves holds letters, digits and `'/'` only. -/
theorem clean_string_chars (s : List Char) :
    ∀ c ∈ clean_string s, isalnum c = true ∨ c = '/' := by
  intro c hc
  have := (List.mem_filter.1 hc).2
  simpa using this

/-- The replacement by `N/A` keeps a value of letters, digits and `'/'` such. -/
theorem not_applicable_chars (s : String) (h : ∀ c ∈ s.data, isalnum c = true ∨ c = '/') :
    ∀ c ∈ (not_applicable s).data, isalnum c = true ∨ c = '/' := by
  unfold not_applicable
  split
  · decide
  · exact h

/-- C21: for a line of lsblk whose type is `disk` and which the first check
leaves a disk, with `fstype` and `uuid` the values read from the line and
filtered: if the count of partitions read is above zero and `fstype` is not
empty, the row has an empty file system and the UUID `N/A`; if no count is
read or the count is not above zero, the row keeps `fstype` as file system
and `uuid` as UUID (`N/A` where `uuid` is empty). -/
theorem show_disk_list_row_disk (real_type part_count : String → String) (path : String)
    (ht : get_value path.data "TYPE=".data 100 = "disk".data)
    (hr : disk_is_really_part real_type
      (String.mk (clean_string (get_value path.data "NAME=".data 100))) = false) :
    (show_disk_list_row real_type part_count path).type = "disk" ∧
    (∀ count : Int,
      disk_part_count part_count (show_disk_list_row real_type part_count path).name
        = some count →
      count > 0 → clean_string (get_value path.data "FSTYPE=".data 100) ≠ [] →
      (show_disk_list_row real_type part_count path).fstype = "" ∧
      (show_disk_list_row real_type part_count path).uuid = "N/A") ∧
    ((disk_part_count part_count (show_disk_list_row real_type part_count path).name = none ∨
      ∃ count : Int,
        disk_part_count part_count (show_disk_list_row real_type part_count path).name
          = some count ∧ count ≤ 0) →
      (show_disk_list_row real_type part_count path).fstype
        = String.mk (clean_string (get_value path.data "FSTYPE=".data 100)) ∧
      (show_disk_list_row real_type part_count path).uuid
        = not_applicable (String.mk (clean_string (get_value path.data "UUID=".data 100)))) := by
  have ht2 : String.mk (get_value path.data "TYPE=".data 100) = "disk" := by rw [ht]
  refine ⟨?_, ?_, ?_⟩
  · simp [show_disk_list_row, ht2, hr]
  · intro count hc hpos hfs
    have hfs2 : String.mk (clean_string (get_value path.data "FSTYPE=".data 100)) ≠ "" := by
      intro h
      exact hfs (congrArg String.data h)
    have hc2 : disk_part_count part_count
        (String.mk (clean_string (get_value path.data "NAME=".data 100))) = some count := hc
    simp [show_disk_list_row, ht2, hr, hc2, hpos, hfs2, not_applicable]
  · intro h
    rcases h with h | ⟨count, hc, hle⟩
    · have hc2 : disk_part_count part_count
          (String.mk (clean_string (get_value path.data "NAME=".data 100))) = none := h
      simp [show_disk_list_row, ht2, hr, hc2]
    · have hc2 : disk_part_count part_count
          (String.mk (clean_string (get_value path.data "NAME=".data 100))) = some count := hc
      have : ¬ (0 < count) := by omega
      simp [show_disk_list_row, ht2, hr, hc2, this]

/-- C21, witness: the line of a disk with an ext4 signature, with two
partitions counted and with none. -/
theorem show_disk_list_row_disk_witness :
    (show_disk_list_row (fun _ => "disk\n") (fun _ => "2\n")
      ("NAME=\"sda\" SIZE=\"465.8G\" TYPE=\"disk\" FSTYPE=\"ext4\" MOUNTPOINT=\"\" "
        ++ "UUID=\"a1b2-c3d4\" MODEL=\"Samsung SSD 860\"\n")).fstype = "" ∧
    (show_disk_list_row (fun _ => "disk\n") (fun _ => "2\n")
      ("NAME=\"sda\" SIZE=\"465.8G\" TYPE=\"disk\" FSTYPE=\"ext4\" MOUNTPOINT=\"\" "
        ++ "UUID=\"a1b2-c3d4\" MODEL=\"Samsung SSD 860\"\n")).uuid = "N/A" ∧
    (show_disk_list_row (fun _ => "disk\n") (fun _ => "0\n")
      ("NAME=\"sda\" SIZE=\"465.8G\" TYPE=\"disk\" FSTYPE=\"ext4\" MOUNTPOINT=\"\" "
        ++ "UUID=\"a1b2-c3d4\" MODEL=\"Samsung SSD 860\"\n")).fstype = "ext4" ∧
    (show_disk_list_row (fun _ => "disk\n") (fun _ => "0\n")
      ("NAME=\"sda\" SIZE=\"465.8G\" TYPE=\"disk\" FSTYPE=\"ext4\" MOUNTPOINT=\"\" "
        ++ "UUID=\"a1b2-c3d4\" MODEL=\"Samsung SSD 860\"\n")).uuid = "a1b2c3d4" := by
  have h1 := show_disk_list_row_disk (fun _ => "disk\n") (fun _ => "2\n")
    ("NAME=\"sda\" SIZE=\"465.8G\" TYPE=\"disk\" FSTYPE=\"ext4\" MOUNTPOINT=\"\" "
      ++ "UUID=\"a1b2-c3d4\" MODEL=\"Samsung SSD 860\"\n") (by decide) (by decide)
  have h2 := show_disk_list_row_disk (fun _ => "disk\n") (fun _ => "0\n")
    ("NAME=\"sda\" SIZE=\"465.8G\" TYPE=\"disk\" FSTYPE=\"ext4\" MOUNTPOINT=\"\" "
      ++ "UUID=\"a1b2-c3d4\" MODEL=\"Samsung SSD 860\"\n") (by decide) (by decide)
  have a := h1.2.1 2 (by decide) (by decide) (by decide)
  have b := h2.2.2 (Or.inr ⟨0, by decide, by decide⟩)
  refine ⟨a.1, a.2, ?_, ?_⟩
  · rw [b.1]; decide
  · rw [b.2]; decide

/-- C22 as stated fails: the size and the type of a row are stored as read,
not filtered: the size `465.8G` keeps its dot, and a type such as `raid-1`
would keep its dash. -/
theorem size_not_filtered_counterexample :
    (show_disk_list_row (fun _ => "disk\n") (fun _ => "0\n")
      ("NAME=\"sda\" SIZE=\"465.8G\" TYPE=\"disk\" FSTYPE=\"ext4\" MOUNTPOINT=\"\" "
        ++ "UUID=\"a1b2-c3d4\" MODEL=\"Samsung SSD 860\"\n")).size = "465.8G" ∧
    (show_disk_list_row (fun _ => "") (fun _ => "")
      ("NAME=\"md0\" SIZE=\"1.8T\" TYPE=\"raid-1\" FSTYPE=\"\" MOUNTPOINT=\"\" "
        ++ "UUID=\"\" MODEL=\"\"\n")).type = "raid-1" := by
  decide

/-- The fields of the row stored for a line: name, file system, mount point,
UUID and model are filtered, size and type are not. -/
theorem show_disk_list_row_chars (real_type part_count : String → String) (path : String) :
    (∀ c ∈ (show_disk_list_row real_type part_count path).name.data,
      isalnum c = true ∨ c = '/') ∧
    (∀ c ∈ (show_disk_list_row real_type part_count path).fstype.data,
      isalnum c = true ∨ c = '/') ∧
    (∀ c ∈ (show_disk_list_row real_type part_count path).mountpoint.data,
      isalnum c = true ∨ c = '/') ∧
    (∀ c ∈ (show_disk_list_row real_type part_count path).uuid.data,
      isalnum c = true ∨ c = '/') ∧
    (∀ c ∈ (show_disk_list_row real_type part_count path).model.data,
      isalnum c = true ∨ c = '/') ∧
    (show_disk_list_row real_type part_count path).size
      = String.mk (get_value path.data "SIZE=".data 100) ∧
    ((show_disk_list_row real_type part_count path).type
        = String.mk (get_value path.data "TYPE=".data 100) ∨
      (show_disk_list_row real_type part_count path).type = "part") := by
  have hif : ∀ (b : Bool) (s : String), (∀ c ∈ s.data, isalnum c = true ∨ c = '/') →
      ∀ c ∈ (if b = true then "" else s).data, isalnum c = true ∨ c = '/' := by
    intro b s hs
    cases b
    · simpa using hs
    · simp
  have hna : ∀ (p : Prop) [Decidable p] (s : String),
      (∀ c ∈ s.data, isalnum c = true ∨ c = '/') →
      ∀ c ∈ (if p then not_applicable s else s).data, isalnum c = true ∨ c = '/' := by
    intro p _ s hs
    split
    · exact not_applicable_chars s hs
    · exact hs
  refine ⟨?_, ?_, ?_, ?_, ?_, rfl, ?_⟩
  · exact clean_string_chars _
  · exact hif _ _ (clean_string_chars _)
  · exact hna _ _ (clean_string_chars _)
  · exact hna _ _ (hif _ _ (clean_string_chars _))
  · exact hna _ _ (clean_string_chars _)
  · simp only [show_disk_list_row]
    split
    · exact Or.inr rfl
    · exact Or.inl rfl

/-- Every row of the device list has a name, file system, mount point, UUID
and model of ASCII letters, digits and `'/'` only: the rows collected from
the output of lsblk, and so the rows of any result of the sort. -/
theorem show_disk_list_rows_chars (real_type part_count : String → String)
    (output : String) (out : List DiskRow)
    (h : show_disk_list_shows (show_disk_list_collect real_type part_count output) out) :
    ∀ row ∈ out,
      (∀ c ∈ row.name.data, isalnum c = true ∨ c = '/') ∧
      (∀ c ∈ row.fstype.data, isalnum c = true ∨ c = '/') ∧
      (∀ c ∈ row.mountpoint.data, isalnum c = true ∨ c = '/') ∧
      (∀ c ∈ row.uuid.data, isalnum c = true ∨ c = '/') ∧
      (∀ c ∈ row.model.data, isalnum c = true ∨ c = '/') := by
  intro row hrow
  have hm : row ∈ show_disk_list_collect real_type part_count output := h.2.1.mem_iff.1 hrow
  unfold show_disk_list_collect at hm
  obtain ⟨l, -, rfl⟩ := List.mem_map.1 hm
  have := show_disk_list_row_chars real_type part_count (String.mk l)
  exact ⟨this.1, this.2.1, this.2.2.1, this.2.2.2.1, this.2.2.2.2.1⟩

/-- C22 (as amended): of every row, the name, the file system, the mount
point, the UUID and the model hold only ASCII letters, digits and `'/'`
(they are filtered by `clean_string`, and `N/A` is made of such bytes); the
size is the value read from the line, not filtered, and the type is the value
read from the line, or `part` for a disk that the first check finds to be a
partition.  This holds for the row of every line, and so for every row of
the sorted list of a scan. -/
theorem show_disk_list_row_filtered (real_type part_count : String → String) (path : String) :
    ((∀ c ∈ (show_disk_list_row real_type part_count path).name.data,
      isalnum c = true ∨ c = '/') ∧
    (∀ c ∈ (show_disk_list_row real_type part_count path).fstype.data,
      isalnum c = true ∨ c = '/') ∧
    (∀ c ∈ (show_disk_list_row real_type part_count path).mountpoint.data,
      isalnum c = true ∨ c = '/') ∧
    (∀ c ∈ (show_disk_list_row real_type part_count path).uuid.data,
      isalnum c = true ∨ c = '/') ∧
    (∀ c ∈ (show_disk_list_row real_type part_count path).model.data,
      isalnum c = true ∨ c = '/') ∧
    (show_disk_list_row real_type part_count path).size
      = String.mk (get_value path.data "SIZE=".data 100) ∧
    ((show_disk_list_row real_type part_count path).type
        = String.mk (get_value path.data "TYPE=".data 100) ∨
      (show_disk_list_row real_type part_count path).type = "part")) ∧
    ∀ (output : String) (out : List DiskRow),
      show_disk_list_shows (show_disk_list_collect real_type part_count output) out →
      ∀ row ∈ out,
        (∀ c ∈ row.name.data, isalnum c = true ∨ c = '/') ∧
        (∀ c ∈ row.fstype.data, isalnum c = true ∨ c = '/') ∧
        (∀ c ∈ row.mountpoint.data, isalnum c = true ∨ c = '/') ∧
        (∀ c ∈ row.uuid.data, isalnum c = true ∨ c = '/') ∧
        (∀ c ∈ row.model.data, isalnum c = true ∨ c = '/') :=
  ⟨show_disk_list_row_chars real_type part_count path,
   fun output out h => show_disk_list_rows_chars real_type part_count output out h⟩

/-- C22, witness: the row of a partition line; the dash of the UUID is
filtered out, the dot of the size stays. -/
theorem show_disk_list_row_filtered_witness :
    show_disk_list_row (fun _ => "") (fun _ => "")
      ("NAME=\"sda1\" SIZE=\"100.5M\" TYPE=\"part\" FSTYPE=\"vfat\" MOUNTPOINT=\"/boot/efi\" "
        ++ "UUID=\"ABCD-1234\" MODEL=\"\"\n")
    = { name := "sda1", size := "100.5M", type := "part", fstype := "vfat",
        mountpoint := "/boot/efi", uuid := "ABCD1234", model := "", has_color := false,
        font_color := "", weight := 400 } ∧
    ∀ c ∈ (show_disk_list_row (fun _ => "") (fun _ => "")
      ("NAME=\"sda1\" SIZE=\"100.5M\" TYPE=\"part\" FSTYPE=\"vfat\" MOUNTPOINT=\"/boot/efi\" "
        ++ "UUID=\"ABCD-1234\" MODEL=\"\"\n")).uuid.data, isalnum c = true ∨ c = '/' :=
  ⟨by decide,
   (show_disk_list_row_filtered (fun _ => "") (fun _ => "")
      ("NAME=\"sda1\" SIZE=\"100.5M\" TYPE=\"part\" FSTYPE=\"vfat\" MOUNTPOINT=\"/boot/efi\" "
        ++ "UUID=\"ABCD-1234\" MODEL=\"\"\n")).1.2.2.2.1⟩

/-! ## Readings of a partition name (C24 to C28) -/

/-- Where `g_strrstr` finds no byte `c` there is none. -/
theorem g_strrstr_none_not_mem (s : List Char) (c : Char) (h : g_strrstr s c = none) :
    c ∉ s := by
  induction s with
  | nil => simp
  | cons x xs ih =>
    rw [g_strrstr] at h
    cases hx : g_strrstr xs c with
    | some i => rw [hx] at h; simp at h
    | none =>
      rw [hx] at h
      by_cases e : x = c
      · simp [e] at h
      · simp only [List.mem_cons, not_or]
        exact ⟨fun h2 => e h2.symm, ih hx⟩

/-- The offset `g_strrstr` returns is that of a byte `c` with no `c` behind it. -/
theorem g_strrstr_some (s : List Char) (c : Char) (i : Nat) (h : g_strrstr s c = some i) :
    ∃ pre suf, s = pre ++ c :: suf ∧ pre.length = i ∧ c ∉ suf := by
  induction s generalizing i with
  | nil => simp [g_strrstr] at h
  | cons x xs ih =>
    rw [g_strrstr] at h
    cases hx : g_strrstr xs c with
    | some j =>
      rw [hx] at h
      simp only [Option.some.injEq] at h
      obtain ⟨pre, suf, e, hl, hn⟩ := ih j hx
      exact ⟨x :: pre, suf, by rw [e]; rfl, by simp [hl, h], hn⟩
    | none =>
      rw [hx] at h
      by_cases e : x = c
      · simp only [e, if_true, Option.some.injEq] at h
        exact ⟨[], xs, by simp [e], by simp [h], g_strrstr_none_not_mem xs c hx⟩
      · simp [e] at h

/-- The offset `firstDigit` returns is that of a digit with no digit in front
of it. -/
theorem firstDigit_some (s : List Char) (i : Nat) (h : firstDigit s = some i) :
    ∃ pre d rest, s = pre ++ d :: rest ∧ pre.length = i ∧
      (∀ c ∈ pre, isdigit c = false) ∧ isdigit d = true := by
  induction s generalizing i with
  | nil => simp [firstDigit] at h
  | cons x xs ih =>
    rw [firstDigit] at h
    cases hx : isdigit x
    · simp only [hx, Bool.false_eq_true, if_false] at h
      cases hf : firstDigit xs with
      | none => rw [hf] at h; simp at h
      | some j =>
        rw [hf] at h
        simp only [Option.some.injEq] at h
        obtain ⟨pre, d, rest, e, hl, hp, hd⟩ := ih j hf
        refine ⟨x :: pre, d, rest, by rw [e]; rfl, by simp [hl, h], ?_, hd⟩
        intro c hc
        rcases List.mem_cons.1 hc with rfl | hc
        · exact hx
        · exact hp c hc
    · simp only [hx, if_true, Option.some.injEq] at h
      exact ⟨[], x, xs, rfl, by simp [h], by simp, hx⟩

/-- Where `firstDigit` returns nothing there is no digit. -/
theorem firstDigit_none_no_digit (s : List Char) (h : firstDigit s = none) :
    ∀ c ∈ s, isdigit c = false := by
  induction s with
  | nil => simp
  | cons x xs ih =>
    rw [firstDigit] at h
    cases hx : isdigit x
    · simp only [hx, Bool.false_eq_true, if_false] at h
      cases hf : firstDigit xs with
      | none =>
        intro c hc
        rcases List.mem_cons.1 hc with rfl | hc
        · exact hx
        · exact ih hf c hc
      | some j => rw [hf] at h; simp at h
    · simp [hx] at h

/-- A list in front of `pre ++ c :: suf` that does not hold `c` lies in front
of `pre`. -/
theorem initial_of_not_mem (l pre suf : List Char) (c : Char) (h : l <+: pre ++ c :: suf)
    (hc : c ∉ l) : l <+: pre := by
  induction pre generalizing l with
  | nil =>
    cases l with
    | nil => exact List.nil_prefix
    | cons x xs =>
      have := List.cons_prefix_cons.1 h
      exact absurd (by simp [this.1]) hc
  | cons a as ih =>
    cases l with
    | nil => exact List.nil_prefix
    | cons x xs =>
      have h2 := List.cons_prefix_cons.1 h
      rw [h2.1]
      exact List.cons_prefix_cons.2 ⟨rfl, ih xs h2.2 (fun hm => hc (List.mem_cons_of_mem _ hm))⟩

/-- GLib `g_str_has_prefix` tells that the bytes of the one string start those
of the other. -/
theorem has_prefix_iff (str pfx : String) :
    g_str_has_prefix str pfx = true ↔ pfx.data <+: str.data := by
  unfold g_str_has_prefix
  exact List.isPrefixOf_iff_prefix

/-- C25: for every partition name for which the resize workflow finds a
partition number, the device path it rebuilds from the disk name that
`get_disk_from_partition` returns and that number (with a `p` between them
when the disk name starts with `nvme` or `mmcblk`) is `/dev/` followed by the
partition name. -/
theorem resize_part_path_rebuilds (n idx : String) (h : part_num n = some idx) :
    resize_part_path (get_disk_from_partition n) idx = "/dev/" ++ n := by
  unfold part_num at h
  by_cases hp : ( g_str_has_prefix n "nvme" || g_str_has_prefix n "mmcblk") = true
  · rw [if_pos hp] at h
    cases hg : g_strrstr n.data 'p' with
    | none => rw [hg] at h; simp at h
    | some p =>
      rw [hg] at h
      simp only [] at h
      by_cases hd : isdigit (byteAfter n.data p) = true
      · rw [if_pos hd] at h
        simp only [Option.some.injEq] at h
        obtain ⟨pre, suf, e, hl, hn⟩ := g_strrstr_some n.data 'p' p hg
        have htake : n.data.take p = pre := by
          rw [e, ← hl]
          simp
        have hdisk : get_disk_from_partition n = String.mk pre := by
          unfold get_disk_from_partition
          by_cases h1 : g_str_has_prefix n "nvme" = true
          · simp [controllerDisk, h1, hg, hd, htake]
          · have h2 : g_str_has_prefix n "mmcblk" = true := by
              simpa [h1] using hp
            simp [controllerDisk, h1, h2, hg, hd, htake]
        have hpd : ( g_str_has_prefix (String.mk pre) "nvme"
            || g_str_has_prefix (String.mk pre) "mmcblk") = true := by
          rw [Bool.or_eq_true] at hp ⊢
          rcases hp with h1 | h2
          · left
            rw [has_prefix_iff] at h1 ⊢
            rw [e] at h1
            exact initial_of_not_mem _ pre suf 'p' h1 (by decide)
          · right
            rw [has_prefix_iff] at h2 ⊢
            rw [e] at h2
            exact initial_of_not_mem _ pre suf 'p' h2 (by decide)
        rw [hdisk, resize_part_path, if_pos hpd, ← h]
        apply String.ext
        simp [String.data_append, e, ← hl]
      · rw [if_neg hd] at h
        simp at h
  · rw [if_neg hp] at h
    have hp1 : g_str_has_prefix n "nvme" = false := by
      cases h1 : g_str_has_prefix n "nvme"
      · rfl
      · simp [h1] at hp
    have hp2 : g_str_has_prefix n "mmcblk" = false := by
      cases h2 : g_str_has_prefix n "mmcblk"
      · rfl
      · simp [h2] at hp
    cases hf : firstDigit n.data with
    | none => rw [hf] at h; simp at h
    | some p =>
      rw [hf] at h
      simp only [Option.some.injEq] at h
      have hdisk : get_disk_from_partition n = String.mk (n.data.take p) := by
        simp [get_disk_from_partition, controllerDisk, hp1, hp2, hf]
      have hpd : ¬ ( g_str_has_prefix (String.mk (n.data.take p)) "nvme"
          || g_str_has_prefix (String.mk (n.data.take p)) "mmcblk") = true := by
        rw [Bool.or_eq_true]
        rintro (h1 | h2)
        · rw [has_prefix_iff] at h1
          have := (has_prefix_iff n "nvme").2 (h1.trans ( List.take_prefix _ _))
          rw [hp1] at this
          exact absurd this (by decide)
        · rw [has_prefix_iff] at h2
          have := (has_prefix_iff n "mmcblk").2 (h2.trans ( List.take_prefix _ _))
          rw [hp2] at this
          exact absurd this (by decide)
      rw [hdisk, resize_part_path, if_neg hpd, ← h]
      apply String.ext
      simp [String.data_append, List.append_assoc]

/-- C25, witness: `nvme0n1p3` and `sdb12` are rebuilt. -/
theorem resize_part_path_rebuilds_witness :
    resize_part_path (get_disk_from_partition "nvme0n1p3") "3" = "/dev/nvme0n1p3" ∧
    resize_part_path (get_disk_from_partition "sdb12") "12" = "/dev/sdb12" :=
  ⟨resize_part_path_rebuilds "nvme0n1p3" "3" (by decide),
   resize_part_path_rebuilds "sdb12" "12" (by decide)⟩

/-- C24: the free-space view is not refused for the partitions `nvme0n1p1` and
`mmcblk0p2`, for which the workflows find the partition numbers 1 and 2: the
names are not of the form letters-then-digits that the test looks for, and
the report of parted is asked for the partition.  A name such as `sdb1` is
refused. -/
theorem nvme_partition_passes_disk_test :
    part_num "nvme0n1p1" = some "1" ∧
    on_show_disk_areas_command "nvme0n1p1"
      = some "parted /dev/nvme0n1p1 unit MiB print free" ∧
    part_num "mmcblk0p2" = some "2" ∧
    on_show_disk_areas_command "mmcblk0p2"
      = some "parted /dev/mmcblk0p2 unit MiB print free" ∧
    part_num "sdb1" = some "1" ∧
    on_show_disk_areas_command "sdb1" = none := by
  decide

/-- A decimal digit is no letter. -/
theorem digit_not_alpha (c : Char) (h : c.isDigit = true) : c.isAlpha = false := by
  simp only [Char.isDigit, Char.isAlpha, Char.isUpper, Char.isLower, Bool.and_eq_true,
    Bool.or_eq_false_iff, Bool.and_eq_false_iff, decide_eq_true_eq,
    decide_eq_false_iff_not] at h ⊢
  obtain ⟨-, b⟩ := h
  have b2 : c.val.toNat ≤ 57 := UInt32.le_def.1 b
  refine ⟨Or.inl ?_, Or.inl ?_⟩
  · intro h2
    have h3 : 65 ≤ c.val.toNat := UInt32.le_def.1 h2
    omega
  · intro h2
    have h3 : 97 ≤ c.val.toNat := UInt32.le_def.1 h2
    omega

/-- The free-space view is refused for every name made of letters and then
digits, such as `sdb1`. -/
theorem on_show_disk_areas_refuses (letters digits : List Char)
    (hl : letters ≠ []) (hla : ∀ c ∈ letters, c.isAlpha = true)
    (hd : digits ≠ []) (hda : ∀ c ∈ digits, c.isDigit = true) :
    on_show_disk_areas_command (String.mk (letters ++ digits)) = none := by
  have hnd : ∀ c ∈ digits.head?, c.isAlpha = false := fun c hc =>
    digit_not_alpha c (hda c (List.mem_of_mem_head? hc))
  have e1 : (letters ++ digits).takeWhile Char.isAlpha = letters :=
    takeWhile_append_stop Char.isAlpha letters digits hla hnd
  have e2 : digits.takeWhile Char.isDigit = digits := by
    have := takeWhile_append_stop Char.isDigit digits [] hda (by simp)
    simpa using this
  unfold on_show_disk_areas_command matches_letters_digits
  simp only [e1, List.drop_left, e2, List.drop_length]
  cases letters with
  | nil => exact absurd rfl hl
  | cons a as =>
    cases digits with
    | nil => exact absurd rfl hd
    | cons b bs => simp

/-- Source `get_base_device` does what `get_disk_from_partition` does. -/
theorem get_base_device_eq (dev : String) : get_base_device dev = get_disk_from_partition dev :=
  rfl

/-- C26: `get_disk_from_partition` is not idempotent on `nvme0n1p3` and on
`mmcblk0p2`: the disks it returns, `nvme0n1` and `mmcblk0`, hold no `p` in
front of a digit and are cut at their first digit when given back to it,
which leaves `nvme` and `mmcblk`. -/
theorem get_disk_from_partition_twice :
    get_disk_from_partition "nvme0n1p3" = "nvme0n1" ∧
    get_disk_from_partition (get_disk_from_partition "nvme0n1p3") = "nvme" ∧
    get_disk_from_partition "mmcblk0p2" = "mmcblk0" ∧
    get_disk_from_partition (get_disk_from_partition "mmcblk0p2") = "mmcblk" ∧
    get_base_device (get_base_device "nvme0n1p3") = "nvme" := by
  decide

/-- Where `get_disk_from_partition` is idempotent: on every name that starts
with neither `nvme` nor `mmcblk`. -/
theorem get_disk_from_partition_idem_plain (n : String)
    (h1 : g_str_has_prefix n "nvme" = false) (h2 : g_str_has_prefix n "mmcblk" = false) :
    get_disk_from_partition (get_disk_from_partition n) = get_disk_from_partition n := by
  have key : ∀ m : String, g_str_has_prefix m "nvme" = false →
      g_str_has_prefix m "mmcblk" = false → (∀ c ∈ m.data, isdigit c = false) →
      get_disk_from_partition m = m := by
    intro m a b hm
    simp [get_disk_from_partition, controllerDisk, a, b, firstDigit_none m.data hm]
  cases hf : firstDigit n.data with
  | none =>
    have e : get_disk_from_partition n = n := by
      simp [get_disk_from_partition, controllerDisk, h1, h2, hf]
    rw [e, e]
  | some p =>
    have e : get_disk_from_partition n = String.mk (n.data.take p) := by
      simp [get_disk_from_partition, controllerDisk, h1, h2, hf]
    obtain ⟨pre, d, rest, hs, hl, hpre, hd⟩ := firstDigit_some n.data p hf
    have htake : n.data.take p = pre := by
      rw [hs, ← hl]
      simp
    rw [e]
    apply key
    · cases hx : g_str_has_prefix (String.mk (n.data.take p)) "nvme"
      · rfl
      · rw [has_prefix_iff] at hx
        have := (has_prefix_iff n "nvme").2 (hx.trans ( List.take_prefix _ _))
        rw [h1] at this
        exact absurd this (by decide)
    · cases hx : g_str_has_prefix (String.mk (n.data.take p)) "mmcblk"
      · rfl
      · rw [has_prefix_iff] at hx
        have := (has_prefix_iff n "mmcblk").2 (hx.trans ( List.take_prefix _ _))
        rw [h2] at this
        exact absurd this (by decide)
    · rw [htake]
      exact hpre

/-- Where the boot-flag toggle agrees with the resolver, first part: on every
name that starts with `nvme` and whose last `'p'` is followed by a digit. -/
theorem toggle_boot_split_agrees_nvme (n : String) (pre : List Char) (d : Char)
    (rest : List Char) (hpfx : g_str_has_prefix n "nvme" = true)
    (hsplit : n.data = pre ++ 'p' :: d :: rest) (hd : isdigit d = true)
    (hlast : 'p' ∉ d :: rest) :
    toggle_boot_split n = (some ("/dev/" ++ get_disk_from_partition n), part_num n) := by
  have hdisk : get_disk_from_partition n = String.mk pre := by
    unfold get_disk_from_partition
    rw [controllerDisk_split n "nvme" pre d rest hpfx hsplit hd hlast]
  have hnum : part_num n = some (String.mk (d :: rest)) := by
    simp [part_num, hpfx, hsplit, g_strrstr_append pre (d :: rest) 'p' hlast,
      byteAfter_append, hd]
  have hmem : 'p' ∈ n.data := by rw [hsplit]; simp
  have hdev : ("/dev/" ++ n).data = ("/dev/".data ++ pre) ++ 'p' :: (d :: rest) := by
    simp [String.data_append, hsplit]
  have hr : strrchr ("/dev/" ++ n).data 'p' = some ("/dev/".data ++ pre).length := by
    rw [hdev]
    exact g_strrstr_append _ _ 'p' hlast
  unfold toggle_boot_split
  simp only [hpfx, hmem, and_self, if_true, hr]
  rw [hdisk, hnum, hdev]
  simp only [List.take_left, Prod.mk.injEq, Option.some.injEq]
  constructor
  · apply String.ext
    simp [String.data_append]
  · apply String.ext
    simp

/-- A run of digits at the end of a string that has no digit in front of it
is the run that `takeWhile` finds from the end. -/
theorem trailing_digits (a ds : List Char) (ha : ∀ c ∈ a.getLast?, c.isDigit = false)
    (hds : ∀ c ∈ ds, c.isDigit = true) :
    ((a ++ ds).reverse.takeWhile Char.isDigit).length = ds.length := by
  rw [List.reverse_append]
  rw [takeWhile_append_stop Char.isDigit ds.reverse a.reverse
    (fun c hc => hds c (List.mem_reverse.1 hc))
    (by
      intro c hc
      apply ha
      rw [List.head?_reverse] at hc
      exact hc)]
  simp

/-- Where the boot-flag toggle agrees with the resolver, second part: on every
name that starts with neither `nvme` nor `mmcblk` and is made of bytes that
are no digits followed by one or more digits. -/
theorem toggle_boot_split_agrees_plain (n : String) (pre : List Char) (d : Char)
    (rest : List Char)
    (h1 : g_str_has_prefix n "nvme" = false) (h2 : g_str_has_prefix n "mmcblk" = false)
    (hsplit : n.data = pre ++ d :: rest) (hpre : ∀ c ∈ pre, isdigit c = false)
    (hds : ∀ c ∈ d :: rest, isdigit c = true) :
    toggle_boot_split n = (some ("/dev/" ++ get_disk_from_partition n), part_num n) := by
  have hd : isdigit d = true := hds d (List.mem_cons_self _ _)
  have hf := firstDigit_append pre d rest hpre hd
  have hdisk : get_disk_from_partition n = String.mk pre := by
    simp [get_disk_from_partition, controllerDisk, h1, h2, hsplit, hf]
  have hnum : part_num n = some (String.mk (d :: rest)) := by
    simp [part_num, h1, h2, hsplit, hf]
  have hdev : ("/dev/" ++ n).data = ("/dev/".data ++ pre) ++ (d :: rest) := by
    simp [String.data_append, hsplit]
  have hlast : ∀ c ∈ ("/dev/".data ++ pre).getLast?, c.isDigit = false := by
    intro c hc
    rcases List.eq_nil_or_concat pre with e | ⟨p0, z, e⟩
    · subst e
      have : c = '/' := by simpa using hc.symm
      rw [this]
      decide
    · subst e
      have : c = z := by
        rw [List.concat_eq_append, ← List.append_assoc, List.getLast?_append_of_ne_nil _
          (by simp)] at hc
        simpa using hc.symm
      rw [this]
      exact hpre z (by simp)
  have htd := trailing_digits ("/dev/".data ++ pre) (d :: rest) hlast hds
  unfold toggle_boot_split
  simp only [h1, Bool.false_eq_true, false_and, if_false]
  rw [hdev, htd, hdisk, hnum]
  have hne : ¬ (d :: rest).length = (("/dev/".data ++ pre) ++ d :: rest).length := by
    simp
    omega
  rw [if_neg hne]
  have hp : (("/dev/".data ++ pre) ++ d :: rest).length - (d :: rest).length
      = ("/dev/".data ++ pre).length := by
    simp
    omega
  rw [hp]
  simp only [List.take_left, List.drop_left, Prod.mk.injEq, Option.some.injEq]
  constructor
  · apply String.ext
    simp [String.data_append]
  · trivial

/-- C27: for `mmcblk0p2` the boot-flag toggle cuts the device path in front of
its last digits and takes `/dev/mmcblk0p` for the disk, where
`get_disk_from_partition` returns `mmcblk0`; the partition number is 2 in
both.  For `nvme0n1p3` and `sdb1` the two readings agree. -/
theorem toggle_boot_split_mmcblk :
    toggle_boot_split "mmcblk0p2" = (some "/dev/mmcblk0p", some "2") ∧
    "/dev/" ++ get_disk_from_partition "mmcblk0p2" = "/dev/mmcblk0" ∧
    part_num "mmcblk0p2" = some "2" ∧
    toggle_boot_split "nvme0n1p3" = (some "/dev/nvme0n1", some "3") ∧
    "/dev/" ++ get_disk_from_partition "nvme0n1p3" = "/dev/nvme0n1" ∧
    toggle_boot_split "sdb1" = (some "/dev/sdb", some "1") ∧
    "/dev/" ++ get_disk_from_partition "sdb1" = "/dev/sdb" := by
  decide

/-- What `get_disk_from_partition` returns starts the name it is given. -/
theorem get_disk_from_partition_initial (n : String) :
    (get_disk_from_partition n).data <+: n.data := by
  unfold get_disk_from_partition controllerDisk
  split
  · rename_i d hd
    split at hd
    · split at hd
      · split at hd
        · injection hd with hd
          rw [← hd]
          exact List.take_prefix _ _
        · exact absurd hd (by simp)
      · exact absurd hd (by simp)
    · exact absurd hd (by simp)
  · split
    · rename_i d hd
      split at hd
      · split at hd
        · split at hd
          · injection hd with hd
            rw [← hd]
            exact List.take_prefix _ _
          · exact absurd hd (by simp)
        · exact absurd hd (by simp)
      · exact absurd hd (by simp)
    · split
      · exact List.take_prefix _ _
      · exact List.prefix_refl _

/-- The root of a name that starts another starts the root of the other. -/
theorem takeWhile_initial (p : Char → Bool) (l m : List Char) (h : l <+: m) :
    l.takeWhile p <+: m.takeWhile p := by
  induction l generalizing m with
  | nil => exact List.nil_prefix
  | cons x xs ih =>
    cases m with
    | nil => exact absurd h (by simp)
    | cons y ys =>
      have h2 := List.cons_prefix_cons.1 h
      rw [← h2.1]
      cases hx : p x
      · simp [List.takeWhile_cons, hx]
      · simp only [List.takeWhile_cons, hx, if_true]
        exact List.cons_prefix_cons.2 ⟨rfl, ih ys h2.2⟩

/-- A string that starts another does not come after it byte-wise. -/
theorem initial_le (l m : List Char) (h : l <+: m) : l ≤ m := by
  induction l generalizing m with
  | nil => exact List.nil_le
  | cons x xs ih =>
    cases m with
    | nil => exact absurd h (by simp)
    | cons y ys =>
      have h2 := List.cons_prefix_cons.1 h
      rw [← h2.1]
      exact List.cons_le_cons x (ih ys h2.2)

/-- C28: `compare_rows` puts the row of a disk strictly before the row of
type `part` of every partition name that `get_disk_from_partition` resolves
to the name of that disk, and in no result of the sort does such a partition
row stand before the disk row. -/
theorem disk_row_before_partition (rd rp : DiskRow)
    (hn : rd.name = get_disk_from_partition rp.name) (hd : rd.type = "disk")
    (hp : rp.type = "part") :
    compare_rows rd rp < 0 ∧
    ∀ rows out, show_disk_list_shows rows out → ¬ List.Sublist [rp, rd] out := by
  have hroot : name_root rd.name ≤ name_root rp.name := by
    apply initial_le
    unfold name_root
    apply takeWhile_initial
    rw [hn]
    exact get_disk_from_partition_initial rp.name
  have hpd : rp.type ≠ "disk" := by rw [hp]; decide
  have hle : compare_rows rd rp ≤ 0 := by
    rw [compare_rows_le_iff]
    rcases lt_or_eq_of_le hroot with h | h
    · exact Or.inl h
    · exact Or.inr ⟨h, Or.inl ⟨hd, hpd⟩⟩
  have hge : ¬ compare_rows rp rd ≤ 0 := by
    rw [compare_rows_le_iff]
    rintro (h | ⟨e, h⟩)
    · exact absurd hroot (not_le.2 h)
    · rcases h with ⟨h1, _⟩ | ⟨h1, _⟩
      · exact hpd h1
      · exact hpd (h1.2 hd)
  constructor
  · rcases compare_rows_total rp rd with h | h
    · exact absurd h hge
    · by_contra hnot
      have h0 : compare_rows rd rp = 0 := by omega
      -- equal rank is excluded: the disk row ranks before the partition row
      have : compare_rows rp rd ≤ 0 := by
        rw [compare_rows_le_iff]
        rw [compare_rows_le_iff] at hle
        unfold compare_rows at h0
        by_cases hs : strcmp (name_root rd.name) (name_root rp.name) = 0
        · have hda : strcmp rd.type.data "disk".data = 0 := by
            rw [strcmp_zero_iff, hd]
          have hdb : ¬ strcmp rp.type.data "disk".data = 0 := by
            rw [strcmp_zero_iff]
            intro hx
            exact hpd (String.ext hx)
          simp [hs, hda, hdb] at h0
        · simp [hs] at h0
      exact absurd this hge
  · intro rows out hout hsub
    haveI : IsTrans DiskRow (fun a b => compare_rows a b ≤ 0) := ⟨compare_rows_trans⟩
    obtain ⟨-, -, hchain⟩ := hout
    have hpw : out.Pairwise (fun a b => compare_rows a b ≤ 0) :=
      List.chain'_iff_pairwise.1 ((rows_in_order_iff _).1 hchain)
    have h2 : compare_rows rp rd ≤ 0 := by
      have := hpw.sublist hsub
      simpa using this
    exact hge h2

/-- C28, witness: the rows of `nvme0n1` and its partition `nvme0n1p3`, and of
`sdb` and `sdb1`. -/
theorem disk_row_before_partition_witness :
    compare_rows (DiskRow.named "nvme0n1" "disk") (DiskRow.named "nvme0n1p3" "part") < 0 ∧
    compare_rows (DiskRow.named "sdb" "disk") (DiskRow.named "sdb1" "part") < 0 :=
  ⟨(disk_row_before_partition (DiskRow.named "nvme0n1" "disk")
      (DiskRow.named "nvme0n1p3" "part") (by decide) (by decide) (by decide)).1,
   (disk_row_before_partition (DiskRow.named "sdb" "disk")
      (DiskRow.named "sdb1" "part") (by decide) (by decide) (by decide)).1⟩

/-! ## The file write benchmark and the sector range of a new partition (C23, C29, C30) -/

/-- When the file write benchmark is refused for lack of space: exactly when
the free space read is below the whole GiB of the test size, in KiB. -/
theorem benchmark_refusal (partition_name mib_text df_output : String)
    (hn : partition_name ≠ "") :
    on_disk_file_write_benchmark_dispatch partition_name mib_text df_output true true = none ↔
      benchmark_free_kb df_output
        < Int.tdiv (if atoll mib_text ≤ 0 then 8192 else atoll mib_text) 1024 * 1024 * 1024 := by
  unfold on_disk_file_write_benchmark_dispatch
  simp only [hn, if_false, Bool.not_true, Bool.false_eq_true, if_true]
  constructor
  · intro h
    by_contra hc
    rw [if_neg hc] at h
    exact absurd h (by simp)
  · intro h
    rw [if_pos h]

/-- C23: with 512 MiB asked for and no space left (df prints 0), and with
1500 MiB asked for and 1200000 KiB left, the benchmark is not refused and the
dd command is given to the terminal: the space needed is computed from the
whole GiB of the size, `(test_size_mib / 1024) * 1024 * 1024` KiB, which is 0
below 1024 MiB.  With 2048 MiB asked for and 1200000 KiB left it is refused. -/
theorem benchmark_not_refused :
    on_disk_file_write_benchmark_dispatch "sda1" "512" "0\n" true true
      = some ("sudo sh -c \"echo 3 > /proc/sys/vm/drop_caches\" && sync && "
          ++ "dd if=/dev/zero of='$HOME/benchmark-sda1.dat' bs=1M count=512 "
          ++ "status=progress oflag=direct && sync && rm -f '$HOME/benchmark-sda1.dat'") ∧
    on_disk_file_write_benchmark_dispatch "sda1" "1500" "1200000\n" true true
      = some ("sudo sh -c \"echo 3 > /proc/sys/vm/drop_caches\" && sync && "
          ++ "dd if=/dev/zero of='$HOME/benchmark-sda1.dat' bs=1M count=1500 "
          ++ "status=progress oflag=direct && sync && rm -f '$HOME/benchmark-sda1.dat'") ∧
    on_disk_file_write_benchmark_dispatch "sda1" "2048" "1200000\n" true true = none := by
  decide!

/-- The sector sizes offered by the dialog (DriveAssistify.c:1133). -/
theorem offered_sector_cases (s : Int) (h : s ∈ sector_options) :
    s = 512 ∨ s = 1024 ∨ s = 2048 ∨ s = 4096 ∨ s = 8192 ∨ s = 16384 := by
  simpa [sector_options] using h

/-- With an offered sector size, a whole number of MiB is a whole number of
sectors. -/
theorem mib_to_sectors (x s : Int) (h : s ∈ sector_options) :
    Int.tdiv (x * 1024 * 1024) s = x * Int.tdiv 1048576 s ∧ 0 < Int.tdiv 1048576 s := by
  rcases offered_sector_cases s h with rfl | rfl | rfl | rfl | rfl | rfl
  · exact ⟨by rw [show x * 1024 * 1024 = (x * 2048) * 512 by ring,
      Int.mul_tdiv_cancel _ (by decide)]; rfl, by decide⟩
  · exact ⟨by rw [show x * 1024 * 1024 = (x * 1024) * 1024 by ring,
      Int.mul_tdiv_cancel _ (by decide)]; rfl, by decide⟩
  · exact ⟨by rw [show x * 1024 * 1024 = (x * 512) * 2048 by ring,
      Int.mul_tdiv_cancel _ (by decide)]; rfl, by decide⟩
  · exact ⟨by rw [show x * 1024 * 1024 = (x * 256) * 4096 by ring,
      Int.mul_tdiv_cancel _ (by decide)]; rfl, by decide⟩
  · exact ⟨by rw [show x * 1024 * 1024 = (x * 128) * 8192 by ring,
      Int.mul_tdiv_cancel _ (by decide)]; rfl, by decide⟩
  · exact ⟨by rw [show x * 1024 * 1024 = (x * 64) * 16384 by ring,
      Int.mul_tdiv_cancel _ (by decide)]; rfl, by decide⟩

/-- The alignment block never moves the start sector down. -/
theorem align_start_sector_ge (start_sector s : Int) (h : s ∈ sector_options) :
    start_sector ≤ align_start_sector start_sector s := by
  unfold align_start_sector
  have hk := (mib_to_sectors 0 s h).2
  simp only []
  split
  · omega
  · rename_i h1
    split
    · have hs : 0 ≤ start_sector := by omega
      rw [Int.tdiv_eq_ediv hs hk.le]
      have := Int.lt_ediv_add_one_mul_self start_sector hk
      omega
    · exact le_refl _

/-- The alignment block leaves a multiple of the sectors per MiB that is not
below one MiB as it is. -/
theorem align_start_sector_multiple (a s : Int) (h : s ∈ sector_options) (ha : 1 ≤ a) :
    align_start_sector (a * Int.tdiv 1048576 s) s = a * Int.tdiv 1048576 s := by
  unfold align_start_sector
  have hk := (mib_to_sectors 0 s h).2
  simp only []
  have h1 : ¬ a * Int.tdiv 1048576 s < Int.tdiv 1048576 s := by nlinarith
  rw [if_neg h1]
  have h2 : Int.tmod (a * Int.tdiv 1048576 s) (Int.tdiv 1048576 s) = 0 := by
    rw [Int.tmod_eq_emod (by nlinarith) hk.le]
    exact Int.mul_emod_left _ _
  rw [if_neg (by simp [h2])]

/-- The start sector of a request with an offered sector size is
`actual_start` MiB in sectors: the alignment step changes nothing, as
`actual_start` is at least 1 when the alignment box is ticked and a whole
number of MiB is a multiple of the sectors of one MiB. -/
theorem create_start_sector_eq (r : CreateFsRequest) (hs : r.chosen_sector ∈ sector_options) :
    r.start_sector = r.actual_start * Int.tdiv 1048576 r.chosen_sector := by
  unfold CreateFsRequest.start_sector
  simp only []
  rw [(mib_to_sectors r.actual_start r.chosen_sector hs).1]
  cases ha : r.align
  · simp
  · simp only [if_true]
    apply align_start_sector_multiple _ _ hs
    unfold CreateFsRequest.actual_start
    simp only [ha, and_true]
    split <;> omega

/-- C29: for the free region from 0 to 1 MiB (the rows `0.02MiB` and
`1.00MiB` of the table in front of the first partition), a size of 1 MiB,
512-byte sectors and the alignment box ticked, the start is moved to 1 MiB
and the end stays at 1 MiB: `mkpart` is given the start sector 2048 and the
end sector 2047, and the command is dispatched. -/
theorem create_empty_sector_range :
    atoll "0.02MiB" = 0 ∧ atoll "1.00MiB" = 1 ∧
    CreateFsRequest.target_size_mib
      { disk_path := "/dev/sdb", start_mib := 0, end_mib := 1, entered_mib := 1, align := true,
        fs_display := "ext4", cluster_sel := none, chosen_sector := 512 } = 1 ∧
    CreateFsRequest.start_sector
      { disk_path := "/dev/sdb", start_mib := 0, end_mib := 1, entered_mib := 1, align := true,
        fs_display := "ext4", cluster_sel := none, chosen_sector := 512 } = 2048 ∧
    CreateFsRequest.end_sector
      { disk_path := "/dev/sdb", start_mib := 0, end_mib := 1, entered_mib := 1, align := true,
        fs_display := "ext4", cluster_sel := none, chosen_sector := 512 } - 1 = 2047 ∧
    CreateFsRequest.mkpart_cmd
      { disk_path := "/dev/sdb", start_mib := 0, end_mib := 1, entered_mib := 1, align := true,
        fs_display := "ext4", cluster_sel := none, chosen_sector := 512 }
      = "sudo parted -s /dev/sdb mkpart primary 2048s 2047s" ∧
    (on_create_fs_dispatch
      { disk_path := "/dev/sdb", start_mib := 0, end_mib := 1, entered_mib := 1, align := true,
        fs_display := "ext4", cluster_sel := none, chosen_sector := 512 } true).isSome
      = true := by
  decide

/-- Where the sector range is not empty: for a free region
`0 <= start_mib < end_mib`, a size above zero and an offered sector size, in
every case but that of the alignment box ticked on a region from 0 to 1 MiB. -/
theorem create_sector_range_nonempty (r : CreateFsRequest)
    (hs : r.chosen_sector ∈ sector_options) (h0 : 0 ≤ r.start_mib)
    (h1 : r.start_mib < r.end_mib) (ht : 0 < r.entered_mib)
    (hx : ¬ (r.align = true ∧ r.start_mib = 0 ∧ r.end_mib = 1)) :
    r.start_sector ≤ r.end_sector - 1 := by
  rw [create_start_sector_eq r hs]
  unfold CreateFsRequest.end_sector
  rw [(mib_to_sectors r.actual_end r.chosen_sector hs).1]
  have hk := (mib_to_sectors 0 r.chosen_sector hs).2
  have hlt : r.actual_start + 1 ≤ r.actual_end := by
    unfold CreateFsRequest.actual_end CreateFsRequest.target_size_mib
      CreateFsRequest.actual_start
    cases ha : r.align
    · simp only [Bool.false_eq_true, and_false, if_false]
      split <;> split <;> omega
    · simp only [and_true]
      have hx2 : ¬ (r.start_mib = 0 ∧ r.end_mib = 1) := fun h => hx ⟨ha, h⟩
      split <;> split <;> split <;> omega
  nlinarith

/-- The sectors given to `mkpart` against the whole MiB that `atoll` has read
from the row: for every request with an offered sector size and either
alignment setting, the start sector is not below `start_mib` MiB in sectors,
the last sector is below `end_mib` MiB in sectors, and the size used is at
most `end_mib - start_mib`. -/
theorem create_sectors_within_read_bounds (r : CreateFsRequest)
    (hs : r.chosen_sector ∈ sector_options) :
    Int.tdiv (r.start_mib * 1024 * 1024) r.chosen_sector ≤ r.start_sector ∧
    r.end_sector - 1 < Int.tdiv (r.end_mib * 1024 * 1024) r.chosen_sector ∧
    r.target_size_mib ≤ r.end_mib - r.start_mib := by
  have hk := (mib_to_sectors 0 r.chosen_sector hs).2
  refine ⟨?_, ?_, ?_⟩
  · have h1 : Int.tdiv (r.start_mib * 1024 * 1024) r.chosen_sector
        ≤ Int.tdiv (r.actual_start * 1024 * 1024) r.chosen_sector := by
      rw [(mib_to_sectors r.start_mib r.chosen_sector hs).1,
        (mib_to_sectors r.actual_start r.chosen_sector hs).1]
      have : r.start_mib ≤ r.actual_start := by
        unfold CreateFsRequest.actual_start
        split <;> omega
      nlinarith
    unfold CreateFsRequest.start_sector
    simp only []
    cases r.align
    · simpa using h1
    · simp only [if_true]
      exact le_trans h1 (align_start_sector_ge _ _ hs)
  · unfold CreateFsRequest.end_sector
    rw [(mib_to_sectors r.end_mib r.chosen_sector hs).1,
      (mib_to_sectors r.actual_end r.chosen_sector hs).1]
    have : r.actual_end ≤ r.end_mib := by
      unfold CreateFsRequest.actual_end
      split <;> omega
    nlinarith
  · unfold CreateFsRequest.target_size_mib
    split <;> omega

/-- C30: the free region that the table shows from `10.5MiB` to `20.0MiB`,
with a size of 5 MiB, 512-byte sectors and the alignment box ticked (the
settings the dialogs open with).  `atoll` reads the start as 10 and the end as
20, and `mkpart` is given the sectors 20480 to 30719: the partition starts at
10 MiB, half a MiB (1024 sectors) in front of the region, whose first sector
is 21504.  Likewise the region shown from `0.02MiB` to `100MiB` with the box
not ticked: the start sector given is 0, in front of the region. -/
theorem create_start_before_region :
    atoll "10.5MiB" = 10 ∧ atoll "20.0MiB" = 20 ∧
    (create_fs_request "/dev/sdb" "10.5MiB" "20.0MiB" "5" true "ext4" none 512).start_sector
      = 20480 ∧
    2 * ((create_fs_request "/dev/sdb" "10.5MiB" "20.0MiB" "5" true "ext4" none
      512).start_sector * 512) < 21 * 1048576 ∧
    (create_fs_request "/dev/sdb" "10.5MiB" "20.0MiB" "5" true "ext4" none 512).mkpart_cmd
      = "sudo parted -s /dev/sdb mkpart primary 20480s 30719s" ∧
    (on_create_fs_dispatch
      (create_fs_request "/dev/sdb" "10.5MiB" "20.0MiB" "5" true "ext4" none 512) true).isSome
      = true ∧
    atoll "0.02MiB" = 0 ∧
    (create_fs_request "/dev/sdb" "0.02MiB" "100MiB" "50" false "ext4" none 512).mkpart_cmd
      = "sudo parted -s /dev/sdb mkpart primary 0s 102399s" ∧
    (on_create_fs_dispatch
      (create_fs_request "/dev/sdb" "0.02MiB" "100MiB" "50" false "ext4" none 512) true).isSome
      = true := by
  decide

end DriveAssistify
